import Mathlib

/-!
# Task management system: access control and document quota

A shallow embedding of the backend of the task-management application
(`backend/src/models/*.js`, `backend/src/routes/{tasks,documents,users}.js`).

* The relational store is a record of lists (users, tasks, documents) plus the
  set of paths present in the upload directory.
* Every route handler is a total function from the store, the authenticated
  actor (`req.user`) and the request parameters to an `Outcome`: the HTTP
  response, the store after the request, the files unlinked and the socket
  events emitted.
* A thrown exception (a Sequelize validation or constraint error, a
  `TypeError`) is the `none` branch of the operation that throws; the handler
  maps it to its `catch` block.  A lookup by primary key also throws when the
  route parameter is not a uuid: the handlers tell that case from a missing
  row by `isUuid`.
* Strings are validated as the program does it: `notEmpty` with the white
  space of JavaScript, `len` with `isLength` of validator.js, and the column
  types of PostgreSQL (`VARCHAR(255)`, no NUL) on what is stored.
* Request bodies are records of optional fields, one per model attribute the
  body may carry; an absent key is `none`.  Bodies are taken as the handler
  sees them, that is after the sanitizers of the validation chain ran.
* Attributes that need floating point (`estimatedHours`, `actualHours`), the
  `tags` array and the `createdAt`/`updatedAt` timestamps are not part of the
  embedding.  The numbers of the pagination are doubles that hold integers;
  they are rounded as JavaScript rounds them.
-/

namespace TaskManagement

/-! ## Data model -/

/-- The identity `req.user` of the request, as attached by `authenticateToken`. -/
structure Actor where
  id : String
  role : String
deriving DecidableEq, Repr

/-- A row of table `users` (`models/User.js`). -/
structure User where
  id : String
  email : String
  password : String
  firstName : String
  lastName : String
  role : String
  isActive : Bool
  lastLogin : Option Nat
  refreshToken : Option String
deriving DecidableEq, Repr

/-- A row of table `tasks` (`models/Task.js`); dates are timestamps. -/
structure Task where
  id : String
  title : String
  description : Option String
  status : String
  priority : String
  dueDate : Option Nat
  assignedTo : Option String
  createdBy : String
  completedAt : Option Nat
deriving DecidableEq, Repr

/-- A row of table `documents` (`models/Document.js`). -/
structure Document where
  id : String
  originalName : String
  fileName : String
  filePath : String
  fileSize : Nat
  mimeType : String
  taskId : String
  uploadedBy : String
  downloadCount : Nat
  isActive : Bool
deriving DecidableEq, Repr

/-- The persistent state: the three tables and the paths present on disk. -/
structure Store where
  users : List User
  tasks : List Task
  documents : List Document
  files : List String
deriving DecidableEq, Repr

/-- What the runtime supplies to one request: generated UUIDs (the i-th draw),
the clock, the date at which the models were defined, bcrypt, the validators of
express-validator that inspect string syntax, and `MAX_FILE_SIZE`. -/
structure Env where
  uuidv4 : Nat → String
  now : Nat
  today : Nat
  bcryptHash : String → String
  bcryptCompare : String → String → Bool
  isEmail : String → Bool
  isUUID : String → Bool
  maxFileSize : Nat

/-- An HTTP response: status code, the `success` flag and `message` of the JSON
body, and the path streamed by `res.sendFile` when there is one. -/
structure Response where
  status : Nat
  success : Bool
  message : Option String
  sentFile : Option String := none
deriving DecidableEq, Repr

/-- A socket event `io.emit(event, payload)`; of the payload the task it
concerns is kept. -/
structure SocketEvent where
  event : String
  taskId : String
deriving DecidableEq, Repr

/-- The result of running a handler. -/
structure Outcome where
  store : Store
  response : Response
  unlinked : List String := []
  emitted : List SocketEvent := []
deriving DecidableEq, Repr

/-- The body of a task request, `req.body`. -/
structure TaskBody where
  id : Option String := none
  title : Option String := none
  description : Option String := none
  status : Option String := none
  priority : Option String := none
  dueDate : Option Nat := none
  assignedTo : Option String := none
  createdBy : Option String := none
  completedAt : Option (Option Nat) := none
deriving DecidableEq, Repr

/-- The body of a user update request, `req.body`. -/
structure UserBody where
  id : Option String := none
  email : Option String := none
  password : Option String := none
  firstName : Option String := none
  lastName : Option String := none
  role : Option String := none
  isActive : Option Bool := none
  lastLogin : Option (Option Nat) := none
  refreshToken : Option (Option String) := none
deriving DecidableEq, Repr

/-- The body of a change-password request. -/
structure PasswordBody where
  currentPassword : Option String := none
  newPassword : Option String := none
deriving DecidableEq, Repr

/-- One entry of `req.files` as produced by multer. -/
structure UploadedFile where
  originalname : String
  filename : String
  path : String
  size : Nat
  mimetype : String
deriving DecidableEq, Repr

/-! ## Small helpers -/

/-- JavaScript truthiness of an optional string: present and not empty. -/
def truthy (v : Option String) : Bool :=
  match v with
  | some x => decide (x ≠ "")
  | none => false

/-- The length `isLength` of validator.js measures: the characters of the
string, the variation selectors U+FE0E and U+FE0F not counted. -/
def validatorLength (x : String) : Nat :=
  x.length - (x.toList.filter (fun c => decide (c.toNat = 65038) || decide (c.toNat = 65039))).length

/-- Validator `len: [lo, hi]` of Sequelize and `isLength` of express-validator,
both `isLength` of validator.js. -/
def lenBetween (lo hi : Nat) (x : String) : Bool :=
  decide (lo ≤ validatorLength x) && decide (validatorLength x ≤ hi)

/-- What a column of type `TEXT` of PostgreSQL stores: any string without the
character NUL; with one the statement throws. -/
def pgText (x : String) : Bool :=
  !(x.toList.any (fun c => decide (c.toNat = 0)))

/-- What a column `VARCHAR(n)` of PostgreSQL stores (`DataTypes.STRING` is
`VARCHAR(255)`): at most `n` characters, none of them NUL; otherwise the
statement throws. -/
def varchar (n : Nat) (x : String) : Bool :=
  decide (x.length ≤ n) && pgText x

/-- The class `\s` of a JavaScript regular expression: tab, line feed, vertical
tab, form feed, carriage return, space, no-break space, U+1680, U+2000 to
U+200A, the line and paragraph separators, U+202F, U+205F, U+3000 and the
byte order mark. -/
def isJsWhitespace (c : Char) : Bool :=
  decide (c.toNat ∈ [9, 10, 11, 12, 13, 32, 160, 5760, 8232, 8233, 8239, 8287, 12288, 65279]) ||
  (decide (8192 ≤ c.toNat) && decide (c.toNat ≤ 8202))

/-- Validator `notEmpty` of Sequelize, `!str.match(/^[\s\t\r\n]*$/)`: the string
is not made of white space only. -/
def notEmpty (x : String) : Bool :=
  !(x.toList.all isJsWhitespace)

/-- The line terminators of a JavaScript regular expression, which `.` does
not match: line feed, carriage return, U+2028 and U+2029. -/
def isLineTerminator (c : Char) : Bool :=
  decide (c.toNat ∈ [10, 13, 8232, 8233])

/-- What `.*` can run over from the start of the string: the characters before
the first line terminator. -/
def firstLine (x : String) : List Char :=
  x.toList.takeWhile (fun c => !isLineTerminator c)

/-! ## Primary keys

The three primary keys are columns of type `uuid`.  A route parameter reaches
the database as text: PostgreSQL reads it with `string_to_uuid` and the query
throws when the text is not a uuid.  Rows hold their ids in the form
PostgreSQL prints, and the lookups compare text, so the embedding covers a
parameter that is written in that form or that is not a uuid at all. -/

/-- The test `isxdigit` of C on one character. -/
def isHexDigit (c : Char) : Bool :=
  (decide (48 ≤ c.toNat) && decide (c.toNat ≤ 57)) ||
  (decide (97 ≤ c.toNat) && decide (c.toNat ≤ 102)) ||
  (decide (65 ≤ c.toNat) && decide (c.toNat ≤ 70))

/-- The loop of `string_to_uuid` of PostgreSQL (`uuid.c`) with `n` bytes left to
read, byte `i` being next: two hexadecimal digits, then an optional hyphen
when `i` is odd and is not the last byte.  The result is the text left. -/
def uuidBytes : Nat → Nat → List Char → Option (List Char)
  | 0, _, src => some src
  | n + 1, i, a :: b :: rest =>
    if isHexDigit a && isHexDigit b then
      match rest with
      | c :: rest2 =>
        if c.toNat = 45 ∧ i % 2 = 1 ∧ i < 15 then uuidBytes n (i + 1) rest2
        else uuidBytes n (i + 1) rest
      | [] => uuidBytes n (i + 1) rest
    else none
  | _ + 1, _, _ => none

/-- The input syntax of type `uuid`, `string_to_uuid`: an optional opening
brace, 16 bytes, the closing brace when there was an opening one, and
nothing more. -/
def isUuid (x : String) : Bool :=
  match x.toList with
  | c :: src =>
    if c.toNat = 123 then uuidBytes 16 0 src == some [Char.ofNat 125]
    else uuidBytes 16 0 (c :: src) == some []
  | [] => false

/-- A digit or a letter from a to f in lower case. -/
def isLowerHexDigit (c : Char) : Bool :=
  (decide (48 ≤ c.toNat) && decide (c.toNat ≤ 57)) ||
  (decide (97 ≤ c.toNat) && decide (c.toNat ≤ 102))

/-- The bytes of a uuid as PostgreSQL prints them (`uuid_out`), with `n` bytes
left and byte `i` next: two digits in lower case, and a hyphen after the
bytes 3, 5, 7 and 9 only. -/
def uuidOutBytes : Nat → Nat → List Char → Option (List Char)
  | 0, _, src => some src
  | n + 1, i, a :: b :: rest =>
    if isLowerHexDigit a && isLowerHexDigit b then
      if i = 3 ∨ i = 5 ∨ i = 7 ∨ i = 9 then
        match rest with
        | c :: rest2 => if c.toNat = 45 then uuidOutBytes n (i + 1) rest2 else none
        | [] => none
      else uuidOutBytes n (i + 1) rest
    else none
  | _ + 1, _, _ => none

/-- The text is a uuid in the form PostgreSQL prints: 8, 4, 4, 4 and 12
hexadecimal digits in lower case, separated by hyphens.  This is the form of
every id a response carries. -/
def isCanonicalUuid (x : String) : Bool :=
  uuidOutBytes 16 0 x.toList == some []

/-- A JSON response without effects on the store. -/
def reply (s : Store) (status : Nat) (success : Bool) (message : Option String) : Outcome :=
  { store := s, response := { status := status, success := success, message := message } }

/-! ## Model layer -/

/-- Model of `Task.findByPk(id)`: the row with this id, when there is one.  Without a row
the query returns null when `id` is a uuid and throws when it is not
(`isUuid`); the handlers tell the two apart. -/
def Task.findByPk (s : Store) (id : String) : Option Task :=
  s.tasks.find? (fun t => decide (t.id = id))

/-- Model of `User.findByPk(id)`: the row with this id, when there is one; without a row,
null for a uuid and a throw otherwise, as for tasks. -/
def User.findByPk (s : Store) (id : String) : Option User :=
  s.users.find? (fun u => decide (u.id = id))

/-- Model of `User.findOne` with `where: email`. -/
def User.findOneByEmail (s : Store) (email : String) : Option User :=
  s.users.find? (fun u => decide (u.email = email))

/-- Model of `Document.findByPk(id)`: the row with this id, when there is one; without a
row, null for a uuid and a throw otherwise, as for tasks.  The included
`task` is looked up separately. -/
def Document.findByPk (s : Store) (id : String) : Option Document :=
  s.documents.find? (fun d => decide (d.id = id))

/-- Model of `Document.getDocumentCount(taskId)`: counts rows with this `taskId` and
`isActive: true`. -/
def Document.getDocumentCount (s : Store) (taskId : String) : Nat :=
  (s.documents.filter (fun d => decide (d.taskId = taskId) && d.isActive)).length

/-- Membership in the ENUM of task statuses. -/
def isTaskStatus (x : String) : Bool :=
  decide (x ∈ ["todo", "in_progress", "review", "completed"])

/-- Membership in the ENUM of task priorities. -/
def isTaskPriority (x : String) : Bool :=
  decide (x ∈ ["low", "medium", "high", "urgent"])

/-- Membership in the ENUM of user roles. -/
def isUserRole (x : String) : Bool :=
  decide (x ∈ ["admin", "user"])

/-- Foreign key to `users.id`. -/
def userExists (s : Store) (id : String) : Bool :=
  s.users.any (fun u => decide (u.id = id))

/-- Foreign key to `tasks.id`. -/
def taskExists (s : Store) (id : String) : Bool :=
  s.tasks.any (fun t => decide (t.id = id))

/-- Assigning the attributes present in the body to a task instance
(`instance.set`); the primary key of an existing row is never reassigned. -/
def Task.set (task : Task) (b : TaskBody) : Task :=
  { task with
    title := b.title.getD task.title
    description := (match b.description with
      | some d => some d
      | none => task.description)
    status := b.status.getD task.status
    priority := b.priority.getD task.priority
    dueDate := (match b.dueDate with
      | some d => some d
      | none => task.dueDate)
    assignedTo := (match b.assignedTo with
      | some a => some a
      | none => task.assignedTo)
    createdBy := b.createdBy.getD task.createdBy
    completedAt := (match b.completedAt with
      | some c => c
      | none => task.completedAt) }

/-- The validators and constraints of model `Task` on the attributes a body
sets: `title` length and `notEmpty`, the column types of `title` and
`description`, the ENUMs, `dueDate` `isAfter` the definition date, and the
two foreign keys to `users`. -/
def Task.validate (env : Env) (s : Store) (b : TaskBody) : Bool :=
  (match b.title with
    | some t => lenBetween 1 255 t && notEmpty t && varchar 255 t
    | none => true) &&
  (match b.description with
    | some d => pgText d
    | none => true) &&
  (match b.status with
    | some x => isTaskStatus x
    | none => true) &&
  (match b.priority with
    | some x => isTaskPriority x
    | none => true) &&
  (match b.dueDate with
    | some d => decide (env.today < d)
    | none => true) &&
  (match b.assignedTo with
    | some a => userExists s a
    | none => true) &&
  (match b.createdBy with
    | some c => userExists s c
    | none => true)

/-- Hook `beforeUpdate` of model `Task`: `prev` holds the previous values, so
`task.changed('status')` is `task.status ≠ prev.status`. -/
def Task.beforeUpdate (env : Env) (prev task : Task) : Task :=
  if task.status ≠ prev.status ∧ task.status = "completed" then
    { task with completedAt := some env.now }
  else if task.status ≠ prev.status ∧ task.status ≠ "completed" then
    { task with completedAt := none }
  else task

/-- Writing an instance back: the row with the same primary key is replaced. -/
def Task.save (s : Store) (task : Task) : Store :=
  { s with tasks := s.tasks.map (fun x => if x.id = task.id then task else x) }

/-- Model of `task.update(body)`: set, validate, run the hook, save.  `none` is a thrown
validation or constraint error. -/
def Task.update (env : Env) (s : Store) (task : Task) (b : TaskBody) : Option Store :=
  if Task.validate env s b then
    some (Task.save s (Task.beforeUpdate env task (Task.set task b)))
  else none

/-- Model of `Task.create(taskData)`: the id is the one of the body or a fresh UUID, the
defaults of the model fill `status` and `priority`, `title` is required.
`none` is a thrown validation or constraint error. -/
def Task.create (env : Env) (s : Store) (b : TaskBody) : Option (Task × Store) :=
  match b.title, b.createdBy with
  | some title, some createdBy =>
    let task : Task :=
      { id := b.id.getD (env.uuidv4 0)
        title := title
        description := b.description
        status := b.status.getD "todo"
        priority := b.priority.getD "medium"
        dueDate := b.dueDate
        assignedTo := b.assignedTo
        createdBy := createdBy
        completedAt := (match b.completedAt with
          | some c => c
          | none => none) }
    if Task.validate env s b && !taskExists s task.id then
      some (task, { s with tasks := s.tasks ++ [task] })
    else none
  | _, _ => none

/-- Model of `task.destroy()`: the row is removed and, through the association
`Task.hasMany(Document, onDelete: CASCADE)`, so are its documents. -/
def Task.destroy (s : Store) (task : Task) : Store :=
  { s with
    tasks := s.tasks.filter (fun t => decide (t.id ≠ task.id))
    documents := s.documents.filter (fun d => decide (d.taskId ≠ task.id)) }

/-- The `validate` blocks of model `Document` and the types of its columns, on
the values a file supplies: lengths and `notEmpty` of the three strings,
each stored in a `VARCHAR(255)` (`filePath` too, whose validator would let
500 characters through), `fileSize` between 1 and 5242880, `mimeType` in the
one-element list. -/
def fileValid (file : UploadedFile) : Bool :=
  lenBetween 1 255 file.originalname && notEmpty file.originalname &&
  varchar 255 file.originalname &&
  lenBetween 1 255 file.filename && notEmpty file.filename && varchar 255 file.filename &&
  lenBetween 1 500 file.path && notEmpty file.path && varchar 255 file.path &&
  decide (1 ≤ file.size) && decide (file.size ≤ 5242880) &&
  decide (file.mimetype = "application/pdf")

/-- The row `Document.create` builds from its values; the defaults of the
model give `downloadCount = 0` and `isActive = true`. -/
def Document.build (id : String) (file : UploadedFile) (taskId uploadedBy : String) : Document :=
  { id := id
    originalName := file.originalname
    fileName := file.filename
    filePath := file.path
    fileSize := file.size
    mimeType := file.mimetype
    taskId := taskId
    uploadedBy := uploadedBy
    downloadCount := 0
    isActive := true }

/-- The constraints of table `documents` on a new row: `fileName` is unique,
the primary key is unique, `taskId` and `uploadedBy` reference existing
rows. -/
def Document.constraints (s : Store) (d : Document) : Bool :=
  s.documents.all (fun x => decide (x.fileName ≠ d.fileName)) &&
  s.documents.all (fun x => decide (x.id ≠ d.id)) &&
  taskExists s d.taskId && userExists s d.uploadedBy

/-- Model of `Document.create(values)` with the generated primary key `id`: validate,
then insert.  `none` is a thrown validation or constraint error. -/
def Document.create (s : Store) (id : String) (file : UploadedFile)
    (taskId uploadedBy : String) : Option (Document × Store) :=
  let d := Document.build id file taskId uploadedBy
  if fileValid file && Document.constraints s d then
    some (d, { s with documents := s.documents ++ [d] })
  else none

/-- Model of `document.incrementDownloadCount()`: the instance adds one to the count it
was loaded with and saves; the save writes the changed column
`downloadCount` of the row with the primary key of the instance. -/
def Document.incrementDownloadCount (s : Store) (d : Document) : Store :=
  { s with documents := s.documents.map (fun x =>
      if x.id = d.id then { x with downloadCount := d.downloadCount + 1 } else x) }

/-- Model of `document.update(isActive: value)`: writes the column `isActive` of the
row with the primary key of the instance. -/
def Document.updateIsActive (s : Store) (d : Document) (value : Bool) : Store :=
  { s with documents := s.documents.map (fun x =>
      if x.id = d.id then { x with isActive := value } else x) }

/-- Assigning the attributes present in the body to a user instance. -/
def User.set (user : User) (b : UserBody) : User :=
  { user with
    email := b.email.getD user.email
    password := b.password.getD user.password
    firstName := b.firstName.getD user.firstName
    lastName := b.lastName.getD user.lastName
    role := b.role.getD user.role
    isActive := b.isActive.getD user.isActive
    lastLogin := (match b.lastLogin with
      | some l => l
      | none => user.lastLogin)
    refreshToken := (match b.refreshToken with
      | some r => r
      | none => user.refreshToken) }

/-- The validators and constraints of model `User` on the attributes a body
sets, with the column types of the strings stored as given; `email` is
unique among the other rows.  The password is validated as given and stored
hashed. -/
def User.validate (env : Env) (s : Store) (user : User) (b : UserBody) : Bool :=
  (match b.email with
    | some e => env.isEmail e && lenBetween 5 255 e && varchar 255 e &&
        s.users.all (fun u => decide (u.id = user.id) || decide (u.email ≠ e))
    | none => true) &&
  (match b.password with
    | some p => lenBetween 6 255 p
    | none => true) &&
  (match b.firstName with
    | some n => lenBetween 1 50 n && notEmpty n && varchar 255 n
    | none => true) &&
  (match b.lastName with
    | some n => lenBetween 1 50 n && notEmpty n && varchar 255 n
    | none => true) &&
  (match b.role with
    | some r => isUserRole r
    | none => true)

/-- Hook `beforeUpdate` of model `User`: a changed password is hashed.
`loaded` is the password the instance was loaded with (`none` under the default
scope, which excludes the attribute). -/
def User.beforeUpdate (env : Env) (loaded : Option String) (b : UserBody) (user : User) : User :=
  match b.password with
  | some p => if loaded ≠ some p then { user with password := env.bcryptHash p } else user
  | none => user

/-- Writing a user instance back. -/
def User.save (s : Store) (user : User) : Store :=
  { s with users := s.users.map (fun x => if x.id = user.id then user else x) }

/-- Model of `user.update(body)`: set, validate, run the hook, save. -/
def User.update (env : Env) (s : Store) (loaded : Option String) (user : User) (b : UserBody) :
    Option Store :=
  if User.validate env s user b then
    some (User.save s (User.beforeUpdate env loaded b (User.set user b)))
  else none

/-- Model of `user.destroy()` under the foreign keys the associations of
`models/index.js` give.  For each key the association declared first fixes
the rule: `tasks.createdBy` cascades, `tasks.assignedTo` is set to null,
`documents.taskId` cascades, and `documents.uploadedBy` is NO ACTION, since
`Document.belongsTo(User, uploadedBy)` stands before
`User.hasMany(Document, onDelete CASCADE)`.  So the tasks the user created
go, and their documents with them; when a document uploaded by the user is
left after that, the delete throws (`none`) and nothing changes. -/
def User.destroy (s : Store) (user : User) : Option Store :=
  let documents := s.documents.filter (fun d =>
    !(s.tasks.any (fun t => decide (t.id = d.taskId) && decide (t.createdBy = user.id))))
  if documents.any (fun d => decide (d.uploadedBy = user.id)) then none
  else
    some { s with
      users := s.users.filter (fun u => decide (u.id ≠ user.id))
      tasks := (s.tasks.filter (fun t => decide (t.createdBy ≠ user.id))).map
        (fun t => if t.assignedTo = some user.id then { t with assignedTo := none } else t)
      documents := documents }

/-! ## Middleware -/

/-- Modelled from the spec: `requireAdmin` of `middleware/auth.js`, which is
not part of the sources at hand.  The operations it guards are "admin only":
an actor whose role is not `admin` is answered 403, otherwise the handler
runs. -/
def requireAdmin (s : Store) (actor : Actor) (next : Outcome) : Outcome :=
  if actor.role ≠ "admin" then reply s 403 false (some "Admin access required")
  else next

/-- Modelled from the spec: `requireOwnershipOrAdmin(getUserIdFromParams)` of
`middleware/auth.js`, which is not part of the sources at hand.  The
operations it guards are allowed to "admin OR actor.id == targetUserId";
anyone else is answered 403. -/
def requireOwnershipOrAdmin (s : Store) (actor : Actor) (resourceUserId : String)
    (next : Outcome) : Outcome :=
  if actor.role ≠ "admin" ∧ actor.id ≠ resourceUserId then
    reply s 403 false (some "Access denied")
  else next

/-- The validation chain `taskValidation` of `routes/tasks.js` (`title` is
required, the other fields optional). -/
def taskValidation (env : Env) (b : TaskBody) : Bool :=
  (match b.title with
    | some t => lenBetween 1 255 t
    | none => false) &&
  (match b.description with
    | some d => decide (validatorLength d ≤ 2000)
    | none => true) &&
  (match b.status with
    | some x => isTaskStatus x
    | none => true) &&
  (match b.priority with
    | some x => isTaskPriority x
    | none => true) &&
  (match b.assignedTo with
    | some a => env.isUUID a
    | none => true)

/-- The validation chain `userValidation` of `routes/users.js`; `isActive` is
a boolean by its type. -/
def userValidation (env : Env) (b : UserBody) : Bool :=
  (match b.email with
    | some e => env.isEmail e
    | none => true) &&
  (match b.firstName with
    | some n => lenBetween 1 50 n
    | none => true) &&
  (match b.lastName with
    | some n => lenBetween 1 50 n
    | none => true) &&
  (match b.role with
    | some r => isUserRole r
    | none => true)

/-- The validation chain `passwordValidation` of `routes/users.js`:
`currentPassword` is not empty, `newPassword` has at least 6 characters and
matches `/^(?=.*[a-z])(?=.*[A-Z])(?=.*\d)/`.  Each lookahead starts at the
beginning of the string and its `.*` stops at the first line terminator, so
the lower-case letter, the upper-case letter and the digit are looked for in
the first line. -/
def passwordValidation (b : PasswordBody) : Bool :=
  (match b.currentPassword with
    | some c => decide (c ≠ "")
    | none => false) &&
  (match b.newPassword with
    | some p => decide (6 ≤ validatorLength p) && (firstLine p).any Char.isLower &&
        (firstLine p).any Char.isUpper && (firstLine p).any Char.isDigit
    | none => false)

/-- The multer middleware `upload.array('documents', 3)`: at most 3 files, each
a PDF (`fileFilter`) of fewer than `MAX_FILE_SIZE` bytes: the parser under
multer reports `LIMIT_FILE_SIZE` as soon as a file reaches the limit.  When
it fails the handler does not run. -/
def upload (env : Env) (files : Option (List UploadedFile)) : Bool :=
  match files with
  | none => true
  | some fs => decide (fs.length ≤ 3) &&
      fs.all (fun f => decide (f.mimetype = "application/pdf") && decide (f.size < env.maxFileSize))

/-! ## Task routes (`routes/tasks.js`) -/

/-- Handler of `GET /api/tasks/:id`. -/
def tasksGetById (s : Store) (actor : Actor) (id : String) : Outcome :=
  match Task.findByPk s id with
  | none =>
    if isUuid id then reply s 404 false (some "Task not found")
    else reply s 500 false (some "Failed to retrieve task")
  | some task =>
    if actor.role ≠ "admin" ∧ task.createdBy ≠ actor.id ∧ task.assignedTo ≠ some actor.id then
      reply s 403 false (some "Access denied")
    else reply s 200 true none

/-- Handler of `POST /api/tasks`. -/
def tasksPost (env : Env) (s : Store) (actor : Actor) (body : TaskBody) : Outcome :=
  if !taskValidation env body then reply s 400 false (some "Validation failed")
  else
    let taskData : TaskBody := { body with createdBy := some actor.id }
    if truthy taskData.assignedTo ∧ (User.findByPk s (taskData.assignedTo.getD "")).isNone then
      reply s 400 false (some "Assigned user not found")
    else
      match Task.create env s taskData with
      | none => reply s 500 false (some "Failed to create task")
      | some (task, s2) =>
        { store := s2
          response := { status := 201, success := true, message := some "Task created successfully" }
          emitted := [{ event := "taskCreated", taskId := task.id }] }

/-- Handler of `PUT /api/tasks/:id`. -/
def tasksPut (env : Env) (s : Store) (actor : Actor) (id : String) (body : TaskBody) : Outcome :=
  if !taskValidation env body then reply s 400 false (some "Validation failed")
  else
    match Task.findByPk s id with
    | none =>
      if isUuid id then reply s 404 false (some "Task not found")
      else reply s 500 false (some "Failed to update task")
    | some task =>
      if actor.role ≠ "admin" ∧ task.createdBy ≠ actor.id ∧ task.assignedTo ≠ some actor.id then
        reply s 403 false (some "Access denied")
      else if truthy body.assignedTo ∧ body.assignedTo ≠ task.assignedTo ∧
          (User.findByPk s (body.assignedTo.getD "")).isNone then
        reply s 400 false (some "Assigned user not found")
      else
        match Task.update env s task body with
        | none => reply s 500 false (some "Failed to update task")
        | some s2 =>
          { store := s2
            response := { status := 200, success := true, message := some "Task updated successfully" }
            emitted := [{ event := "taskUpdated", taskId := task.id }] }

/-- Handler of `DELETE /api/tasks/:id`. -/
def tasksDelete (s : Store) (actor : Actor) (id : String) : Outcome :=
  match Task.findByPk s id with
  | none =>
    if isUuid id then reply s 404 false (some "Task not found")
    else reply s 500 false (some "Failed to delete task")
  | some task =>
    if actor.role ≠ "admin" ∧ task.createdBy ≠ actor.id then
      reply s 403 false (some "Access denied. Only task creator or admin can delete tasks.")
    else
      { store := Task.destroy s task
        response := { status := 200, success := true, message := some "Task deleted successfully" }
        emitted := [{ event := "taskDeleted", taskId := id }] }

/-! ## Document routes (`routes/documents.js`) -/

/-- The cleanup `req.files.map(file => fs.unlink(file.path))`: the staged
files leave the disk. -/
def unlinkFiles (s : Store) (files : List UploadedFile) : Store :=
  { s with files := s.files.filter (fun p => !(files.any (fun f => decide (f.path = p)))) }

/-- The list `documentPromises` awaited by `Promise.all`: one
`Document.create` per file, the i-th with the i-th generated id.  A create
that fails leaves no row and does not undo the others. -/
def documentPromises (env : Env) (taskId uploadedBy : String) :
    Nat → List UploadedFile → Store → Store × List (Option Document)
  | _, [], s => (s, [])
  | i, f :: fs, s =>
    let created := Document.create s (env.uuidv4 i) f taskId uploadedBy
    let r := documentPromises env taskId uploadedBy (i + 1) fs ((created.map Prod.snd).getD s)
    (r.1, created.map Prod.fst :: r.2)

/-- The rows a batch inserts when every `Document.create` succeeds. -/
def batchRows (env : Env) (taskId uploadedBy : String) : Nat → List UploadedFile → List Document
  | _, [] => []
  | i, f :: fs =>
    Document.build (env.uuidv4 i) f taskId uploadedBy :: batchRows env taskId uploadedBy (i + 1) fs

/-- The message of the quota rejection. -/
def quotaMessage (incoming currentDocCount : Nat) : String :=
  "Cannot upload " ++ toString incoming ++
    " files. Task can have maximum 3 documents. Current count: " ++ toString currentDocCount

/-- Handler of `POST /api/documents/upload/:taskId`; `files` is `req.files`
(`none` when undefined), already staged on disk by multer. -/
def documentsUpload (env : Env) (s : Store) (actor : Actor) (taskId : String)
    (files : Option (List UploadedFile)) : Outcome :=
  match Task.findByPk s taskId with
  | none =>
    if isUuid taskId then
      { store := unlinkFiles s (files.getD [])
        response := { status := 404, success := false, message := some "Task not found" }
        unlinked := (files.getD []).map (fun f => f.path) }
    else
      { store := unlinkFiles s (files.getD [])
        response := { status := 500, success := false, message := some "Failed to upload documents" }
        unlinked := (files.getD []).map (fun f => f.path) }
  | some task =>
    if actor.role ≠ "admin" ∧ task.createdBy ≠ actor.id ∧ task.assignedTo ≠ some actor.id then
      { store := unlinkFiles s (files.getD [])
        response := { status := 403, success := false, message := some "Access denied" }
        unlinked := (files.getD []).map (fun f => f.path) }
    else
      match files with
      | none => reply s 400 false (some "No files uploaded")
      | some fs =>
        if fs.length = 0 then reply s 400 false (some "No files uploaded")
        else
          let currentDocCount := Document.getDocumentCount s taskId
          let newDocCount := currentDocCount + fs.length
          if newDocCount > 3 then
            { store := unlinkFiles s fs
              response := { status := 400, success := false,
                            message := some (quotaMessage fs.length currentDocCount) }
              unlinked := fs.map (fun f => f.path) }
          else
            let r := documentPromises env taskId actor.id 0 fs s
            if r.2.all Option.isSome then
              { store := r.1
                response := { status := 201, success := true,
                              message := some (toString fs.length ++ " document(s) uploaded successfully") }
                emitted := [{ event := "documentsUploaded", taskId := taskId }] }
            else
              { store := unlinkFiles r.1 fs
                response := { status := 500, success := false, message := some "Failed to upload documents" }
                unlinked := fs.map (fun f => f.path) }

/-- The rest of the download handler once access is granted: the file must be
on disk, the download count is incremented, the file is streamed. -/
def sendDownload (s : Store) (document : Document) : Outcome :=
  if document.filePath ∉ s.files then reply s 404 false (some "File not found on server")
  else
    { store := Document.incrementDownloadCount s document
      response := { status := 200, success := true, message := none,
                    sentFile := some document.filePath } }

/-- Handler of `GET /api/documents/:documentId`.  `document.task` is the
included parent task; reading a field of a null task throws. -/
def documentsDownload (s : Store) (actor : Actor) (documentId : String) : Outcome :=
  match Document.findByPk s documentId with
  | none =>
    if isUuid documentId then reply s 404 false (some "Document not found")
    else reply s 500 false (some "Failed to download document")
  | some document =>
    if !document.isActive then reply s 404 false (some "Document not found")
    else if actor.role ≠ "admin" then
      match Task.findByPk s document.taskId with
      | none => reply s 500 false (some "Failed to download document")
      | some task =>
        if task.createdBy ≠ actor.id ∧ task.assignedTo ≠ some actor.id then
          reply s 403 false (some "Access denied")
        else sendDownload s document
    else sendDownload s document

/-- The rest of the view handler once access is granted. -/
def sendView (s : Store) (document : Document) : Outcome :=
  if document.filePath ∉ s.files then reply s 404 false (some "File not found on server")
  else
    { store := s
      response := { status := 200, success := true, message := none,
                    sentFile := some document.filePath } }

/-- Handler of `GET /api/documents/:documentId/view`. -/
def documentsView (s : Store) (actor : Actor) (documentId : String) : Outcome :=
  match Document.findByPk s documentId with
  | none =>
    if isUuid documentId then reply s 404 false (some "Document not found")
    else reply s 500 false (some "Failed to view document")
  | some document =>
    if !document.isActive then reply s 404 false (some "Document not found")
    else if actor.role ≠ "admin" then
      match Task.findByPk s document.taskId with
      | none => reply s 500 false (some "Failed to view document")
      | some task =>
        if task.createdBy ≠ actor.id ∧ task.assignedTo ≠ some actor.id then
          reply s 403 false (some "Access denied")
        else sendView s document
    else sendView s document

/-- The rest of the delete handler once access is granted: the soft delete
`document.update(isActive: false)`, then the event, whose payload reads
`task.id` (a throw when the task is null, after the update). -/
def softDelete (s : Store) (document : Document) (task : Option Task) : Outcome :=
  let s2 := Document.updateIsActive s document false
  match task with
  | none => reply s2 500 false (some "Failed to delete document")
  | some t =>
    { store := s2
      response := { status := 200, success := true, message := some "Document deleted successfully" }
      emitted := [{ event := "documentDeleted", taskId := t.id }] }

/-- Handler of `DELETE /api/documents/:documentId`. -/
def documentsDelete (s : Store) (actor : Actor) (documentId : String) : Outcome :=
  match Document.findByPk s documentId with
  | none =>
    if isUuid documentId then reply s 404 false (some "Document not found")
    else reply s 500 false (some "Failed to delete document")
  | some document =>
    if !document.isActive then reply s 404 false (some "Document not found")
    else if actor.role ≠ "admin" then
      match Task.findByPk s document.taskId with
      | none => reply s 500 false (some "Failed to delete document")
      | some task =>
        if task.createdBy ≠ actor.id ∧ document.uploadedBy ≠ actor.id then
          reply s 403 false
            (some "Access denied. Only document uploader, task creator, or admin can delete documents.")
        else softDelete s document (some task)
    else softDelete s document (Task.findByPk s document.taskId)

/-- Handler of `GET /api/documents/task/:taskId`. -/
def documentsByTask (s : Store) (actor : Actor) (taskId : String) : Outcome :=
  match Task.findByPk s taskId with
  | none =>
    if isUuid taskId then reply s 404 false (some "Task not found")
    else reply s 500 false (some "Failed to retrieve documents")
  | some task =>
    if actor.role ≠ "admin" ∧ task.createdBy ≠ actor.id ∧ task.assignedTo ≠ some actor.id then
      reply s 403 false (some "Access denied")
    else reply s 200 true none

/-! ## User routes (`routes/users.js`) -/

/-- Handler of `GET /api/users/:id`, behind `requireOwnershipOrAdmin`. -/
def usersGetById (s : Store) (actor : Actor) (id : String) : Outcome :=
  requireOwnershipOrAdmin s actor id
    (match User.findByPk s id with
     | none =>
       if isUuid id then reply s 404 false (some "User not found")
       else reply s 500 false (some "Failed to retrieve user")
     | some _ => reply s 200 true none)

/-- The statements `delete req.body.role; delete req.body.isActive`. -/
def stripRoleAndActive (body : UserBody) : UserBody :=
  { body with role := none, isActive := none }

/-- Handler of `PUT /api/users/:id`. -/
def usersPut (env : Env) (s : Store) (actor : Actor) (id : String) (body : UserBody) : Outcome :=
  if !userValidation env body then reply s 400 false (some "Validation failed")
  else
    match User.findByPk s id with
    | none =>
      if isUuid id then reply s 404 false (some "User not found")
      else reply s 500 false (some "Failed to update user")
    | some user =>
      let isOwnProfile := decide (actor.id = id)
      let isAdmin := decide (actor.role = "admin")
      if !isOwnProfile && !isAdmin then reply s 403 false (some "Access denied")
      else
        let body := if !isAdmin then stripRoleAndActive body else body
        if truthy body.email ∧ body.email ≠ some user.email ∧
            (User.findOneByEmail s (body.email.getD "")).isSome then
          reply s 400 false (some "Email already in use")
        else
          match User.update env s none user body with
          | none => reply s 500 false (some "Failed to update user")
          | some s2 =>
            { store := s2
              response := { status := 200, success := true, message := some "User updated successfully" } }

/-- Handler of `DELETE /api/users/:id`, behind `requireAdmin`. -/
def usersDelete (s : Store) (actor : Actor) (id : String) : Outcome :=
  requireAdmin s actor
    (match User.findByPk s id with
     | none =>
       if isUuid id then reply s 404 false (some "User not found")
       else reply s 500 false (some "Failed to delete user")
     | some user =>
       if actor.id = id then reply s 400 false (some "Cannot delete your own account")
       else
         match User.destroy s user with
         | none => reply s 500 false (some "Failed to delete user")
         | some s2 =>
           { store := s2
             response := { status := 200, success := true,
                           message := some "User deleted successfully" } })

/-- Handler of `PUT /api/users/:id/change-password`, behind
`requireOwnershipOrAdmin` and `passwordValidation`; the instance is loaded
with scope `withPassword`. -/
def usersChangePassword (env : Env) (s : Store) (actor : Actor) (id : String)
    (body : PasswordBody) : Outcome :=
  requireOwnershipOrAdmin s actor id
    (if !passwordValidation body then reply s 400 false (some "Validation failed")
     else
       match User.findByPk s id with
       | none =>
         if isUuid id then reply s 404 false (some "User not found")
         else reply s 500 false (some "Failed to change password")
       | some user =>
         if actor.id = id ∧ !env.bcryptCompare (body.currentPassword.getD "") user.password then
           reply s 400 false (some "Current password is incorrect")
         else
           match User.update env s (some user.password) user { password := body.newPassword } with
           | none => reply s 500 false (some "Failed to change password")
           | some s2 =>
             { store := s2
               response := { status := 200, success := true,
                             message := some "Password changed successfully" } })

/-- Handler of `PUT /api/users/:id/deactivate`, behind `requireAdmin`. -/
def usersDeactivate (env : Env) (s : Store) (actor : Actor) (id : String) : Outcome :=
  requireAdmin s actor
    (match User.findByPk s id with
     | none =>
       if isUuid id then reply s 404 false (some "User not found")
       else reply s 500 false (some "Failed to deactivate user")
     | some user =>
       if actor.id = id then reply s 400 false (some "Cannot deactivate your own account")
       else
         match User.update env s none user { isActive := some false, refreshToken := some none } with
         | none => reply s 500 false (some "Failed to deactivate user")
         | some s2 =>
           { store := s2
             response := { status := 200, success := true,
                           message := some "User deactivated successfully" } })

/-- Handler of `PUT /api/users/:id/activate`, behind `requireAdmin`. -/
def usersActivate (env : Env) (s : Store) (actor : Actor) (id : String) : Outcome :=
  requireAdmin s actor
    (match User.findByPk s id with
     | none =>
       if isUuid id then reply s 404 false (some "User not found")
       else reply s 500 false (some "Failed to activate user")
     | some user =>
       match User.update env s none user { isActive := some true } with
       | none => reply s 500 false (some "Failed to activate user")
       | some s2 =>
         { store := s2
           response := { status := 200, success := true, message := some "User activated successfully" } })

/-! ## The API as a transition system -/

/-- The requests of the three routers.  The list and single-read requests of
tasks and users only query the store (`findAndCountAll`, `findByPk`). -/
inductive Request
  | tasksList
  | tasksGetById (id : String)
  | tasksPost (body : TaskBody)
  | tasksPut (id : String) (body : TaskBody)
  | tasksDelete (id : String)
  | documentsUpload (taskId : String) (files : Option (List UploadedFile))
  | documentsDownload (documentId : String)
  | documentsView (documentId : String)
  | documentsDelete (documentId : String)
  | documentsByTask (taskId : String)
  | usersList
  | usersGetById (id : String)
  | usersPut (id : String) (body : UserBody)
  | usersDelete (id : String)
  | usersChangePassword (id : String) (body : PasswordBody)
  | usersDeactivate (id : String)
  | usersActivate (id : String)

/-- Multer staging: the files of the request are written to the upload
directory before the handler runs. -/
def stageFiles (s : Store) (files : Option (List UploadedFile)) : Store :=
  { s with files := s.files ++ (files.getD []).map (fun f => f.path) }

/-- The store after one request executed alone, from start to end. -/
def apiStep (env : Env) (s : Store) (actor : Actor) : Request → Store
  | .tasksList => s
  | .tasksGetById id => (tasksGetById s actor id).store
  | .tasksPost body => (tasksPost env s actor body).store
  | .tasksPut id body => (tasksPut env s actor id body).store
  | .tasksDelete id => (tasksDelete s actor id).store
  | .documentsUpload taskId files =>
    if upload env files then (documentsUpload env (stageFiles s files) actor taskId files).store
    else s
  | .documentsDownload documentId => (documentsDownload s actor documentId).store
  | .documentsView documentId => (documentsView s actor documentId).store
  | .documentsDelete documentId => (documentsDelete s actor documentId).store
  | .documentsByTask taskId => (documentsByTask s actor taskId).store
  | .usersList => (requireAdmin s actor (reply s 200 true none)).store
  | .usersGetById id => (usersGetById s actor id).store
  | .usersPut id body => (usersPut env s actor id body).store
  | .usersDelete id => (usersDelete s actor id).store
  | .usersChangePassword id body => (usersChangePassword env s actor id body).store
  | .usersDeactivate id => (usersDeactivate env s actor id).store
  | .usersActivate id => (usersActivate env s actor id).store

/-- The store after a sequence of requests, each with its actor and runtime
environment, executed one after the other. -/
def apiRun (s : Store) : List (Env × Actor × Request) → Store
  | [] => s
  | (env, actor, req) :: rest => apiRun (apiStep env s actor req) rest

/-- Invariant I1: no task id has more than 3 active documents. -/
def quotaInvariant (s : Store) : Prop :=
  ∀ taskId : String, Document.getDocumentCount s taskId ≤ 3

/-! ## A concrete store used to instantiate the theorems -/

/-- A runtime environment: UUIDs are numbered, hashing prefixes the password. -/
def exEnv : Env :=
  { uuidv4 := fun i => "uuid-" ++ toString i
    now := 1000
    today := 500
    bcryptHash := fun p => "hash:" ++ p
    bcryptCompare := fun p h => decide ("hash:" ++ p = h)
    isEmail := fun e => e.toList.contains '@'
    isUUID := fun _ => true
    maxFileSize := 5242880 }

/-- The user ids `u1`, `u2`, `u3` (role `user`) and `a1` (role `admin`). -/
def exUser (id role : String) : User :=
  { id := id, email := id ++ "@example.org", password := "hash:Secret1", firstName := "First",
    lastName := "Last", role := role, isActive := true, lastLogin := none, refreshToken := none }

/-- Task `t1`, created by `u1` and assigned to `u2`. -/
def exTask1 : Task :=
  { id := "t1", title := "Write report", description := none, status := "todo",
    priority := "medium", dueDate := none, assignedTo := some "u2", createdBy := "u1",
    completedAt := none }

/-- Task `t2`, created by `u1` and not assigned. -/
def exTask2 : Task :=
  { id := "t2", title := "Review report", description := none, status := "todo",
    priority := "medium", dueDate := none, assignedTo := none, createdBy := "u1",
    completedAt := none }

/-- A document row on task `t1`. -/
def exDoc (id uploadedBy : String) (isActive : Bool) : Document :=
  { id := id, originalName := id ++ ".pdf", fileName := id ++ "-stored.pdf",
    filePath := "uploads/" ++ id ++ "-stored.pdf", fileSize := 1024,
    mimeType := "application/pdf", taskId := "t1", uploadedBy := uploadedBy,
    downloadCount := 0, isActive := isActive }

/-- Four users, two tasks; `t1` has the active documents `d1` (uploaded by
`u2`), `d2` (uploaded by `u3`) and the soft-deleted `d3`. -/
def exStore : Store :=
  { users := [exUser "u1" "user", exUser "u2" "user", exUser "u3" "user", exUser "a1" "admin"]
    tasks := [exTask1, exTask2]
    documents := [exDoc "d1" "u2" true, exDoc "d2" "u3" true, exDoc "d3" "u1" false]
    files := ["uploads/d1-stored.pdf", "uploads/d2-stored.pdf", "uploads/d3-stored.pdf"] }

/-- The store `exStore` with the document `d1` only: `u3` uploaded nothing. -/
def exStoreOneDocument : Store :=
  { exStore with documents := [exDoc "d1" "u2" true] }

/-- A staged PDF upload. -/
def exFile (name : String) : UploadedFile :=
  { originalname := name ++ ".pdf", filename := name ++ "-staged.pdf",
    path := "uploads/" ++ name ++ "-staged.pdf", size := 2048, mimetype := "application/pdf" }

/-- The actors of the examples. -/
def exU1 : Actor := { id := "u1", role := "user" }

/-- The assignee of `t1`. -/
def exU2 : Actor := { id := "u2", role := "user" }

/-- A user who is neither creator nor assignee of `t1`. -/
def exU3 : Actor := { id := "u3", role := "user" }

/-- The administrator. -/
def exAdmin : Actor := { id := "a1", role := "admin" }

/-- A valid task body that only sets the title. -/
def exTaskBody : TaskBody := { title := some "Write report v2" }

/-! ## The task list filter (`buildWhereClause`) -/

/-- The query string of `GET /api/tasks`, `req.query`.  The two due dates are
the timestamps `new Date(query.dueDateFrom)` and `new Date(query.dueDateTo)`
of the strings supplied. -/
structure TaskQuery where
  page : Option String := none
  limit : Option String := none
  status : Option String := none
  priority : Option String := none
  assignedTo : Option String := none
  createdBy : Option String := none
  search : Option String := none
  dueDateFrom : Option Nat := none
  dueDateTo : Option Nat := none
  overdue : Option String := none
  sortBy : Option String := none
  sortOrder : Option String := none
deriving DecidableEq, Repr

/-- One element of the array under `Op.or`. -/
inductive Condition
  | createdBy (userId : String)
  | assignedTo (userId : String)
  | titleILike (pattern : String)
  | descriptionILike (pattern : String)
deriving DecidableEq, Repr

/-- The value under key `status`: a plain value (equality) or `Op.ne`. -/
inductive StatusFilter
  | eq (status : String)
  | ne (status : String)
deriving DecidableEq, Repr

/-- The value under key `dueDate`: the operators `Op.gte`, `Op.lte`, `Op.lt`. -/
structure DueDateFilter where
  gte : Option Nat := none
  lte : Option Nat := none
  lt : Option Nat := none
deriving DecidableEq, Repr

/-- The object `where` handed to Sequelize: its keys are conjoined, the
elements of `opOr` (key `Op.or`) are disjoined. -/
structure WhereClause where
  opOr : Option (List Condition) := none
  status : Option StatusFilter := none
  priority : Option String := none
  assignedTo : Option String := none
  createdBy : Option String := none
  dueDate : Option DueDateFilter := none
deriving DecidableEq, Repr

/-- The helper `buildWhereClause(query, userId, userRole)` of `routes/tasks.js`,
statement by statement; `now` is `new Date()`. -/
def buildWhereClause (now : Nat) (query : TaskQuery) (userId userRole : String) : WhereClause :=
  let w0 : WhereClause := {}
  let w1 := if userRole ≠ "admin" then
      { w0 with opOr := some [Condition.createdBy userId, Condition.assignedTo userId] }
    else w0
  let w2 := if truthy query.status then
      { w1 with status := some (StatusFilter.eq (query.status.getD "")) }
    else w1
  let w3 := if truthy query.priority then { w2 with priority := query.priority } else w2
  let w4 := if truthy query.assignedTo then { w3 with assignedTo := query.assignedTo } else w3
  let w5 := if truthy query.createdBy then { w4 with createdBy := query.createdBy } else w4
  let w6 := if truthy query.search then
      { w5 with opOr := some (w5.opOr.getD [] ++
          [Condition.titleILike ("%" ++ query.search.getD "" ++ "%"),
           Condition.descriptionILike ("%" ++ query.search.getD "" ++ "%")]) }
    else w5
  let w7 := if query.dueDateFrom.isSome ∨ query.dueDateTo.isSome then
      { w6 with dueDate := some { gte := query.dueDateFrom, lte := query.dueDateTo } }
    else w6
  let w8 := if query.overdue = some "true" then
      { w7 with dueDate := some { lt := some now }, status := some (StatusFilter.ne "completed") }
    else w7
  w8

/-- Whether a task row satisfies one element of `Op.or`; `iLike pattern value`
is the operator ILIKE of the database. -/
def Condition.holds (iLike : String → String → Bool) (t : Task) : Condition → Bool
  | .createdBy userId => decide (t.createdBy = userId)
  | .assignedTo userId => decide (t.assignedTo = some userId)
  | .titleILike pattern => iLike pattern t.title
  | .descriptionILike pattern =>
    (match t.description with
      | some d => iLike pattern d
      | none => false)

/-- Whether a task row satisfies the due-date operators; a null due date
satisfies no comparison. -/
def DueDateFilter.holds (f : DueDateFilter) (t : Task) : Bool :=
  (match f.gte with
    | some g => (match t.dueDate with
      | some d => decide (g ≤ d)
      | none => false)
    | none => true) &&
  (match f.lte with
    | some l => (match t.dueDate with
      | some d => decide (d ≤ l)
      | none => false)
    | none => true) &&
  (match f.lt with
    | some l => (match t.dueDate with
      | some d => decide (d < l)
      | none => false)
    | none => true)

/-- Whether a task row satisfies the where-clause. -/
def WhereClause.holds (iLike : String → String → Bool) (w : WhereClause) (t : Task) : Bool :=
  (match w.opOr with
    | some conditions => conditions.any (fun c => c.holds iLike t)
    | none => true) &&
  (match w.status with
    | some (StatusFilter.eq x) => decide (t.status = x)
    | some (StatusFilter.ne x) => decide (t.status ≠ x)
    | none => true) &&
  (match w.priority with
    | some x => decide (t.priority = x)
    | none => true) &&
  (match w.assignedTo with
    | some x => decide (t.assignedTo = some x)
    | none => true) &&
  (match w.createdBy with
    | some x => decide (t.createdBy = x)
    | none => true) &&
  (match w.dueDate with
    | some f => f.holds t
    | none => true)

/-- The rows `Task.findAndCountAll` selects for the list handler of
`GET /api/tasks`, before ordering and paging:
`where = buildWhereClause(req.query, req.user.id, req.user.role)`. -/
def tasksListRows (env : Env) (iLike : String → String → Bool) (s : Store) (actor : Actor)
    (query : TaskQuery) : List Task :=
  s.tasks.filter (fun t => (buildWhereClause env.now query actor.id actor.role).holds iLike t)

/-- A matcher for LIKE patterns without escape characters: `%` stands for any
run of characters, `_` for one character, letters compare without case. -/
def likeMatch : List Char → List Char → Bool
  | [], s => s.isEmpty
  | p :: ps, s =>
    if p = '%' then s.tails.any (fun t => likeMatch ps t)
    else
      match s with
      | [] => false
      | c :: cs => (decide (p = '_') || decide (c.toLower = p.toLower)) && likeMatch ps cs

/-- The operator ILIKE used in the examples. -/
def exILike (pattern value : String) : Bool :=
  likeMatch pattern.toList value.toList

/-! ## Socket fan-out (`services/socketService.js`) -/

/-- A connected socket after `socketAuth` and the `connection` handler: the
user it belongs to and the rooms it is in. -/
structure Socket where
  userId : String
  userRole : String
  rooms : List String
deriving DecidableEq, Repr

/-- The `connection` handler: the socket joins the personal room of its user
and, for an admin, the admin room. -/
def connect (user : User) : Socket :=
  { userId := user.id
    userRole := user.role
    rooms := ["user_" ++ user.id] ++ (if user.role = "admin" then ["admin_room"] else []) }

/-- The `joinTask` message: the socket joins the room of the task it names. -/
def joinTask (socket : Socket) (taskId : String) : Socket :=
  { socket with rooms := socket.rooms ++ ["task_" ++ taskId] }

/-- Recipients of `io.emit(event, data)`: every connected socket. -/
def ioEmit (connected : List Socket) : List Socket :=
  connected

/-- Recipients of `io.to(room).emit(event, data)`: the sockets in the room. -/
def ioTo (connected : List Socket) (room : String) : List Socket :=
  connected.filter (fun k => decide (room ∈ k.rooms))

/-- Recipients of the helper `io.emitTaskUpdate(task, action)`: the task room,
the assignee, the creator and the admins. -/
def emitTaskUpdate (connected : List Socket) (task : Task) : List Socket :=
  ioTo connected ("task_" ++ task.id) ++
  (if truthy task.assignedTo then ioTo connected ("user_" ++ task.assignedTo.getD "") else []) ++
  (if task.createdBy ≠ "" then ioTo connected ("user_" ++ task.createdBy) else []) ++
  ioTo connected "admin_room"

/-- The deliveries caused by the events of an outcome, which the route
handlers all send with `io.emit`: pairs of receiving user and event. -/
def deliveries (connected : List Socket) (out : Outcome) : List (String × SocketEvent) :=
  out.emitted.flatMap (fun e => (ioEmit connected).map (fun k => (k.userId, e)))

/-! ## Response bodies -/

/-- A JSON value of a response body. -/
inductive JsonValue
  | null
  | bool (b : Bool)
  | num (n : Nat)
  | str (s : String)
deriving DecidableEq, Repr

/-- The JSON object of an answer built as `res.status(..).json` of `success`
and `message`, which is the shape of every 4xx answer of the three routers. -/
def Response.json (r : Response) : List (String × JsonValue) :=
  [("success", JsonValue.bool r.success)] ++
  (match r.message with
    | some m => [("message", JsonValue.str m)]
    | none => [])

/-- The example store with a third active document `d4` on task `t1` in place
of the soft-deleted `d3`. -/
def exStoreFull : Store :=
  { exStore with
    documents := [exDoc "d1" "u2" true, exDoc "d2" "u3" true, exDoc "d4" "u1" true]
    files := ["uploads/d1-stored.pdf", "uploads/d2-stored.pdf", "uploads/d4-stored.pdf"] }

/-! ## The upload handler at the granularity of its suspension points -/

/-- The state of an upload request after its quota check: finished with an
outcome, or admitted with its batch and waiting at
`await Promise.all(documentPromises)`. -/
inductive UploadCheck
  | done (out : Outcome)
  | admitted (fs : List UploadedFile)
deriving DecidableEq, Repr

/-- The upload handler from its start to the quota check (the lookups and
`await Document.getDocumentCount(taskId)`), run on the store it reads. -/
def uploadCheck (s : Store) (actor : Actor) (taskId : String)
    (files : Option (List UploadedFile)) : UploadCheck :=
  match Task.findByPk s taskId with
  | none =>
    if isUuid taskId then
      UploadCheck.done
        { store := unlinkFiles s (files.getD [])
          response := { status := 404, success := false, message := some "Task not found" }
          unlinked := (files.getD []).map (fun f => f.path) }
    else
      UploadCheck.done
        { store := unlinkFiles s (files.getD [])
          response := { status := 500, success := false,
                        message := some "Failed to upload documents" }
          unlinked := (files.getD []).map (fun f => f.path) }
  | some task =>
    if actor.role ≠ "admin" ∧ task.createdBy ≠ actor.id ∧ task.assignedTo ≠ some actor.id then
      UploadCheck.done
        { store := unlinkFiles s (files.getD [])
          response := { status := 403, success := false, message := some "Access denied" }
          unlinked := (files.getD []).map (fun f => f.path) }
    else
      match files with
      | none => UploadCheck.done (reply s 400 false (some "No files uploaded"))
      | some fs =>
        if fs.length = 0 then UploadCheck.done (reply s 400 false (some "No files uploaded"))
        else
          let currentDocCount := Document.getDocumentCount s taskId
          let newDocCount := currentDocCount + fs.length
          if newDocCount > 3 then
            UploadCheck.done
              { store := unlinkFiles s fs
                response := { status := 400, success := false,
                              message := some (quotaMessage fs.length currentDocCount) }
                unlinked := fs.map (fun f => f.path) }
          else UploadCheck.admitted fs

/-- The upload handler from the creation of the rows to its response, run on
the store as it is when the request resumes. -/
def uploadInsert (env : Env) (s : Store) (actor : Actor) (taskId : String)
    (fs : List UploadedFile) : Outcome :=
  let r := documentPromises env taskId actor.id 0 fs s
  if r.2.all Option.isSome then
    { store := r.1
      response := { status := 201, success := true,
                    message := some (toString fs.length ++ " document(s) uploaded successfully") }
      emitted := [{ event := "documentsUploaded", taskId := taskId }] }
  else
    { store := unlinkFiles r.1 fs
      response := { status := 500, success := false, message := some "Failed to upload documents" }
      unlinked := fs.map (fun f => f.path) }

/-- The runtime environment of a second request: its own generated UUIDs. -/
def exEnvB : Env := { exEnv with uuidv4 := fun i => "uuid-b-" ++ toString i }

/-! ## Pagination of the list handlers

The page, the limit, the offset and the number of pages are JavaScript
numbers, that is doubles.  The handlers only produce doubles that hold a
natural number, `NaN` (`parseInt` of an absent parameter) and `Infinity`. -/

/-- The numbers the pagination works with: `NaN`, `Infinity`, or a double that
holds a natural number. -/
inductive JsNumber
  | nan
  | infinity
  | int (n : Nat)
deriving DecidableEq, Repr

/-- The number of binary digits of `n`, by halving at most `fuel` times. -/
def bitLength : Nat → Nat → Nat
  | 0, _ => 0
  | fuel + 1, n => if n = 0 then 0 else bitLength fuel (n / 2) + 1

/-- The integer nearest to `a / b`, a tie going to the even one. -/
def roundHalfEven (a b : Nat) : Nat :=
  if b < 2 * (a % b) ∨ (2 * (a % b) = b ∧ (a / b) % 2 = 1) then a / b + 1 else a / b

/-- The double nearest to the natural number `n` (ties to even): `n` itself up
to 2^53, beyond that the 53 leading binary digits rounded, and `Infinity`
when that reaches 2^1024, written as the product of four factors 2^256. -/
def roundToDouble (n : Nat) : JsNumber :=
  if n ≤ 2 ^ 53 then JsNumber.int n
  else
    let e := bitLength n n - 53
    let m := roundHalfEven n (2 ^ e)
    if 2 ^ 256 * 2 ^ 256 * 2 ^ 256 * 2 ^ 256 ≤ m * 2 ^ e then JsNumber.infinity
    else JsNumber.int (m * 2 ^ e)

/-- Reading a run of decimal digits; `none` when a character is not a digit. -/
def parseDigits (acc : Nat) : List Char → Option Nat
  | [] => some acc
  | c :: cs => if c.isDigit then parseDigits (acc * 10 + (c.toNat - 48)) cs else none

/-- The integer a parameter denotes: decimal digits with an optional plus
sign, as the validator `isInt` with `min: 1` admits them; `none` for any
other string and for an absent parameter. -/
def decimalValue (v : Option String) : Option Nat :=
  match v with
  | none => none
  | some x =>
    match x.toList with
    | [] => none
    | c :: cs =>
      if c = '+' then (if cs = [] then none else parseDigits 0 cs)
      else parseDigits 0 (c :: cs)

/-- The function `parseInt` on the values the validator `isInt` with `min: 1`
admits: the double nearest to the integer denoted (beyond 20 digits
ECMAScript allows an implementation to round the digits that follow to
zero first).  `NaN` is the result for an absent parameter. -/
def parseInt (v : Option String) : JsNumber :=
  match decimalValue v with
  | some n => roundToDouble n
  | none => JsNumber.nan

/-- The expression `parseInt(value) || fallback`: `NaN` and 0 are falsy. -/
def orDefault (parsed : JsNumber) (fallback : Nat) : JsNumber :=
  match parsed with
  | JsNumber.nan => JsNumber.int fallback
  | JsNumber.infinity => JsNumber.infinity
  | JsNumber.int n => if n = 0 then JsNumber.int fallback else JsNumber.int n

/-- The statement `const page = parseInt(req.query.page) || 1`. -/
def pageOf (page : Option String) : JsNumber :=
  orDefault (parseInt page) 1

/-- The statement `const limit = parseInt(req.query.limit) || 10`. -/
def limitOf (limit : Option String) : JsNumber :=
  orDefault (parseInt limit) 10

/-- The product of two numbers, rounded to a double. -/
def JsNumber.mul (a b : JsNumber) : JsNumber :=
  match a, b with
  | JsNumber.nan, _ => JsNumber.nan
  | _, JsNumber.nan => JsNumber.nan
  | JsNumber.infinity, JsNumber.infinity => JsNumber.infinity
  | JsNumber.infinity, JsNumber.int n => if n = 0 then JsNumber.nan else JsNumber.infinity
  | JsNumber.int n, JsNumber.infinity => if n = 0 then JsNumber.nan else JsNumber.infinity
  | JsNumber.int m, JsNumber.int n => roundToDouble (m * n)

/-- The difference `page - 1` for a page that is at least 1, which
`parseInt(...) || 1` is on the values the validator admits. -/
def JsNumber.pred (a : JsNumber) : JsNumber :=
  match a with
  | JsNumber.nan => JsNumber.nan
  | JsNumber.infinity => JsNumber.infinity
  | JsNumber.int n => roundToDouble (n - 1)

/-- The statement `const offset = (page - 1) * limit`. -/
def offsetOf (page limit : JsNumber) : JsNumber :=
  (page.pred).mul limit

/-- The least `k`, searched from `k` on with `fuel` steps, for which
`2^52 * b ≤ a * 2^k`. -/
def scaleUp : Nat → Nat → Nat → Nat → Nat
  | 0, _, _, k => k
  | fuel + 1, a, b, k => if 2 ^ 52 * b ≤ a * 2 ^ k then k else scaleUp fuel a b (k + 1)

/-- The least `j`, searched from `j` on with `fuel` steps, for which
`a < 2^53 * b * 2^j`. -/
def scaleDown : Nat → Nat → Nat → Nat → Nat
  | 0, _, _, j => j
  | fuel + 1, a, b, j => if a < 2 ^ 53 * b * 2 ^ j then j else scaleDown fuel a b (j + 1)

/-- The value of `Math.ceil(a / b)` for naturals `a` and `b ≥ 1` held in doubles.
The quotient is the double nearest to `a / b`: with `k` such that
`a * 2^k / b` lies between 2^52 and 2^53 it is `m / 2^k`, where `m` is
`a * 2^k / b` rounded to an integer, ties to even; a quotient from 2^53 on is
`m * 2^j` with `m` the rounding of `a / (b * 2^j)`.  `Math.ceil` then rounds
up to an integer. -/
def ceilDiv (a b : Nat) : Nat :=
  if a = 0 then 0
  else if a < 2 ^ 53 * b then
    let k := scaleUp (53 + b) a b 0
    let m := roundHalfEven (a * 2 ^ k) b
    (m + 2 ^ k - 1) / 2 ^ k
  else
    let j := scaleDown a a b 0
    roundHalfEven a (b * 2 ^ j) * 2 ^ j

/-- The statement `const totalPages = Math.ceil(count / limit)`; `count` is
the number of rows `findAndCountAll` reports. -/
def totalPagesOf (count : Nat) (limit : JsNumber) : JsNumber :=
  match limit with
  | JsNumber.nan => JsNumber.nan
  | JsNumber.infinity => JsNumber.int 0
  | JsNumber.int l =>
    if l = 0 then (if count = 0 then JsNumber.nan else JsNumber.infinity)
    else JsNumber.int (ceilDiv count l)

/-- The comparison `a < b` of two numbers; false when one is `NaN`. -/
def JsNumber.lt (a b : JsNumber) : Bool :=
  match a, b with
  | JsNumber.int m, JsNumber.int n => decide (m < n)
  | JsNumber.int _, JsNumber.infinity => true
  | _, _ => false

/-- The object `pagination` of the list responses. -/
structure Pagination where
  currentPage : JsNumber
  totalPages : JsNumber
  totalItems : Nat
  itemsPerPage : JsNumber
  hasNextPage : Bool
  hasPrevPage : Bool
deriving DecidableEq, Repr

/-- The object `pagination` built by the list handlers of tasks and users. -/
def pagination (page limit : JsNumber) (count : Nat) : Pagination :=
  { currentPage := page
    totalPages := totalPagesOf count limit
    totalItems := count
    itemsPerPage := limit
    hasNextPage := page.lt (totalPagesOf count limit)
    hasPrevPage := (JsNumber.int 1).lt page }

/-! ## Serialisation of users -/

/-- The values `this.get()` of a user instance, as a JSON object. -/
def User.get (u : User) : List (String × JsonValue) :=
  [("id", JsonValue.str u.id),
   ("email", JsonValue.str u.email),
   ("password", JsonValue.str u.password),
   ("firstName", JsonValue.str u.firstName),
   ("lastName", JsonValue.str u.lastName),
   ("role", JsonValue.str u.role),
   ("isActive", JsonValue.bool u.isActive),
   ("lastLogin", (match u.lastLogin with
      | some n => JsonValue.num n
      | none => JsonValue.null)),
   ("refreshToken", (match u.refreshToken with
      | some t => JsonValue.str t
      | none => JsonValue.null))]

/-- The statement `delete values.key` on a JSON object. -/
def deleteKey (values : List (String × JsonValue)) (key : String) : List (String × JsonValue) :=
  values.filter (fun kv => decide (kv.1 ≠ key))

/-- The method `User.prototype.toJSON`: a copy of the values without
`password` and `refreshToken`. -/
def User.toJSON (u : User) : List (String × JsonValue) :=
  deleteKey (deleteKey (User.get u) "password") "refreshToken"

/-- The value `data.user` of the answer of `PUT /api/users/:id`: on success
`user.toJSON()` of the updated instance, otherwise no data. -/
def usersPutData (env : Env) (s : Store) (actor : Actor) (id : String) (body : UserBody) :
    Option (List (String × JsonValue)) :=
  if (usersPut env s actor id body).response.status = 200 then
    (User.findByPk (usersPut env s actor id body).store id).map User.toJSON
  else none

/-! ## Further example rows -/

/-- An overdue task in progress: its due date 100 is before the clock 1000 of
the example environment. -/
def exTaskOverdue : Task :=
  { id := "t3", title := "File taxes", description := none, status := "in_progress",
    priority := "high", dueDate := some 100, assignedTo := none, createdBy := "u1",
    completedAt := none }

/-- An empty PDF as multer stages it: size 0. -/
def exEmptyFile (name : String) : UploadedFile :=
  { exFile name with size := 0 }

end TaskManagement

namespace TaskManagement

/-! ## The syntax of a uuid -/

theorem isHexDigit_of_lower (c : Char) (h : isLowerHexDigit c = true) : isHexDigit c = true := by
  unfold isLowerHexDigit at h
  unfold isHexDigit
  rw [h]
  rfl

theorem isLowerHexDigit_ne_hyphen (c : Char) (h : isLowerHexDigit c = true) : c.toNat ≠ 45 := by
  unfold isLowerHexDigit at h
  simp only [Bool.or_eq_true, Bool.and_eq_true, decide_eq_true_eq] at h
  omega

theorem uuidBytes_of_out : ∀ (n i : Nat) (src r : List Char), i + n = 16 →
    uuidOutBytes n i src = some r → uuidBytes n i src = some r := by
  intro n
  induction n with
  | zero => intro i src r _ h; simpa [uuidOutBytes, uuidBytes] using h
  | succ n ih =>
    intro i src r hi h
    match src, h with
    | a :: b :: rest, h =>
      unfold uuidOutBytes at h
      unfold uuidBytes
      by_cases hab : (isLowerHexDigit a && isLowerHexDigit b) = true
      · rw [if_pos hab] at h
        have hab2 := Bool.and_eq_true_iff.mp hab
        have hhex : (isHexDigit a && isHexDigit b) = true := by
          rw [isHexDigit_of_lower a hab2.1, isHexDigit_of_lower b hab2.2]; rfl
        rw [if_pos hhex]
        by_cases hpos : i = 3 ∨ i = 5 ∨ i = 7 ∨ i = 9
        · rw [if_pos hpos] at h
          match rest, h with
          | c :: rest2, h =>
            dsimp only at h ⊢
            by_cases hc : c.toNat = 45
            · rw [if_pos hc] at h
              have hcond : c.toNat = 45 ∧ i % 2 = 1 ∧ i < 15 := ⟨hc, by omega, by omega⟩
              rw [if_pos hcond]
              exact ih (i + 1) rest2 r (by omega) h
            · rw [if_neg hc] at h
              exact absurd h (by simp)
          | [], h => exact absurd h (by simp)
        · rw [if_neg hpos] at h
          match rest, h with
          | c :: rest2, h =>
            dsimp only
            have hcond : ¬ (c.toNat = 45 ∧ i % 2 = 1 ∧ i < 15) := by
              rintro ⟨hc, _, hlt⟩
              cases n with
              | zero => omega
              | succ m =>
                match rest2, h with
                | d :: rest3, h =>
                  unfold uuidOutBytes at h
                  by_cases hcd : (isLowerHexDigit c && isLowerHexDigit d) = true
                  · exact isLowerHexDigit_ne_hyphen c (Bool.and_eq_true_iff.mp hcd).1 hc
                  · rw [if_neg hcd] at h
                    exact absurd h (by simp)
                | [], h => simp [uuidOutBytes] at h
            rw [if_neg hcond]
            exact ih (i + 1) (c :: rest2) r (by omega) h
          | [], h =>
            dsimp only
            exact ih (i + 1) [] r (by omega) h
      · rw [if_neg hab] at h
        exact absurd h (by simp)
    | [_], h => simp [uuidOutBytes] at h
    | [], h => simp [uuidOutBytes] at h

theorem isUuid_of_canonical (x : String) (h : isCanonicalUuid x = true) : isUuid x = true := by
  unfold isCanonicalUuid at h
  have hout : uuidOutBytes 16 0 x.toList = some [] := by simpa using h
  have hin := uuidBytes_of_out 16 0 x.toList [] (by omega) hout
  unfold isUuid
  match hx : x.toList with
  | c :: src =>
    rw [hx] at hout hin
    have hc : c.toNat ≠ 123 := by
      match src, hout with
      | d :: rest, hout =>
        unfold uuidOutBytes at hout
        by_cases hcd : (isLowerHexDigit c && isLowerHexDigit d) = true
        · have := (Bool.and_eq_true_iff.mp hcd).1
          unfold isLowerHexDigit at this
          simp only [Bool.or_eq_true, Bool.and_eq_true, decide_eq_true_eq] at this
          omega
        · rw [if_neg hcd] at hout
          exact absurd hout (by simp)
      | [], hout => simp [uuidOutBytes] at hout
    simp only [hc, if_false, hin, beq_self_eq_true]
  | [] =>
    rw [hx] at hout
    simp [uuidOutBytes] at hout

/-! ## Access to tasks -/

theorem tasksGetById_status (s : Store) (actor : Actor) (id : String) (task : Task)
    (hfind : Task.findByPk s id = some task) :
    (tasksGetById s actor id).response.status ≠ 403 ↔
      (actor.role = "admin" ∨ actor.id = task.createdBy ∨ task.assignedTo = some actor.id) := by
  unfold tasksGetById
  rw [hfind]
  by_cases hr : actor.role = "admin"
  · simp [hr, reply]
  · by_cases hc : task.createdBy = actor.id
    · simp [hr, hc, reply]
    · by_cases ha : task.assignedTo = some actor.id
      · simp [hr, hc, ha, reply]
      · have hc2 : ¬ actor.id = task.createdBy := fun h => hc h.symm
        simp [hr, hc, ha, hc2, reply]

theorem tasksPut_status (env : Env) (s : Store) (actor : Actor) (id : String) (body : TaskBody)
    (task : Task) (hvalid : taskValidation env body = true)
    (hfind : Task.findByPk s id = some task) :
    (tasksPut env s actor id body).response.status ≠ 403 ↔
      (actor.role = "admin" ∨ actor.id = task.createdBy ∨ task.assignedTo = some actor.id) := by
  unfold tasksPut
  rw [hfind]
  simp only [hvalid, Bool.not_true, Bool.false_eq_true, if_false]
  by_cases hd : actor.role ≠ "admin" ∧ task.createdBy ≠ actor.id ∧ task.assignedTo ≠ some actor.id
  · rw [if_pos hd]
    obtain ⟨h1, h2, h3⟩ := hd
    have hc2 : ¬ actor.id = task.createdBy := fun h => h2 h.symm
    simp [reply, h1, h3, hc2]
  · rw [if_neg hd]
    have hallow : actor.role = "admin" ∨ actor.id = task.createdBy ∨
        task.assignedTo = some actor.id := by
      by_contra hcon
      push_neg at hcon
      exact hd ⟨hcon.1, fun h => hcon.2.1 h.symm, hcon.2.2⟩
    simp only [hallow, iff_true]
    split_ifs
    · simp [reply]
    · cases Task.update env s task body <;> simp [reply]

theorem documentsUpload_status (env : Env) (s : Store) (actor : Actor) (taskId : String)
    (files : Option (List UploadedFile)) (task : Task)
    (hfind : Task.findByPk s taskId = some task) :
    (documentsUpload env s actor taskId files).response.status ≠ 403 ↔
      (actor.role = "admin" ∨ actor.id = task.createdBy ∨ task.assignedTo = some actor.id) := by
  unfold documentsUpload
  rw [hfind]
  by_cases hd : actor.role ≠ "admin" ∧ task.createdBy ≠ actor.id ∧ task.assignedTo ≠ some actor.id
  · simp only [if_pos hd]
    obtain ⟨h1, h2, h3⟩ := hd
    have hc2 : ¬ actor.id = task.createdBy := fun h => h2 h.symm
    simp [h1, h3, hc2]
  · simp only [if_neg hd]
    have hallow : actor.role = "admin" ∨ actor.id = task.createdBy ∨
        task.assignedTo = some actor.id := by
      by_contra hcon
      push_neg at hcon
      exact hd ⟨hcon.1, fun h => hcon.2.1 h.symm, hcon.2.2⟩
    simp only [hallow, iff_true]
    cases files with
    | none => simp [reply]
    | some fs =>
      simp only
      split_ifs <;> simp [reply]

/-- C1: for an actor who is not an admin and an existing task, the handlers of
`GET /api/tasks/:id`, `PUT /api/tasks/:id` (on a body that passes validation)
and `POST /api/documents/upload/:taskId` pass the access check (do not answer
403) exactly when the actor is the creator or the assignee of the task, the
same predicate for the three; when `assignedTo` is null only the creator
passes. -/
theorem C1_task_access_creator_or_assignee (env : Env) (s : Store) (actor : Actor) (id : String)
    (body : TaskBody) (files : Option (List UploadedFile)) (task : Task)
    (hrole : actor.role ≠ "admin") (hfind : Task.findByPk s id = some task)
    (hvalid : taskValidation env body = true) :
    ((tasksGetById s actor id).response.status ≠ 403 ↔
        (actor.id = task.createdBy ∨ task.assignedTo = some actor.id)) ∧
    ((tasksPut env s actor id body).response.status ≠ 403 ↔
        (actor.id = task.createdBy ∨ task.assignedTo = some actor.id)) ∧
    ((documentsUpload env s actor id files).response.status ≠ 403 ↔
        (actor.id = task.createdBy ∨ task.assignedTo = some actor.id)) ∧
    (task.assignedTo = none →
      ((tasksGetById s actor id).response.status ≠ 403 ↔ actor.id = task.createdBy) ∧
      ((tasksPut env s actor id body).response.status ≠ 403 ↔ actor.id = task.createdBy) ∧
      ((documentsUpload env s actor id files).response.status ≠ 403 ↔
        actor.id = task.createdBy)) := by
  have h1 := tasksGetById_status s actor id task hfind
  have h2 := tasksPut_status env s actor id body task hvalid hfind
  have h3 := documentsUpload_status env s actor id files task hfind
  simp only [hrole, false_or] at h1 h2 h3
  refine ⟨h1, h2, h3, ?_⟩
  intro hnull
  rw [h1, h2, h3]
  simp [hnull]

/-- C1, instantiated: on task `t2` (created by `u1`, not assigned) the user
`u2` is refused by the three handlers and `u1` is let through. -/
theorem C1_task_access_creator_or_assignee_witness :
    (tasksGetById exStore exU2 "t2").response.status = 403 ∧
    (tasksPut exEnv exStore exU2 "t2" exTaskBody).response.status = 403 ∧
    (documentsUpload exEnv exStore exU2 "t2" (some [exFile "a"])).response.status = 403 ∧
    (tasksGetById exStore exU1 "t2").response.status ≠ 403 := by
  have h := C1_task_access_creator_or_assignee exEnv exStore exU2 "t2" exTaskBody
    (some [exFile "a"]) exTask2 (by decide) (by decide) (by decide)
  have g := C1_task_access_creator_or_assignee exEnv exStore exU1 "t2" exTaskBody
    (some [exFile "a"]) exTask2 (by decide) (by decide) (by decide)
  refine ⟨?_, ?_, ?_, ?_⟩
  · exact by_contra fun hne => absurd (h.1.mp hne) (by decide)
  · exact by_contra fun hne => absurd (h.2.1.mp hne) (by decide)
  · exact by_contra fun hne => absurd (h.2.2.1.mp hne) (by decide)
  · exact g.1.mpr (by decide)

theorem tasksDelete_status (s : Store) (actor : Actor) (id : String) (task : Task)
    (hfind : Task.findByPk s id = some task) :
    ((tasksDelete s actor id).response.status = 200 ↔
      (actor.role = "admin" ∨ actor.id = task.createdBy)) ∧
    ((tasksDelete s actor id).response.status = 403 ↔
      ¬ (actor.role = "admin" ∨ actor.id = task.createdBy)) := by
  unfold tasksDelete
  rw [hfind]
  by_cases hr : actor.role = "admin"
  · simp [hr]
  · by_cases hc : task.createdBy = actor.id
    · simp [hr, hc]
    · have hc2 : ¬ actor.id = task.createdBy := fun h => hc h.symm
      simp [hr, hc, hc2, reply]

/-- C2: for an actor who is not an admin and an existing task,
`DELETE /api/tasks/:id` is allowed (answers 200, and otherwise 403) exactly
when the actor is the creator.  For a task created by U1 and assigned to
U2 ≠ U1, U2 is refused delete but passes the access check of update, and a
third user U3 is refused read, update, upload and delete. -/
theorem C2_task_delete_creator_only (env : Env) (s : Store) (id : String) (task : Task)
    (actor u2 u3 : Actor) (body : TaskBody) (files : Option (List UploadedFile))
    (hfind : Task.findByPk s id = some task) (hvalid : taskValidation env body = true)
    (hrole : actor.role ≠ "admin") (hrole2 : u2.role ≠ "admin") (hrole3 : u3.role ≠ "admin")
    (hassigned : task.assignedTo = some u2.id) (h12 : u2.id ≠ task.createdBy)
    (h13 : u3.id ≠ task.createdBy) (h23 : u3.id ≠ u2.id) :
    ((tasksDelete s actor id).response.status = 200 ↔ actor.id = task.createdBy) ∧
    ((tasksDelete s actor id).response.status = 403 ↔ actor.id ≠ task.createdBy) ∧
    (tasksDelete s u2 id).response.status = 403 ∧
    (tasksPut env s u2 id body).response.status ≠ 403 ∧
    (tasksGetById s u3 id).response.status = 403 ∧
    (tasksPut env s u3 id body).response.status = 403 ∧
    (documentsUpload env s u3 id files).response.status = 403 ∧
    (tasksDelete s u3 id).response.status = 403 := by
  have hd := tasksDelete_status s actor id task hfind
  have hd2 := tasksDelete_status s u2 id task hfind
  have hd3 := tasksDelete_status s u3 id task hfind
  have hp2 := tasksPut_status env s u2 id body task hvalid hfind
  have hg3 := tasksGetById_status s u3 id task hfind
  have hp3 := tasksPut_status env s u3 id body task hvalid hfind
  have hu3 := documentsUpload_status env s u3 id files task hfind
  have hna3 : ¬ task.assignedTo = some u3.id := by
    rw [hassigned]
    intro h
    exact h23 (Option.some.inj h).symm
  have hdeny3 : ¬ (u3.role = "admin" ∨ u3.id = task.createdBy ∨ task.assignedTo = some u3.id) := by
    simp [hrole3, h13, hna3]
  refine ⟨?_, ?_, ?_, ?_, ?_, ?_, ?_, ?_⟩
  · simpa [hrole] using hd.1
  · simpa [hrole] using hd.2
  · exact hd2.2.mpr (by simp [hrole2, h12])
  · exact hp2.mpr (Or.inr (Or.inr hassigned))
  · exact by_contra fun hne => hdeny3 (hg3.mp hne)
  · exact by_contra fun hne => hdeny3 (hp3.mp hne)
  · exact by_contra fun hne => hdeny3 (hu3.mp hne)
  · exact hd3.2.mpr (by simp [hrole3, h13])

/-- C2, instantiated on task `t1` (created by `u1`, assigned to `u2`): the
assignee `u2` gets 403 on delete and passes the check of update, the third
user `u3` gets 403 on the four operations, the creator `u1` deletes. -/
theorem C2_task_delete_creator_only_witness :
    ((tasksDelete exStore exU1 "t1").response.status = 200 ↔ exU1.id = exTask1.createdBy) ∧
    ((tasksDelete exStore exU1 "t1").response.status = 403 ↔ exU1.id ≠ exTask1.createdBy) ∧
    (tasksDelete exStore exU2 "t1").response.status = 403 ∧
    (tasksPut exEnv exStore exU2 "t1" exTaskBody).response.status ≠ 403 ∧
    (tasksGetById exStore exU3 "t1").response.status = 403 ∧
    (tasksPut exEnv exStore exU3 "t1" exTaskBody).response.status = 403 ∧
    (documentsUpload exEnv exStore exU3 "t1" (some [exFile "a"])).response.status = 403 ∧
    (tasksDelete exStore exU3 "t1").response.status = 403 :=
  C2_task_delete_creator_only exEnv exStore "t1" exTask1 exU1 exU2 exU3 exTaskBody
    (some [exFile "a"]) (by decide) (by decide) (by decide) (by decide) (by decide)
    (by decide) (by decide) (by decide) (by decide)

/-! ## Role supremacy -/

theorem sendDownload_status (s : Store) (document : Document) :
    (sendDownload s document).response.status ≠ 403 := by
  unfold sendDownload
  split_ifs <;> simp [reply]

theorem sendView_status (s : Store) (document : Document) :
    (sendView s document).response.status ≠ 403 := by
  unfold sendView
  split_ifs <;> simp [reply]

theorem softDelete_status (s : Store) (document : Document) (task : Option Task) :
    (softDelete s document task).response.status ≠ 403 := by
  unfold softDelete
  cases task <;> simp [reply]

theorem admin_documents_not_forbidden (s : Store) (actor : Actor) (documentId : String)
    (hadmin : actor.role = "admin") :
    (documentsDownload s actor documentId).response.status ≠ 403 ∧
    (documentsView s actor documentId).response.status ≠ 403 ∧
    (documentsDelete s actor documentId).response.status ≠ 403 := by
  unfold documentsDownload documentsView documentsDelete
  cases Document.findByPk s documentId with
  | none => cases isUuid documentId <;> simp [reply]
  | some document =>
    cases hact : document.isActive with
    | false => simp [reply, hact]
    | true =>
      simp only [hact, hadmin, Bool.not_true, Bool.false_eq_true, if_false, ne_eq,
        not_true_eq_false]
      exact ⟨sendDownload_status s document, sendView_status s document,
        softDelete_status s document _⟩

theorem userValidate_active_only (env : Env) (s : Store) (user : User) (a : Option Bool)
    (r : Option (Option String)) :
    User.validate env s user { isActive := a, refreshToken := r } = true := by
  simp [User.validate]

theorem admin_users_not_forbidden (env : Env) (s : Store) (actor : Actor) (id : String)
    (ubody : UserBody) (pbody : PasswordBody) (hadmin : actor.role = "admin") :
    (usersGetById s actor id).response.status ≠ 403 ∧
    (usersPut env s actor id ubody).response.status ≠ 403 ∧
    (usersDelete s actor id).response.status ≠ 403 ∧
    (usersChangePassword env s actor id pbody).response.status ≠ 403 ∧
    (usersDeactivate env s actor id).response.status ≠ 403 ∧
    (usersActivate env s actor id).response.status ≠ 403 := by
  refine ⟨?_, ?_, ?_, ?_, ?_, ?_⟩
  · unfold usersGetById requireOwnershipOrAdmin
    simp only [hadmin, ne_eq, not_true_eq_false, false_and, if_false]
    cases User.findByPk s id <;> cases isUuid id <;> simp [reply]
  · unfold usersPut
    by_cases hv : (!userValidation env ubody) = true
    · simp [hv, reply]
    · rw [if_neg hv]
      cases User.findByPk s id with
      | none => cases isUuid id <;> simp [reply]
      | some user =>
        simp only [hadmin, decide_True, Bool.not_true, Bool.and_false, Bool.false_eq_true,
          if_false]
        split_ifs
        · simp [reply]
        · cases User.update env s none user ubody <;> simp [reply]
  · unfold usersDelete requireAdmin
    simp only [hadmin, ne_eq, not_true_eq_false, if_false]
    cases User.findByPk s id with
    | none => cases isUuid id <;> simp [reply]
    | some user =>
      simp only
      split_ifs
      · simp [reply]
      · cases User.destroy s user <;> simp [reply]
  · unfold usersChangePassword requireOwnershipOrAdmin
    simp only [hadmin, ne_eq, not_true_eq_false, false_and, if_false]
    by_cases hv : (!passwordValidation pbody) = true
    · simp [hv, reply]
    · rw [if_neg hv]
      cases User.findByPk s id with
      | none => cases isUuid id <;> simp [reply]
      | some user =>
        simp only
        split_ifs
        · simp [reply]
        · cases User.update env s (some user.password) user { password := pbody.newPassword } <;>
            simp [reply]
  · unfold usersDeactivate requireAdmin
    simp only [hadmin, ne_eq, not_true_eq_false, if_false]
    cases User.findByPk s id with
    | none => cases isUuid id <;> simp [reply]
    | some user =>
      simp only
      split_ifs
      · simp [reply]
      · simp [User.update, userValidate_active_only]
  · unfold usersActivate requireAdmin
    simp only [hadmin, ne_eq, not_true_eq_false, if_false]
    cases User.findByPk s id with
    | none => cases isUuid id <;> simp [reply]
    | some user => simp [User.update, userValidate_active_only]

theorem admin_tasks_not_forbidden (env : Env) (s : Store) (actor : Actor) (id : String)
    (task : Task) (body : TaskBody) (files : Option (List UploadedFile))
    (hadmin : actor.role = "admin") (hfind : Task.findByPk s id = some task) :
    (tasksGetById s actor id).response.status = 200 ∧
    (tasksPut env s actor id body).response.status ≠ 403 ∧
    (tasksDelete s actor id).response.status = 200 ∧
    (documentsUpload env s actor id files).response.status ≠ 403 := by
  refine ⟨?_, ?_, ?_, ?_⟩
  · unfold tasksGetById
    simp [hfind, hadmin, reply]
  · unfold tasksPut
    rw [hfind]
    by_cases hv : (!taskValidation env body) = true
    · simp [hv, reply]
    · rw [if_neg hv]
      simp only [hadmin, ne_eq, not_true_eq_false, false_and, if_false]
      split_ifs
      · simp [reply]
      · cases Task.update env s task body <;> simp [reply]
  · exact (tasksDelete_status s actor id task hfind).1.mpr (Or.inl hadmin)
  · exact (documentsUpload_status env s actor id files task hfind).mpr (Or.inl hadmin)

theorem userDestroy_isSome (s : Store) (user : User)
    (hnone : ∀ d ∈ s.documents, d.uploadedBy ≠ user.id) :
    (User.destroy s user).isSome = true := by
  have hany : ((s.documents.filter (fun d =>
      !(s.tasks.any (fun t => decide (t.id = d.taskId) && decide (t.createdBy = user.id))))).any
      (fun d => decide (d.uploadedBy = user.id))) = false := by
    rw [Bool.eq_false_iff]
    intro h
    rw [List.any_eq_true] at h
    obtain ⟨d, hd, hup⟩ := h
    exact hnone d (List.mem_of_mem_filter hd) (of_decide_eq_true hup)
  unfold User.destroy
  simp only [hany, Bool.false_eq_true, if_false, Option.isSome_some]

theorem admin_user_self_guards (env : Env) (s : Store) (actor : Actor) (id : String)
    (user : User) (hadmin : actor.role = "admin") (hfind : User.findByPk s id = some user) :
    ((usersDelete s actor id) = reply s 400 false (some "Cannot delete your own account") ↔
      actor.id = id) ∧
    ((usersDelete s actor id).response.status = 200 → actor.id ≠ id) ∧
    (actor.id ≠ id →
      (usersDelete s actor id).response.status = 200 ∨
      usersDelete s actor id = reply s 500 false (some "Failed to delete user")) ∧
    (actor.id ≠ id → (∀ d ∈ s.documents, d.uploadedBy ≠ user.id) →
      (usersDelete s actor id).response.status = 200) ∧
    ((usersDeactivate env s actor id) =
        reply s 400 false (some "Cannot deactivate your own account") ↔ actor.id = id) ∧
    ((usersDeactivate env s actor id).response.status = 200 ↔ actor.id ≠ id) ∧
    (usersActivate env s actor id).response.status = 200 ∧
    (usersGetById s actor id).response.status = 200 := by
  unfold usersDelete usersDeactivate usersActivate usersGetById requireAdmin
    requireOwnershipOrAdmin
  simp only [hadmin, hfind, ne_eq, not_true_eq_false, false_and, if_false]
  by_cases hself : actor.id = id
  · simp [hself, reply, User.update, userValidate_active_only]
  · simp only [hself, if_false, not_false_eq_true, true_implies, false_iff, iff_true]
    refine ⟨?_, ?_, ?_, ?_, ?_, ?_, ?_, ?_⟩
    · cases User.destroy s user <;> simp [reply]
    · intro _; trivial
    · cases User.destroy s user <;> simp [reply]
    · intro hnone
      have hsome := userDestroy_isSome s user hnone
      cases hd : User.destroy s user with
      | none => rw [hd] at hsome; simp at hsome
      | some s2 => rfl
    · simp [reply, User.update, userValidate_active_only]
    · simp [reply, User.update, userValidate_active_only]
    · simp [reply, User.update, userValidate_active_only]
    · simp [reply]

/-- C3: for an actor whose role is `admin`, the task operations (read, update,
delete, upload) on an existing task and the document operations (download,
view, delete) on an existing active document never answer 403, whatever
`createdBy`, `assignedTo` and `uploadedBy` are; no user operation answers 403,
and on an existing user the only refusals are the two self-targeting ones:
delete and deactivate are refused (400, store unchanged) exactly when the
target is the admin's own id.  Otherwise deactivate succeeds, and delete
either succeeds or fails in the database with 500 "Failed to delete user" and
an unchanged store; it succeeds whenever the target uploaded no document. -/
theorem C3_admin_role_supremacy (env : Env) (s : Store) (actor : Actor)
    (hadmin : actor.role = "admin") :
    (∀ id task body files, Task.findByPk s id = some task →
      (tasksGetById s actor id).response.status = 200 ∧
      (tasksPut env s actor id body).response.status ≠ 403 ∧
      (tasksDelete s actor id).response.status = 200 ∧
      (documentsUpload env s actor id files).response.status ≠ 403) ∧
    (∀ documentId document, Document.findByPk s documentId = some document →
      document.isActive = true →
      (documentsDownload s actor documentId).response.status ≠ 403 ∧
      (documentsView s actor documentId).response.status ≠ 403 ∧
      (documentsDelete s actor documentId).response.status ≠ 403) ∧
    (∀ id ubody pbody,
      (usersGetById s actor id).response.status ≠ 403 ∧
      (usersPut env s actor id ubody).response.status ≠ 403 ∧
      (usersDelete s actor id).response.status ≠ 403 ∧
      (usersChangePassword env s actor id pbody).response.status ≠ 403 ∧
      (usersDeactivate env s actor id).response.status ≠ 403 ∧
      (usersActivate env s actor id).response.status ≠ 403) ∧
    (∀ id user, User.findByPk s id = some user →
      ((usersDelete s actor id) = reply s 400 false (some "Cannot delete your own account") ↔
        actor.id = id) ∧
      ((usersDelete s actor id).response.status = 200 → actor.id ≠ id) ∧
      (actor.id ≠ id →
        (usersDelete s actor id).response.status = 200 ∨
        usersDelete s actor id = reply s 500 false (some "Failed to delete user")) ∧
      (actor.id ≠ id → (∀ d ∈ s.documents, d.uploadedBy ≠ user.id) →
        (usersDelete s actor id).response.status = 200) ∧
      ((usersDeactivate env s actor id) =
          reply s 400 false (some "Cannot deactivate your own account") ↔ actor.id = id) ∧
      ((usersDeactivate env s actor id).response.status = 200 ↔ actor.id ≠ id) ∧
      (usersActivate env s actor id).response.status = 200 ∧
      (usersGetById s actor id).response.status = 200) :=
  ⟨fun id task body files hfind => admin_tasks_not_forbidden env s actor id task body files
      hadmin hfind,
   fun documentId _ _ _ => admin_documents_not_forbidden s actor documentId hadmin,
   fun id ubody pbody => admin_users_not_forbidden env s actor id ubody pbody hadmin,
   fun id user hfind => admin_user_self_guards env s actor id user hadmin hfind⟩

/-- C3, instantiated: the admin `a1` reads and deletes task `t1` of `u1`,
deletes document `d1` of `u2`, is refused the deletion of the own account,
and deletes user `u3` in the store where `u3` uploaded nothing; in the store
where `u3` uploaded `d2` the deletion fails with 500. -/
theorem C3_admin_role_supremacy_witness :
    (tasksGetById exStore exAdmin "t1").response.status = 200 ∧
    (tasksDelete exStore exAdmin "t1").response.status = 200 ∧
    (documentsDelete exStore exAdmin "d1").response.status ≠ 403 ∧
    (usersDelete exStoreOneDocument exAdmin "u3").response.status = 200 ∧
    usersDelete exStore exAdmin "u3" = reply exStore 500 false (some "Failed to delete user") ∧
    usersDelete exStore exAdmin "a1" =
      reply exStore 400 false (some "Cannot delete your own account") := by
  have h := C3_admin_role_supremacy exEnv exStore exAdmin (by decide)
  have g := C3_admin_role_supremacy exEnv exStoreOneDocument exAdmin (by decide)
  have ht := h.1 "t1" exTask1 exTaskBody none (by decide)
  have hd := h.2.1 "d1" (exDoc "d1" "u2" true) (by decide) (by decide)
  have hu := g.2.2.2 "u3" (exUser "u3" "user") (by decide)
  have ha := h.2.2.2 "a1" (exUser "a1" "admin") (by decide)
  exact ⟨ht.1, ht.2.2.1, hd.2.2, hu.2.2.2.1 (by decide) (by decide), by decide,
    ha.1.mpr (by decide)⟩

/-! ## The document quota -/

theorem documentCreate_ok (s : Store) (id : String) (file : UploadedFile)
    (taskId uploadedBy : String) (hvalid : fileValid file = true)
    (htask : taskExists s taskId = true) (huser : userExists s uploadedBy = true)
    (hname : ∀ d ∈ s.documents, d.fileName ≠ file.filename)
    (hid : ∀ d ∈ s.documents, d.id ≠ id) :
    Document.create s id file taskId uploadedBy =
      some (Document.build id file taskId uploadedBy,
        { s with documents := s.documents ++ [Document.build id file taskId uploadedBy] }) := by
  have hc : Document.constraints s (Document.build id file taskId uploadedBy) = true := by
    simp only [Document.constraints, Document.build, Bool.and_eq_true, List.all_eq_true,
      decide_eq_true_eq]
    exact ⟨⟨⟨hname, hid⟩, htask⟩, huser⟩
  simp [Document.create, hvalid, hc]

theorem documentPromises_all_ok (env : Env) (taskId uploadedBy : String) :
    ∀ (fs : List UploadedFile) (i : Nat) (s : Store),
      taskExists s taskId = true → userExists s uploadedBy = true →
      (∀ f ∈ fs, fileValid f = true) →
      (fs.map (fun f => f.filename)).Nodup →
      (∀ f ∈ fs, ∀ d ∈ s.documents, d.fileName ≠ f.filename) →
      ((List.range' i fs.length).map env.uuidv4).Nodup →
      (∀ k, i ≤ k → k < i + fs.length → ∀ d ∈ s.documents, d.id ≠ env.uuidv4 k) →
      documentPromises env taskId uploadedBy i fs s =
        ({ s with documents := s.documents ++ batchRows env taskId uploadedBy i fs },
          (batchRows env taskId uploadedBy i fs).map some) := by
  intro fs
  induction fs with
  | nil =>
    intro i s _ _ _ _ _ _ _
    cases s
    simp only [documentPromises, batchRows, List.append_nil, List.map_nil]
  | cons f rest ih =>
    intro i s htask huser hvalid hnames hfresh hids hidfresh
    have hcreate := documentCreate_ok s (env.uuidv4 i) f taskId uploadedBy
      (hvalid f (List.mem_cons_self _ _)) htask huser
      (hfresh f (List.mem_cons_self _ _))
      (hidfresh i (le_refl _) (by simp))
    simp only [List.map_cons, List.nodup_cons] at hnames
    simp only [List.length_cons, List.range'_succ, List.map_cons, List.nodup_cons] at hids
    have hrec := ih (i + 1)
      { s with documents := s.documents ++ [Document.build (env.uuidv4 i) f taskId uploadedBy] }
      htask huser (fun g hg => hvalid g (List.mem_cons_of_mem _ hg)) hnames.2
      (by
        intro g hg d hd
        simp only [List.mem_append, List.mem_singleton] at hd
        rcases hd with hd | hd
        · exact hfresh g (List.mem_cons_of_mem _ hg) d hd
        · subst hd
          intro heq
          apply hnames.1
          simp only [Document.build] at heq
          rw [heq]
          exact List.mem_map_of_mem (fun f => f.filename) hg)
      hids.2
      (by
        intro k hk1 hk2 d hd
        simp only [List.mem_append, List.mem_singleton] at hd
        rcases hd with hd | hd
        · exact hidfresh k (by omega) (by simp only [List.length_cons]; omega) d hd
        · subst hd
          intro heq
          apply hids.1
          simp only [Document.build] at heq
          rw [heq]
          apply List.mem_map_of_mem
          rw [List.mem_range']
          exact ⟨k - (i + 1), by omega, by omega⟩)
    simp only [documentPromises, hcreate, Option.map_some', Option.getD_some, hrec, batchRows,
      List.append_assoc, List.singleton_append, List.map_cons]

theorem batchRows_length (env : Env) (taskId uploadedBy : String) :
    ∀ (fs : List UploadedFile) (i : Nat),
      (batchRows env taskId uploadedBy i fs).length = fs.length := by
  intro fs
  induction fs with
  | nil => intro i; rfl
  | cons f rest ih => intro i; simp [batchRows, ih]

theorem batchRows_filter (env : Env) (taskId uploadedBy : String) :
    ∀ (fs : List UploadedFile) (i : Nat),
      (batchRows env taskId uploadedBy i fs).filter
        (fun d => decide (d.taskId = taskId) && d.isActive) =
      batchRows env taskId uploadedBy i fs := by
  intro fs
  induction fs with
  | nil => intro i; rfl
  | cons f rest ih => intro i; simp [batchRows, ih, Document.build]

theorem taskFindByPk_exists (s : Store) (id : String) (task : Task)
    (hfind : Task.findByPk s id = some task) : taskExists s id = true := by
  unfold Task.findByPk at hfind
  unfold taskExists
  rw [List.any_eq_true]
  have hp := List.find?_some hfind
  exact ⟨task, List.mem_of_find?_eq_some hfind, hp⟩

theorem getDocumentCount_append (s : Store) (rows : List Document) (taskId : String) :
    Document.getDocumentCount { s with documents := s.documents ++ rows } taskId =
      Document.getDocumentCount s taskId +
        (rows.filter (fun d => decide (d.taskId = taskId) && d.isActive)).length := by
  simp [Document.getDocumentCount, List.filter_append]

/-- C4: for an authorized upload of a non-empty batch of n files to an existing
task with c active documents, the handler answers the quota rejection (400)
exactly when c + n > 3; in that case no row is created (documents, tasks and
users are as before, nothing is emitted).  When c + n ≤ 3 the batch is
admitted: if every file passes the validators of the model, the file names and
generated ids are fresh and the uploader exists, the answer is 201 and exactly
the n rows of the batch are inserted, so the task then has c + n active
documents. -/
theorem C4_quota_all_or_nothing (env : Env) (s : Store) (actor : Actor) (taskId : String)
    (task : Task) (fs : List UploadedFile)
    (hfind : Task.findByPk s taskId = some task)
    (hauth : actor.role = "admin" ∨ actor.id = task.createdBy ∨
      task.assignedTo = some actor.id)
    (hne : fs ≠ []) :
    ((documentsUpload env s actor taskId (some fs)).response.status = 400 ↔
      Document.getDocumentCount s taskId + fs.length > 3) ∧
    (Document.getDocumentCount s taskId + fs.length > 3 →
      (documentsUpload env s actor taskId (some fs)).response.message =
        some (quotaMessage fs.length (Document.getDocumentCount s taskId)) ∧
      (documentsUpload env s actor taskId (some fs)).store.documents = s.documents ∧
      (documentsUpload env s actor taskId (some fs)).store.tasks = s.tasks ∧
      (documentsUpload env s actor taskId (some fs)).store.users = s.users ∧
      (documentsUpload env s actor taskId (some fs)).emitted = []) ∧
    (Document.getDocumentCount s taskId + fs.length ≤ 3 →
      userExists s actor.id = true →
      (∀ f ∈ fs, fileValid f = true) →
      (fs.map (fun f => f.filename)).Nodup →
      (∀ f ∈ fs, ∀ d ∈ s.documents, d.fileName ≠ f.filename) →
      ((List.range fs.length).map env.uuidv4).Nodup →
      (∀ k, k < fs.length → ∀ d ∈ s.documents, d.id ≠ env.uuidv4 k) →
      (documentsUpload env s actor taskId (some fs)).response.status = 201 ∧
      (documentsUpload env s actor taskId (some fs)).store.documents =
        s.documents ++ batchRows env taskId actor.id 0 fs ∧
      Document.getDocumentCount (documentsUpload env s actor taskId (some fs)).store taskId =
        Document.getDocumentCount s taskId + fs.length) := by
  have hallow : ¬ (actor.role ≠ "admin" ∧ task.createdBy ≠ actor.id ∧
      task.assignedTo ≠ some actor.id) := by
    rintro ⟨h1, h2, h3⟩
    rcases hauth with h | h | h
    · exact h1 h
    · exact h2 h.symm
    · exact h3 h
  have hlen : ¬ fs.length = 0 := fun h => hne (List.length_eq_zero.mp h)
  unfold documentsUpload
  rw [hfind]
  simp only [if_neg hallow, if_neg hlen]
  by_cases hq : Document.getDocumentCount s taskId + fs.length > 3
  · simp only [if_pos hq, unlinkFiles]
    refine ⟨⟨fun _ => hq, fun _ => by trivial⟩,
      fun _ => ⟨by trivial, by trivial, by trivial, by trivial, by trivial⟩,
      fun hle => absurd hq (by omega)⟩
  · simp only [if_neg hq]
    refine ⟨⟨fun h => ?_, fun h => absurd h hq⟩, fun h => absurd h hq, ?_⟩
    · exfalso
      revert h
      split_ifs <;> simp
    · intro _ huser hvalid hnames hfresh hids hidfresh
      have hrun := documentPromises_all_ok env taskId actor.id fs 0 s
        (taskFindByPk_exists s taskId task hfind) huser hvalid hnames hfresh
        (by rw [← List.range_eq_range']; exact hids)
        (fun k _ hk => hidfresh k (by omega))
      have hall : (List.map some (batchRows env taskId actor.id 0 fs)).all Option.isSome
          = true := by
        simp [List.all_eq_true]
      rw [hrun]
      simp only [hall, if_true]
      refine ⟨by trivial, by trivial, ?_⟩
      rw [getDocumentCount_append, batchRows_filter, batchRows_length]

/-- C4, instantiated with the case of the specification: task `t1` has 2
active documents (and a soft-deleted one), its assignee `u2` uploads 2 files;
the batch is rejected and the document table is unchanged, not extended by
one row. -/
theorem C4_quota_all_or_nothing_witness :
    Document.getDocumentCount exStore "t1" = 2 ∧
    (documentsUpload exEnv exStore exU2 "t1" (some [exFile "a", exFile "b"])).response.status
      = 400 ∧
    (documentsUpload exEnv exStore exU2 "t1" (some [exFile "a", exFile "b"])).store.documents
      = exStore.documents := by
  have h := C4_quota_all_or_nothing exEnv exStore exU2 "t1" exTask1 [exFile "a", exFile "b"]
    (by decide) (by decide) (by decide)
  exact ⟨by decide, h.1.mpr (by decide), (h.2.1 (by decide)).2.1⟩

/-! ## Invariant I1 under sequential execution -/

theorem getDocumentCount_congr (s s2 : Store) (taskId : String)
    (h : s2.documents = s.documents) :
    Document.getDocumentCount s2 taskId = Document.getDocumentCount s taskId := by
  simp [Document.getDocumentCount, h]

theorem getDocumentCount_filter_le (s s2 : Store) (q : Document → Bool) (taskId : String)
    (h : s2.documents = s.documents.filter q) :
    Document.getDocumentCount s2 taskId ≤ Document.getDocumentCount s taskId := by
  simp only [Document.getDocumentCount, h]
  exact (List.Sublist.filter _ (List.filter_sublist s.documents)).length_le

theorem filter_map_length_le (p : Document → Bool) (f : Document → Document)
    (hf : ∀ x, p (f x) = true → p x = true) :
    ∀ l : List Document, ((l.map f).filter p).length ≤ (l.filter p).length := by
  intro l
  induction l with
  | nil => simp
  | cons x rest ih =>
    simp only [List.map_cons, List.filter_cons]
    cases h1 : p (f x) with
    | true =>
      simp only [hf x h1, if_true, List.length_cons]
      omega
    | false =>
      cases h2 : p x with
      | true =>
        simp only [Bool.false_eq_true, if_false, if_true, List.length_cons]
        omega
      | false =>
        simp only [Bool.false_eq_true, if_false]
        exact ih

theorem getDocumentCount_map_le (s s2 : Store) (f : Document → Document) (taskId : String)
    (h : s2.documents = s.documents.map f)
    (hf : ∀ x, (f x).taskId = x.taskId ∧ ((f x).isActive = true → x.isActive = true)) :
    Document.getDocumentCount s2 taskId ≤ Document.getDocumentCount s taskId := by
  simp only [Document.getDocumentCount, h]
  apply filter_map_length_le
  intro x hx
  simp only [Bool.and_eq_true, decide_eq_true_eq] at hx ⊢
  exact ⟨(hf x).1 ▸ hx.1, (hf x).2 hx.2⟩

theorem incrementDownloadCount_count_le (s : Store) (d : Document) (taskId : String) :
    Document.getDocumentCount (Document.incrementDownloadCount s d) taskId ≤
      Document.getDocumentCount s taskId := by
  apply getDocumentCount_map_le s _ _ taskId rfl
  intro x
  split_ifs <;> simp

theorem updateIsActive_false_count_le (s : Store) (d : Document) (taskId : String) :
    Document.getDocumentCount (Document.updateIsActive s d false) taskId ≤
      Document.getDocumentCount s taskId := by
  apply getDocumentCount_map_le s _ _ taskId rfl
  intro x
  split_ifs <;> simp

theorem taskUpdate_documents (env : Env) (s s2 : Store) (task : Task) (b : TaskBody)
    (h : Task.update env s task b = some s2) : s2.documents = s.documents := by
  unfold Task.update at h
  split_ifs at h
  rw [← Option.some.inj h]
  rfl

theorem taskCreate_documents (env : Env) (s s2 : Store) (task : Task) (b : TaskBody)
    (h : Task.create env s b = some (task, s2)) : s2.documents = s.documents := by
  unfold Task.create at h
  split at h
  · dsimp only at h
    split_ifs at h
    rw [← (Prod.mk.inj (Option.some.inj h)).2]
  · exact absurd h (by simp)

theorem userUpdate_documents (env : Env) (s s2 : Store) (loaded : Option String) (user : User)
    (b : UserBody) (h : User.update env s loaded user b = some s2) :
    s2.documents = s.documents := by
  unfold User.update at h
  split_ifs at h
  rw [← Option.some.inj h]
  rfl

theorem tasksPost_documents (env : Env) (s : Store) (actor : Actor) (body : TaskBody) :
    (tasksPost env s actor body).store.documents = s.documents := by
  unfold tasksPost
  split
  · rfl
  · dsimp only
    split
    · rfl
    · split
      · rfl
      · rename_i task s2 hc
        exact taskCreate_documents env s s2 task _ hc

theorem tasksPut_documents (env : Env) (s : Store) (actor : Actor) (id : String)
    (body : TaskBody) : (tasksPut env s actor id body).store.documents = s.documents := by
  unfold tasksPut
  split
  · rfl
  · split
    · split <;> rfl
    · split
      · rfl
      · split
        · rfl
        · split
          · rfl
          · rename_i s2 hu
            exact taskUpdate_documents env s s2 _ body hu

theorem tasksDelete_count_le (s : Store) (actor : Actor) (id taskId : String) :
    Document.getDocumentCount (tasksDelete s actor id).store taskId ≤
      Document.getDocumentCount s taskId := by
  unfold tasksDelete
  split
  · split <;> exact Nat.le_refl _
  · split
    · exact Nat.le_refl _
    · exact getDocumentCount_filter_le s _ _ taskId rfl

theorem sendDownload_count_le (s : Store) (document : Document) (taskId : String) :
    Document.getDocumentCount (sendDownload s document).store taskId ≤
      Document.getDocumentCount s taskId := by
  unfold sendDownload
  split
  · exact Nat.le_refl _
  · exact incrementDownloadCount_count_le s document taskId

theorem documentsDownload_count_le (s : Store) (actor : Actor) (documentId taskId : String) :
    Document.getDocumentCount (documentsDownload s actor documentId).store taskId ≤
      Document.getDocumentCount s taskId := by
  unfold documentsDownload
  split
  · split <;> exact Nat.le_refl _
  · split
    · exact Nat.le_refl _
    · split
      · split
        · exact Nat.le_refl _
        · split
          · exact Nat.le_refl _
          · exact sendDownload_count_le s _ taskId
      · exact sendDownload_count_le s _ taskId

theorem sendView_store (s : Store) (document : Document) :
    (sendView s document).store = s := by
  unfold sendView
  split <;> rfl

theorem documentsView_store (s : Store) (actor : Actor) (documentId : String) :
    (documentsView s actor documentId).store = s := by
  unfold documentsView
  split
  · split <;> rfl
  · split
    · rfl
    · split
      · split
        · rfl
        · split
          · rfl
          · exact sendView_store s _
      · exact sendView_store s _

theorem softDelete_count_le (s : Store) (document : Document) (task : Option Task)
    (taskId : String) :
    Document.getDocumentCount (softDelete s document task).store taskId ≤
      Document.getDocumentCount s taskId := by
  unfold softDelete
  cases task <;> exact updateIsActive_false_count_le s document taskId

theorem documentsDelete_count_le (s : Store) (actor : Actor) (documentId taskId : String) :
    Document.getDocumentCount (documentsDelete s actor documentId).store taskId ≤
      Document.getDocumentCount s taskId := by
  unfold documentsDelete
  split
  · split <;> exact Nat.le_refl _
  · split
    · exact Nat.le_refl _
    · split
      · split
        · exact Nat.le_refl _
        · split
          · exact Nat.le_refl _
          · exact softDelete_count_le s _ _ taskId
      · exact softDelete_count_le s _ _ taskId

theorem documentsByTask_store (s : Store) (actor : Actor) (taskId : String) :
    (documentsByTask s actor taskId).store = s := by
  unfold documentsByTask
  split
  · split <;> rfl
  · split <;> rfl

theorem tasksGetById_store (s : Store) (actor : Actor) (id : String) :
    (tasksGetById s actor id).store = s := by
  unfold tasksGetById
  split
  · split <;> rfl
  · split <;> rfl

theorem usersGetById_store (s : Store) (actor : Actor) (id : String) :
    (usersGetById s actor id).store = s := by
  unfold usersGetById requireOwnershipOrAdmin
  split
  · rfl
  · split
    · split <;> rfl
    · rfl

theorem usersPut_documents (env : Env) (s : Store) (actor : Actor) (id : String)
    (body : UserBody) : (usersPut env s actor id body).store.documents = s.documents := by
  unfold usersPut
  dsimp only
  repeat' split
  all_goals first
    | rfl
    | (rename_i s2 hu; exact userUpdate_documents env s s2 _ _ _ hu)

theorem userDestroy_count_le (s s2 : Store) (user : User) (taskId : String)
    (h : User.destroy s user = some s2) :
    Document.getDocumentCount s2 taskId ≤ Document.getDocumentCount s taskId := by
  unfold User.destroy at h
  dsimp only at h
  split_ifs at h
  rw [← Option.some.inj h]
  exact getDocumentCount_filter_le s _ _ taskId rfl

theorem usersDelete_count_le (s : Store) (actor : Actor) (id taskId : String) :
    Document.getDocumentCount (usersDelete s actor id).store taskId ≤
      Document.getDocumentCount s taskId := by
  unfold usersDelete requireAdmin
  split
  · exact Nat.le_refl _
  · split
    · split <;> exact Nat.le_refl _
    · split
      · exact Nat.le_refl _
      · split
        · exact Nat.le_refl _
        · rename_i s2 hd
          exact userDestroy_count_le s s2 _ taskId hd

theorem usersChangePassword_documents (env : Env) (s : Store) (actor : Actor) (id : String)
    (body : PasswordBody) :
    (usersChangePassword env s actor id body).store.documents = s.documents := by
  unfold usersChangePassword requireOwnershipOrAdmin
  split
  · rfl
  · split
    · rfl
    · split
      · split <;> rfl
      · split
        · rfl
        · split
          · rfl
          · rename_i s2 hu
            exact userUpdate_documents env s s2 _ _ _ hu

theorem usersDeactivate_documents (env : Env) (s : Store) (actor : Actor) (id : String) :
    (usersDeactivate env s actor id).store.documents = s.documents := by
  unfold usersDeactivate requireAdmin
  split
  · rfl
  · split
    · split <;> rfl
    · split
      · rfl
      · split
        · rfl
        · rename_i s2 hu
          exact userUpdate_documents env s s2 _ _ _ hu

theorem usersActivate_documents (env : Env) (s : Store) (actor : Actor) (id : String) :
    (usersActivate env s actor id).store.documents = s.documents := by
  unfold usersActivate requireAdmin
  split
  · rfl
  · split
    · split <;> rfl
    · split
      · rfl
      · rename_i s2 hu
        exact userUpdate_documents env s s2 _ _ _ hu

theorem documentCreate_some (s s2 : Store) (id : String) (file : UploadedFile)
    (taskId uploadedBy : String) (d : Document)
    (h : Document.create s id file taskId uploadedBy = some (d, s2)) :
    s2.documents = s.documents ++ [d] ∧ d.taskId = taskId := by
  unfold Document.create at h
  dsimp only at h
  split_ifs at h
  have hp := Prod.mk.inj (Option.some.inj h)
  rw [← hp.1, ← hp.2]
  exact ⟨rfl, rfl⟩

theorem documentPromises_documents (env : Env) (taskId uploadedBy : String) :
    ∀ (fs : List UploadedFile) (i : Nat) (s : Store),
      ∃ rows : List Document,
        (documentPromises env taskId uploadedBy i fs s).1.documents = s.documents ++ rows ∧
        rows.length ≤ fs.length ∧ ∀ d ∈ rows, d.taskId = taskId := by
  intro fs
  induction fs with
  | nil =>
    intro i s
    exact ⟨[], by simp [documentPromises], Nat.le_refl _, by simp⟩
  | cons f rest ih =>
    intro i s
    simp only [documentPromises]
    cases hc : Document.create s (env.uuidv4 i) f taskId uploadedBy with
    | none =>
      obtain ⟨rows, h1, h2, h3⟩ := ih (i + 1) s
      refine ⟨rows, ?_, ?_, h3⟩
      · simpa using h1
      · simp only [List.length_cons]; omega
    | some p =>
      obtain ⟨d, s2⟩ := p
      obtain ⟨hdocs, htask⟩ := documentCreate_some s s2 _ f taskId uploadedBy d hc
      obtain ⟨rows, h1, h2, h3⟩ := ih (i + 1) s2
      refine ⟨d :: rows, ?_, ?_, ?_⟩
      · simp only [Option.map_some', Option.getD_some]
        rw [h1, hdocs, List.append_assoc, List.singleton_append]
      · simp only [List.length_cons]; omega
      · intro x hx
        rcases List.mem_cons.mp hx with hx | hx
        · rw [hx]; exact htask
        · exact h3 x hx

theorem getDocumentCount_append_le (s s2 : Store) (rows : List Document)
    (taskId target : String) (hdocs : s2.documents = s.documents ++ rows)
    (hrows : ∀ d ∈ rows, d.taskId = target) :
    Document.getDocumentCount s2 taskId ≤
      Document.getDocumentCount s taskId + (if taskId = target then rows.length else 0) := by
  simp only [Document.getDocumentCount, hdocs, List.filter_append, List.length_append]
  apply Nat.add_le_add_left
  split_ifs with ht
  · exact List.length_filter_le _ _
  · have hnil : rows.filter (fun d => decide (d.taskId = taskId) && d.isActive) = [] := by
      rw [List.filter_eq_nil_iff]
      intro d hd
      have := hrows d hd
      simp only [Bool.and_eq_true, decide_eq_true_eq, not_and]
      intro heq
      exact absurd (heq.symm.trans this) ht
    simp [hnil]

theorem documentsUpload_quota (env : Env) (s : Store) (actor : Actor) (target : String)
    (files : Option (List UploadedFile)) (hinv : quotaInvariant s) :
    quotaInvariant (documentsUpload env s actor target files).store := by
  intro taskId
  unfold documentsUpload
  split
  · split <;> exact hinv taskId
  · split
    · exact hinv taskId
    · split
      · exact hinv taskId
      · rename_i fs
        split
        · exact hinv taskId
        · dsimp only
          split
          · exact hinv taskId
          · rename_i hq
            obtain ⟨rows, h1, h2, h3⟩ := documentPromises_documents env target actor.id fs 0 s
            have hle := getDocumentCount_append_le s
              (documentPromises env target actor.id 0 fs s).1 rows taskId target h1 h3
            have hbound : Document.getDocumentCount
                (documentPromises env target actor.id 0 fs s).1 taskId ≤ 3 := by
              have hs := hinv taskId
              split_ifs at hle with ht
              · subst ht
                omega
              · omega
            split
            · exact hbound
            · exact hbound

theorem quotaInvariant_of_documents (s s2 : Store) (h : s2.documents = s.documents)
    (hinv : quotaInvariant s) : quotaInvariant s2 := by
  intro taskId
  rw [getDocumentCount_congr s s2 taskId h]
  exact hinv taskId

theorem quotaInvariant_of_le (s s2 : Store)
    (h : ∀ taskId, Document.getDocumentCount s2 taskId ≤ Document.getDocumentCount s taskId)
    (hinv : quotaInvariant s) : quotaInvariant s2 :=
  fun taskId => Nat.le_trans (h taskId) (hinv taskId)

theorem apiStep_quota (env : Env) (s : Store) (actor : Actor) (req : Request)
    (hinv : quotaInvariant s) : quotaInvariant (apiStep env s actor req) := by
  cases req with
  | tasksList => exact hinv
  | tasksGetById id =>
    simp only [apiStep, tasksGetById_store]
    exact hinv
  | tasksPost body =>
    exact quotaInvariant_of_documents s _ (tasksPost_documents env s actor body) hinv
  | tasksPut id body =>
    exact quotaInvariant_of_documents s _ (tasksPut_documents env s actor id body) hinv
  | tasksDelete id =>
    exact quotaInvariant_of_le s _ (tasksDelete_count_le s actor id) hinv
  | documentsUpload taskId files =>
    simp only [apiStep]
    split
    · exact documentsUpload_quota env _ actor taskId files
        (quotaInvariant_of_documents s (stageFiles s files) rfl hinv)
    · exact hinv
  | documentsDownload documentId =>
    exact quotaInvariant_of_le s _ (documentsDownload_count_le s actor documentId) hinv
  | documentsView documentId =>
    simp only [apiStep, documentsView_store]
    exact hinv
  | documentsDelete documentId =>
    exact quotaInvariant_of_le s _ (documentsDelete_count_le s actor documentId) hinv
  | documentsByTask taskId =>
    simp only [apiStep, documentsByTask_store]
    exact hinv
  | usersList =>
    simp only [apiStep, requireAdmin]
    split <;> exact hinv
  | usersGetById id =>
    simp only [apiStep, usersGetById_store]
    exact hinv
  | usersPut id body =>
    exact quotaInvariant_of_documents s _ (usersPut_documents env s actor id body) hinv
  | usersDelete id =>
    exact quotaInvariant_of_le s _ (usersDelete_count_le s actor id) hinv
  | usersChangePassword id body =>
    exact quotaInvariant_of_documents s _ (usersChangePassword_documents env s actor id body)
      hinv
  | usersDeactivate id =>
    exact quotaInvariant_of_documents s _ (usersDeactivate_documents env s actor id) hinv
  | usersActivate id =>
    exact quotaInvariant_of_documents s _ (usersActivate_documents env s actor id) hinv

theorem apiRun_quota :
    ∀ (trace : List (Env × Actor × Request)) (s : Store),
      quotaInvariant s → quotaInvariant (apiRun s trace) := by
  intro trace
  induction trace with
  | nil => intro s h; exact h
  | cons step rest ih =>
    intro s h
    obtain ⟨env, actor, req⟩ := step
    exact ih _ (apiStep_quota env s actor req h)

/-- C5: invariant I1 under sequential execution.  If no task has more than 3
active documents, then after any single request of the API (upload, soft
delete, download, view and listing of documents, every task request, every
user request) executed alone no task has more than 3 active documents; hence
the same holds after any sequence of requests executed one after the other. -/
theorem C5_quota_invariant_sequential (s : Store) (hinv : quotaInvariant s) :
    (∀ (env : Env) (actor : Actor) (req : Request),
      quotaInvariant (apiStep env s actor req)) ∧
    (∀ trace : List (Env × Actor × Request), quotaInvariant (apiRun s trace)) :=
  ⟨fun env actor req => apiStep_quota env s actor req hinv,
   fun trace => apiRun_quota trace s hinv⟩

theorem quotaInvariant_of_length (s : Store) (h : s.documents.length ≤ 3) :
    quotaInvariant s := by
  intro taskId
  exact Nat.le_trans (List.length_filter_le _ _) h

/-- C5, instantiated: the example store satisfies I1 with 2 active documents
on `t1`; after the assignee uploads one more file `t1` has 3 active
documents and I1 holds; it still holds after a further upload request. -/
theorem C5_quota_invariant_sequential_witness :
    quotaInvariant exStore ∧
    Document.getDocumentCount
      (apiStep exEnv exStore exU2 (.documentsUpload "t1" (some [exFile "a"]))) "t1" = 3 ∧
    quotaInvariant (apiStep exEnv exStore exU2 (.documentsUpload "t1" (some [exFile "a"]))) ∧
    quotaInvariant (apiRun exStore
      [(exEnv, exU2, .documentsUpload "t1" (some [exFile "a"])),
       (exEnv, exU1, .documentsUpload "t1" (some [exFile "b"]))]) :=
  ⟨quotaInvariant_of_length exStore (by decide), by decide,
   (C5_quota_invariant_sequential exStore (quotaInvariant_of_length exStore (by decide))).1
     exEnv exU2 (.documentsUpload "t1" (some [exFile "a"])),
   (C5_quota_invariant_sequential exStore (quotaInvariant_of_length exStore (by decide))).2 _⟩

/-! ## Access to documents -/

theorem documents_read_status (s : Store) (actor : Actor) (documentId : String)
    (document : Document) (task : Task) (hrole : actor.role ≠ "admin")
    (hdoc : Document.findByPk s documentId = some document) (hactive : document.isActive = true)
    (htask : Task.findByPk s document.taskId = some task) :
    ((documentsDownload s actor documentId).response.status ≠ 403 ↔
      (actor.id = task.createdBy ∨ task.assignedTo = some actor.id)) ∧
    ((documentsView s actor documentId).response.status ≠ 403 ↔
      (actor.id = task.createdBy ∨ task.assignedTo = some actor.id)) := by
  unfold documentsDownload documentsView
  simp only [hdoc, hactive, htask, Bool.not_true, Bool.false_eq_true, if_false, hrole, ne_eq,
    not_false_eq_true, if_true]
  by_cases hd : ¬ task.createdBy = actor.id ∧ ¬ task.assignedTo = some actor.id
  · have hno : ¬ (actor.id = task.createdBy ∨ task.assignedTo = some actor.id) := by
      rintro (h | h)
      · exact hd.1 h.symm
      · exact hd.2 h
    simp only [if_pos hd, hno, iff_false, not_not, reply]
    exact ⟨trivial, trivial⟩
  · have hyes : actor.id = task.createdBy ∨ task.assignedTo = some actor.id := by
      by_contra hcon
      push_neg at hcon
      exact hd ⟨fun h => hcon.1 h.symm, hcon.2⟩
    simp only [if_neg hd, hyes, iff_true]
    exact ⟨sendDownload_status s document, sendView_status s document⟩

/-- C6: for an actor who is not an admin and an existing active document whose
parent task is in the store, download and inline view pass the access check
(do not answer 403) exactly when the actor is the creator or the assignee of
the parent task; `uploadedBy` does not enter: the uploader of the document, if
neither creator nor assignee of the task, gets 403 on both. -/
theorem C6_document_read_follows_task (s : Store) (actor : Actor) (documentId : String)
    (document : Document) (task : Task) (hrole : actor.role ≠ "admin")
    (hdoc : Document.findByPk s documentId = some document) (hactive : document.isActive = true)
    (htask : Task.findByPk s document.taskId = some task) :
    ((documentsDownload s actor documentId).response.status ≠ 403 ↔
      (actor.id = task.createdBy ∨ task.assignedTo = some actor.id)) ∧
    ((documentsView s actor documentId).response.status ≠ 403 ↔
      (actor.id = task.createdBy ∨ task.assignedTo = some actor.id)) ∧
    (document.uploadedBy = actor.id → actor.id ≠ task.createdBy →
      task.assignedTo ≠ some actor.id →
      (documentsDownload s actor documentId).response.status = 403 ∧
      (documentsView s actor documentId).response.status = 403) := by
  have h := documents_read_status s actor documentId document task hrole hdoc hactive htask
  refine ⟨h.1, h.2, ?_⟩
  intro _ hc ha
  have hno : ¬ (actor.id = task.createdBy ∨ task.assignedTo = some actor.id) := by
    rintro (h1 | h1)
    · exact hc h1
    · exact ha h1
  exact ⟨by_contra fun hne => hno (h.1.mp hne), by_contra fun hne => hno (h.2.mp hne)⟩

/-- C6, instantiated: document `d2` of task `t1` was uploaded by `u3`, who is
neither creator nor assignee of `t1`: `u3` gets 403 on download and view,
while the assignee `u2` passes. -/
theorem C6_document_read_follows_task_witness :
    (documentsDownload exStore exU3 "d2").response.status = 403 ∧
    (documentsView exStore exU3 "d2").response.status = 403 ∧
    (documentsDownload exStore exU2 "d2").response.status ≠ 403 :=
  ⟨((C6_document_read_follows_task exStore exU3 "d2" (exDoc "d2" "u3" true) exTask1
      (by decide) (by decide) (by decide) (by decide)).2.2
      (by decide) (by decide) (by decide)).1,
   ((C6_document_read_follows_task exStore exU3 "d2" (exDoc "d2" "u3" true) exTask1
      (by decide) (by decide) (by decide) (by decide)).2.2
      (by decide) (by decide) (by decide)).2,
   (C6_document_read_follows_task exStore exU2 "d2" (exDoc "d2" "u3" true) exTask1
      (by decide) (by decide) (by decide) (by decide)).1.mpr (by decide)⟩

/-- C7: for an actor who is not an admin and an existing active document whose
parent task is in the store, `DELETE /api/documents/:documentId` is allowed
(answers 200 and soft-deletes, and otherwise answers 403 and leaves the store
unchanged) exactly when the actor is the uploader of the document or the
creator of the task; an assignee who is neither is refused. -/
theorem C7_document_delete_uploader_or_creator (s : Store) (actor : Actor)
    (documentId : String) (document : Document) (task : Task) (hrole : actor.role ≠ "admin")
    (hdoc : Document.findByPk s documentId = some document) (hactive : document.isActive = true)
    (htask : Task.findByPk s document.taskId = some task) :
    ((documentsDelete s actor documentId).response.status = 200 ↔
      (actor.id = document.uploadedBy ∨ actor.id = task.createdBy)) ∧
    ((documentsDelete s actor documentId).response.status = 403 ↔
      ¬ (actor.id = document.uploadedBy ∨ actor.id = task.createdBy)) ∧
    ((actor.id = document.uploadedBy ∨ actor.id = task.createdBy) →
      (documentsDelete s actor documentId).store = Document.updateIsActive s document false) ∧
    (¬ (actor.id = document.uploadedBy ∨ actor.id = task.createdBy) →
      (documentsDelete s actor documentId).store = s) ∧
    (task.assignedTo = some actor.id → actor.id ≠ document.uploadedBy →
      actor.id ≠ task.createdBy →
      (documentsDelete s actor documentId).response.status = 403) := by
  unfold documentsDelete
  simp only [hdoc, hactive, htask, Bool.not_true, Bool.false_eq_true, if_false, hrole, ne_eq,
    not_false_eq_true, if_true]
  by_cases hd : ¬ task.createdBy = actor.id ∧ ¬ document.uploadedBy = actor.id
  · have hno : ¬ (actor.id = document.uploadedBy ∨ actor.id = task.createdBy) := by
      rintro (h | h)
      · exact hd.2 h.symm
      · exact hd.1 h.symm
    simp only [if_pos hd, hno, reply]
    simp
  · have hyes : actor.id = document.uploadedBy ∨ actor.id = task.createdBy := by
      by_contra hcon
      push_neg at hcon
      exact hd ⟨fun h => hcon.2 h.symm, fun h => hcon.1 h.symm⟩
    simp only [if_neg hd, hyes, softDelete]
    simp
    intro _ h1
    rcases hyes with h | h
    · exact absurd h h1
    · exact h

/-- C7, instantiated on document `d1` of task `t1`, uploaded by `u2`: the
assignee `u2` deletes it as its uploader, the creator `u1` may delete it, the
user `u3` may not; on `d2` (uploaded by `u3`) the assignee `u2` gets 403. -/
theorem C7_document_delete_uploader_or_creator_witness :
    (documentsDelete exStore exU2 "d1").response.status = 200 ∧
    (documentsDelete exStore exU1 "d1").response.status = 200 ∧
    (documentsDelete exStore exU3 "d1").response.status = 403 ∧
    (documentsDelete exStore exU2 "d2").response.status = 403 :=
  ⟨(C7_document_delete_uploader_or_creator exStore exU2 "d1" (exDoc "d1" "u2" true) exTask1
      (by decide) (by decide) (by decide) (by decide)).1.mpr (by decide),
   (C7_document_delete_uploader_or_creator exStore exU1 "d1" (exDoc "d1" "u2" true) exTask1
      (by decide) (by decide) (by decide) (by decide)).1.mpr (by decide),
   (C7_document_delete_uploader_or_creator exStore exU3 "d1" (exDoc "d1" "u2" true) exTask1
      (by decide) (by decide) (by decide) (by decide)).2.1.mpr (by decide),
   (C7_document_delete_uploader_or_creator exStore exU2 "d2" (exDoc "d2" "u3" true) exTask1
      (by decide) (by decide) (by decide) (by decide)).2.2.2.2
      (by decide) (by decide) (by decide)⟩

/-- C8: for every actor, a download, view or delete request on a document whose
`isActive` is false has exactly the outcome of the same request on an id that
is not in the table (any uuid in the form the API prints that names no row):
the response 404 "Document not found", the store unchanged, no file unlinked,
no event emitted.  The actor does not enter, so the check on `isActive` comes
before the permission check. -/
theorem C8_inactive_document_is_not_found (s : Store) (actor : Actor)
    (documentId : String) (document : Document)
    (hdoc : Document.findByPk s documentId = some document)
    (hinactive : document.isActive = false) :
    documentsDownload s actor documentId = reply s 404 false (some "Document not found") ∧
    documentsView s actor documentId = reply s 404 false (some "Document not found") ∧
    documentsDelete s actor documentId = reply s 404 false (some "Document not found") ∧
    (∀ missingId, isCanonicalUuid missingId = true → Document.findByPk s missingId = none →
      documentsDownload s actor documentId = documentsDownload s actor missingId ∧
      documentsView s actor documentId = documentsView s actor missingId ∧
      documentsDelete s actor documentId = documentsDelete s actor missingId) ∧
    (documentsDownload s actor documentId).store = s ∧
    (documentsView s actor documentId).store = s ∧
    (documentsDelete s actor documentId).store = s := by
  refine ⟨?_, ?_, ?_, ?_, ?_, ?_, ?_⟩
  · unfold documentsDownload
    simp only [hdoc, hinactive, Bool.not_false, if_true]
  · unfold documentsView
    simp only [hdoc, hinactive, Bool.not_false, if_true]
  · unfold documentsDelete
    simp only [hdoc, hinactive, Bool.not_false, if_true]
  · intro missingId hform hmissing
    have huuid := isUuid_of_canonical missingId hform
    unfold documentsDownload documentsView documentsDelete
    simp only [hdoc, hmissing, hinactive, huuid, Bool.not_false, if_true, and_self]
  · unfold documentsDownload
    simp only [hdoc, hinactive, Bool.not_false, if_true, reply]
  · unfold documentsView
    simp only [hdoc, hinactive, Bool.not_false, if_true, reply]
  · unfold documentsDelete
    simp only [hdoc, hinactive, Bool.not_false, if_true, reply]

/-- C8, instantiated: `d3` is soft-deleted; the admin, the creator `u1` (who
uploaded it) and the stranger `u3` all get the outcome of an id without a
row. -/
theorem C8_inactive_document_is_not_found_witness :
    documentsDownload exStore exAdmin "d3" =
      documentsDownload exStore exAdmin "00000000-0000-4000-8000-000000000009" ∧
    documentsDelete exStore exU1 "d3" = reply exStore 404 false (some "Document not found") ∧
    documentsView exStore exU3 "d3" =
      documentsView exStore exU3 "00000000-0000-4000-8000-000000000009" :=
  ⟨((C8_inactive_document_is_not_found exStore exAdmin "d3" (exDoc "d3" "u1" false)
      (by decide) (by decide)).2.2.2.1 "00000000-0000-4000-8000-000000000009"
      (by decide) (by decide)).1,
   (C8_inactive_document_is_not_found exStore exU1 "d3" (exDoc "d3" "u1" false)
      (by decide) (by decide)).2.2.1,
   ((C8_inactive_document_is_not_found exStore exU3 "d3" (exDoc "d3" "u1" false)
      (by decide) (by decide)).2.2.2.1 "00000000-0000-4000-8000-000000000009"
      (by decide) (by decide)).2.1⟩

/-! ## User updates -/

theorem userFindByPk_id (s : Store) (id : String) (user : User)
    (hfind : User.findByPk s id = some user) : user.id = id := by
  unfold User.findByPk at hfind
  have hp := List.find?_some hfind
  simpa using hp

theorem find_map_replace (users : List User) (u : User) (j : String) :
    (users.map (fun x => if x.id = u.id then u else x)).find? (fun x => decide (x.id = j)) =
      (users.find? (fun x => decide (x.id = j))).map (fun x => if x.id = u.id then u else x) := by
  induction users with
  | nil => rfl
  | cons x rest ih =>
    simp only [List.map_cons, List.find?_cons]
    by_cases hx : x.id = u.id
    · simp only [hx, if_true]
      by_cases hj : u.id = j
      · subst hj
        simp [hx]
      · simp only [hj, decide_False]
        exact ih
    · simp only [hx, if_false]
      by_cases hj : x.id = j
      · subst hj
        simp [hx]
      · simp only [hj, decide_False]
        exact ih

theorem userFindByPk_save (s : Store) (u : User) (j : String) :
    User.findByPk (User.save s u) j =
      (User.findByPk s j).map (fun x => if x.id = u.id then u else x) := by
  unfold User.findByPk User.save
  exact find_map_replace s.users u j

theorem stripped_update_keeps_role (env : Env) (user : User) (body : UserBody) :
    (User.beforeUpdate env none (stripRoleAndActive body)
      (User.set user (stripRoleAndActive body))).role = user.role ∧
    (User.beforeUpdate env none (stripRoleAndActive body)
      (User.set user (stripRoleAndActive body))).isActive = user.isActive ∧
    (User.beforeUpdate env none (stripRoleAndActive body)
      (User.set user (stripRoleAndActive body))).id = user.id ∧
    (User.beforeUpdate env none (stripRoleAndActive body)
      (User.set user (stripRoleAndActive body))).firstName = body.firstName.getD user.firstName ∧
    (User.beforeUpdate env none (stripRoleAndActive body)
      (User.set user (stripRoleAndActive body))).lastName = body.lastName.getD user.lastName ∧
    (User.beforeUpdate env none (stripRoleAndActive body)
      (User.set user (stripRoleAndActive body))).email = body.email.getD user.email := by
  unfold User.beforeUpdate User.set stripRoleAndActive
  cases body.password <;> simp

theorem usersPut_own_store (env : Env) (s : Store) (actor : Actor) (id : String)
    (body : UserBody) (user : User) (hrole : actor.role ≠ "admin") (hself : actor.id = id)
    (hfind : User.findByPk s id = some user) :
    (usersPut env s actor id body).store = s ∨
    ((usersPut env s actor id body).response.status = 200 ∧
      (usersPut env s actor id body).store =
        User.save s (User.beforeUpdate env none (stripRoleAndActive body)
          (User.set user (stripRoleAndActive body)))) := by
  unfold usersPut
  rw [hfind]
  dsimp only
  simp only [hrole, hself, decide_True, decide_False, Bool.not_true, Bool.not_false,
    Bool.false_and, Bool.false_eq_true, if_false, if_true]
  split
  · exact Or.inl rfl
  · split
    · exact Or.inl rfl
    · by_cases hv : User.validate env s user (stripRoleAndActive body) = true
      · simp only [User.update, hv, if_true]
        exact Or.inr ⟨by trivial, by trivial⟩
      · simp only [User.update, hv, if_false]
        exact Or.inl rfl

theorem usersPut_own_success (env : Env) (s : Store) (actor : Actor) (id : String)
    (body : UserBody) (user : User) (hrole : actor.role ≠ "admin") (hself : actor.id = id)
    (hfind : User.findByPk s id = some user)
    (hvalid : userValidation env body = true)
    (hemail : ¬ (truthy body.email = true ∧ body.email ≠ some user.email ∧
      (User.findOneByEmail s (body.email.getD "")).isSome = true))
    (hmodel : User.validate env s user (stripRoleAndActive body) = true) :
    (usersPut env s actor id body).response.status = 200 ∧
      (usersPut env s actor id body).store =
        User.save s (User.beforeUpdate env none (stripRoleAndActive body)
          (User.set user (stripRoleAndActive body))) := by
  have hemail2 : ¬ (truthy (stripRoleAndActive body).email = true ∧
      (stripRoleAndActive body).email ≠ some user.email ∧
      (User.findOneByEmail s ((stripRoleAndActive body).email.getD "")).isSome = true) := hemail
  unfold usersPut
  rw [hfind]
  dsimp only
  simp only [hvalid, hrole, hself, decide_True, decide_False, Bool.not_true, Bool.not_false,
    Bool.false_and, Bool.false_eq_true, if_false, if_true, if_neg hemail2, User.update, hmodel]
  exact ⟨by trivial, by trivial⟩

/-- C9: when an actor who is not an admin updates the own user record with any
body, the payload handed to `user.update` is the body with the keys `role` and
`isActive` removed and every other key as supplied; whatever the outcome, the
stored role and `isActive` of every user id are as before; and when the
request goes through (valid body, no email conflict, model validators pass)
the answer is 200 and the stored record carries the supplied `firstName`,
`lastName` and `email` with the old `role` and `isActive`. -/
theorem C9_non_admin_update_strips_role_and_active (env : Env) (s : Store) (actor : Actor)
    (id : String) (body : UserBody) (user : User) (hrole : actor.role ≠ "admin")
    (hself : actor.id = id) (hfind : User.findByPk s id = some user) :
    ((stripRoleAndActive body).role = none ∧ (stripRoleAndActive body).isActive = none ∧
      (stripRoleAndActive body).id = body.id ∧ (stripRoleAndActive body).email = body.email ∧
      (stripRoleAndActive body).password = body.password ∧
      (stripRoleAndActive body).firstName = body.firstName ∧
      (stripRoleAndActive body).lastName = body.lastName ∧
      (stripRoleAndActive body).lastLogin = body.lastLogin ∧
      (stripRoleAndActive body).refreshToken = body.refreshToken) ∧
    ((usersPut env s actor id body).store = s ∨
      (usersPut env s actor id body).store =
        User.save s (User.beforeUpdate env none (stripRoleAndActive body)
          (User.set user (stripRoleAndActive body)))) ∧
    (∀ j, (User.findByPk (usersPut env s actor id body).store j).map
        (fun u => (u.role, u.isActive)) =
      (User.findByPk s j).map (fun u => (u.role, u.isActive))) ∧
    (userValidation env body = true →
      ¬ (truthy body.email = true ∧ body.email ≠ some user.email ∧
        (User.findOneByEmail s (body.email.getD "")).isSome = true) →
      User.validate env s user (stripRoleAndActive body) = true →
      (usersPut env s actor id body).response.status = 200 ∧
      ∃ r, User.findByPk (usersPut env s actor id body).store id = some r ∧
        r.role = user.role ∧ r.isActive = user.isActive ∧
        r.firstName = body.firstName.getD user.firstName ∧
        r.lastName = body.lastName.getD user.lastName ∧
        r.email = body.email.getD user.email) := by
  have hkeep := stripped_update_keeps_role env user body
  have hid := userFindByPk_id s id user hfind
  have hstore := usersPut_own_store env s actor id body user hrole hself hfind
  refine ⟨⟨rfl, rfl, rfl, rfl, rfl, rfl, rfl, rfl, rfl⟩, ?_, ?_, ?_⟩
  · rcases hstore with h | h
    · exact Or.inl h
    · exact Or.inr h.2
  · intro j
    rcases hstore with h | h
    · rw [h]
    · rw [h.2, userFindByPk_save]
      cases hj : User.findByPk s j with
      | none => rfl
      | some x =>
        simp only [Option.map_some', Option.some.injEq]
        by_cases hx : x.id = (User.beforeUpdate env none (stripRoleAndActive body)
            (User.set user (stripRoleAndActive body))).id
        · rw [if_pos hx]
          have hxid := userFindByPk_id s j x hj
          have hji : j = id := by rw [← hxid, hx, hkeep.2.2.1, hid]
          rw [hji, hfind] at hj
          rw [← Option.some.inj hj, hkeep.1, hkeep.2.1]
        · rw [if_neg hx]
  · intro hvalid hemail hmodel
    have hok := usersPut_own_success env s actor id body user hrole hself hfind hvalid hemail
      hmodel
    refine ⟨hok.1, _, ?_, hkeep.1, hkeep.2.1, hkeep.2.2.2.1, hkeep.2.2.2.2.1, hkeep.2.2.2.2.2⟩
    rw [hok.2, userFindByPk_save, hfind]
    simp only [Option.map_some', Option.some.injEq]
    rw [if_pos hkeep.2.2.1.symm]

/-- C9, instantiated with the case of the specification: `u1` updates the own
record with role `admin`, `isActive` false and first name `X`; the answer is
200 and the stored record differs from the old one in `firstName` only. -/
theorem C9_non_admin_update_strips_role_and_active_witness :
    (usersPut exEnv exStore exU1 "u1"
      { role := some "admin", isActive := some false, firstName := some "X" }).response.status
      = 200 ∧
    User.findByPk (usersPut exEnv exStore exU1 "u1"
      { role := some "admin", isActive := some false, firstName := some "X" }).store "u1" =
      some { exUser "u1" "user" with firstName := "X" } ∧
    (∀ j, (User.findByPk (usersPut exEnv exStore exU1 "u1"
        { role := some "admin", isActive := some false, firstName := some "X" }).store j).map
        (fun u => (u.role, u.isActive)) =
      (User.findByPk exStore j).map (fun u => (u.role, u.isActive))) :=
  ⟨((C9_non_admin_update_strips_role_and_active exEnv exStore exU1 "u1"
      { role := some "admin", isActive := some false, firstName := some "X" }
      (exUser "u1" "user") (by decide) (by decide) (by decide)).2.2.2
      (by decide) (by decide) (by decide)).1,
   by decide,
   (C9_non_admin_update_strips_role_and_active exEnv exStore exU1 "u1"
      { role := some "admin", isActive := some false, firstName := some "X" }
      (exUser "u1" "user") (by decide) (by decide) (by decide)).2.2.1⟩

/-! ## Self-targeting user operations -/

/-- C10, the failing case: the admin `a1`, whose account is active, sends
`PUT /api/users/a1` with `isActive` false.  The handler answers 200 and the
stored account is inactive afterwards: the generic update lacks the guard that
the deactivate and delete routes have. -/
theorem C10_admin_deactivates_self_through_update :
    (User.findByPk exStore "a1").map (fun u => u.isActive) = some true ∧
    (usersPut exEnv exStore exAdmin "a1" { isActive := some false }).response.status = 200 ∧
    (User.findByPk (usersPut exEnv exStore exAdmin "a1" { isActive := some false }).store
      "a1").map (fun u => u.isActive) = some false ∧
    usersDeactivate exEnv exStore exAdmin "a1" =
      reply exStore 400 false (some "Cannot deactivate your own account") ∧
    usersDelete exStore exAdmin "a1" =
      reply exStore 400 false (some "Cannot delete your own account") := by
  decide

/-! ## The task list filter -/

theorem buildWhereClause_opOr_without_search (now : Nat) (query : TaskQuery)
    (userId userRole : String) (hrole : userRole ≠ "admin")
    (hsearch : truthy query.search = false) :
    (buildWhereClause now query userId userRole).opOr =
      some [Condition.createdBy userId, Condition.assignedTo userId] := by
  unfold buildWhereClause
  simp only [hrole, hsearch, ne_eq, not_false_eq_true, if_true, Bool.false_eq_true, if_false]
  split_ifs <;> rfl

theorem buildWhereClause_scoped_without_search (iLike : String → String → Bool) (now : Nat)
    (query : TaskQuery) (userId userRole : String) (t : Task) (hrole : userRole ≠ "admin")
    (hsearch : truthy query.search = false)
    (h : (buildWhereClause now query userId userRole).holds iLike t = true) :
    t.createdBy = userId ∨ t.assignedTo = some userId := by
  unfold WhereClause.holds at h
  rw [buildWhereClause_opOr_without_search now query userId userRole hrole hsearch] at h
  simp only [Bool.and_eq_true] at h
  have h1 := h.1.1.1.1.1
  simpa [Condition.holds] using h1

/-- C11, the failing case: the user `u3`, who is neither creator nor assignee
of task `t1` ("Write report") and is refused `GET /api/tasks/t1`, lists the
tasks with `search=report`; the where-clause joins the two ILIKE conditions to
the ownership conditions under the same `Op.or`, and `t1` is among the rows
selected. -/
theorem C11_search_widens_task_list :
    exU3.role ≠ "admin" ∧
    exTask1.createdBy ≠ exU3.id ∧ exTask1.assignedTo ≠ some exU3.id ∧
    (tasksGetById exStore exU3 "t1").response.status = 403 ∧
    (buildWhereClause exEnv.now { search := some "report" } exU3.id exU3.role).opOr =
      some [Condition.createdBy "u3", Condition.assignedTo "u3",
        Condition.titleILike "%report%", Condition.descriptionILike "%report%"] ∧
    (buildWhereClause exEnv.now { search := some "report" } exU3.id exU3.role).holds exILike
      exTask1 = true ∧
    exTask1 ∈ tasksListRows exEnv exILike exStore exU3 { search := some "report" } := by
  decide

/-! ## Socket fan-out -/

/-- C12, the failing case: every user of the example store is connected; the
creator `u1` updates task `t1`.  The handler sends `taskUpdated` with
`io.emit`, so the event is delivered to `u3`, who is not an admin, is neither
creator nor assignee of `t1` and is refused `GET /api/tasks/t1`; the helper
`io.emitTaskUpdate` on the same sockets would not have reached `u3`. -/
theorem C12_broadcast_reaches_unauthorized_user :
    (tasksPut exEnv exStore exU1 "t1" exTaskBody).response.status = 200 ∧
    (tasksPut exEnv exStore exU1 "t1" exTaskBody).emitted =
      [{ event := "taskUpdated", taskId := "t1" }] ∧
    ("u3", { event := "taskUpdated", taskId := "t1" }) ∈
      deliveries (exStore.users.map connect) (tasksPut exEnv exStore exU1 "t1" exTaskBody) ∧
    exU3.role ≠ "admin" ∧
    (tasksGetById (tasksPut exEnv exStore exU1 "t1" exTaskBody).store exU3 "t1").response.status
      = 403 ∧
    connect (exUser "u3" "user") ∉ emitTaskUpdate (exStore.users.map connect) exTask1 := by
  decide

/-! ## Outcomes of the upload handler -/

theorem documentsUpload_authorized (env : Env) (s : Store) (actor : Actor) (taskId : String)
    (task : Task) (files : Option (List UploadedFile))
    (hfind : Task.findByPk s taskId = some task)
    (hauth : actor.role = "admin" ∨ actor.id = task.createdBy ∨
      task.assignedTo = some actor.id) :
    documentsUpload env s actor taskId files =
      (match files with
      | none => reply s 400 false (some "No files uploaded")
      | some fs =>
        if fs.length = 0 then reply s 400 false (some "No files uploaded")
        else if Document.getDocumentCount s taskId + fs.length > 3 then
          { store := unlinkFiles s fs
            response := { status := 400, success := false,
                          message := some (quotaMessage fs.length
                            (Document.getDocumentCount s taskId)) }
            unlinked := fs.map (fun f => f.path) }
        else if (documentPromises env taskId actor.id 0 fs s).2.all Option.isSome then
          { store := (documentPromises env taskId actor.id 0 fs s).1
            response := { status := 201, success := true,
                          message := some (toString fs.length ++
                            " document(s) uploaded successfully") }
            emitted := [{ event := "documentsUploaded", taskId := taskId }] }
        else
          { store := unlinkFiles (documentPromises env taskId actor.id 0 fs s).1 fs
            response := { status := 500, success := false,
                          message := some "Failed to upload documents" }
            unlinked := fs.map (fun f => f.path) }) := by
  have hallow : ¬ (actor.role ≠ "admin" ∧ task.createdBy ≠ actor.id ∧
      task.assignedTo ≠ some actor.id) := by
    rintro ⟨h1, h2, h3⟩
    rcases hauth with h | h | h
    · exact h1 h
    · exact h2 h.symm
    · exact h3 h
  unfold documentsUpload
  rw [hfind]
  simp only [if_neg hallow]

/-- C14, the case of the specification evaluated on the code: task `t1` has 3
active documents and its assignee uploads 1 file.  The answer is 400 and its
JSON body has the keys `success` and `message` only: no `allowedCount`. -/
theorem C14_rejection_has_no_allowedCount :
    Document.getDocumentCount exStoreFull "t1" = 3 ∧
    (documentsUpload exEnv exStoreFull exU2 "t1" (some [exFile "a"])).response.status = 400 ∧
    (documentsUpload exEnv exStoreFull exU2 "t1" (some [exFile "a"])).response.json =
      [("success", JsonValue.bool false),
       ("message", JsonValue.str
         "Cannot upload 1 files. Task can have maximum 3 documents. Current count: 3")] ∧
    (documentsUpload exEnv exStoreFull exU2 "t1" (some [exFile "a"])).response.json.lookup
      "allowedCount" = none := by
  decide

/-- C14, amended: every quota rejection of an upload batch (authorized actor,
non-empty batch of n files, c active documents, c + n > 3) answers 400 with a
body of exactly the keys `success` (false) and `message`, the message naming
the number n of incoming files and the current count c; the body has no key
`allowedCount`. -/
theorem C14_rejection_reports_current_count (env : Env) (s : Store) (actor : Actor)
    (taskId : String) (task : Task) (fs : List UploadedFile)
    (hfind : Task.findByPk s taskId = some task)
    (hauth : actor.role = "admin" ∨ actor.id = task.createdBy ∨
      task.assignedTo = some actor.id)
    (hne : fs ≠ [])
    (hquota : Document.getDocumentCount s taskId + fs.length > 3) :
    (documentsUpload env s actor taskId (some fs)).response.status = 400 ∧
    (documentsUpload env s actor taskId (some fs)).response.json =
      [("success", JsonValue.bool false),
       ("message", JsonValue.str ("Cannot upload " ++ toString fs.length ++
          " files. Task can have maximum 3 documents. Current count: " ++
          toString (Document.getDocumentCount s taskId)))] ∧
    (documentsUpload env s actor taskId (some fs)).response.json.lookup "allowedCount" = none := by
  have hlen : ¬ fs.length = 0 := fun h => hne (List.length_eq_zero.mp h)
  rw [documentsUpload_authorized env s actor taskId task (some fs) hfind hauth]
  simp only [if_neg hlen, if_pos hquota, Response.json, quotaMessage]
  refine ⟨by trivial, by trivial, ?_⟩
  simp [List.lookup]

/-- C14, amended, instantiated: 3 active documents on `t1`, 1 incoming file. -/
theorem C14_rejection_reports_current_count_witness :
    (documentsUpload exEnv exStoreFull exU2 "t1" (some [exFile "b"])).response.status = 400 ∧
    (documentsUpload exEnv exStoreFull exU2 "t1" (some [exFile "b"])).response.json =
      [("success", JsonValue.bool false),
       ("message", JsonValue.str ("Cannot upload " ++ toString [exFile "b"].length ++
          " files. Task can have maximum 3 documents. Current count: " ++
          toString (Document.getDocumentCount exStoreFull "t1")))] ∧
    (documentsUpload exEnv exStoreFull exU2 "t1" (some [exFile "b"])).response.json.lookup
      "allowedCount" = none :=
  C14_rejection_reports_current_count exEnv exStoreFull exU2 "t1" exTask1 [exFile "b"]
    (by decide) (by decide) (by decide) (by decide)

/-- C15, the claim evaluated on the code: the assignee of `t1` sends an upload
request with an empty file list; the answer is 400 with `success` false, not
a success. -/
theorem C15_empty_upload_is_an_error :
    (documentsUpload exEnv exStore exU2 "t1" (some [])).response.status = 400 ∧
    (documentsUpload exEnv exStore exU2 "t1" (some [])).response.success = false ∧
    (documentsUpload exEnv exStore exU2 "t1" none).response.status = 400 := by
  decide

/-- C15, amended: an authorized upload request with zero incoming files (an
empty or absent `req.files`) on an existing task is answered 400
"No files uploaded" for every current active count; the store is unchanged,
nothing is unlinked or emitted. -/
theorem C15_empty_upload_rejected_store_unchanged (env : Env) (s : Store) (actor : Actor)
    (taskId : String) (task : Task) (files : Option (List UploadedFile))
    (hfind : Task.findByPk s taskId = some task)
    (hauth : actor.role = "admin" ∨ actor.id = task.createdBy ∨
      task.assignedTo = some actor.id)
    (hzero : (files.getD []).length = 0) :
    documentsUpload env s actor taskId files = reply s 400 false (some "No files uploaded") := by
  rw [documentsUpload_authorized env s actor taskId task files hfind hauth]
  cases files with
  | none => rfl
  | some fs =>
    have hlen : fs.length = 0 := hzero
    simp only [if_pos hlen]

/-- C15, amended, instantiated: the creator of `t1` uploads no file while `t1`
is at the cap of 3 active documents. -/
theorem C15_empty_upload_rejected_store_unchanged_witness :
    documentsUpload exEnv exStoreFull exU1 "t1" (some []) =
      reply exStoreFull 400 false (some "No files uploaded") :=
  C15_empty_upload_rejected_store_unchanged exEnv exStoreFull exU1 "t1" exTask1 (some [])
    (by decide) (by decide) (by decide)

theorem documentPromises_files (env : Env) (taskId uploadedBy : String) :
    ∀ (fs : List UploadedFile) (i : Nat) (s : Store),
      (documentPromises env taskId uploadedBy i fs s).1.files = s.files := by
  intro fs
  induction fs with
  | nil => intro i s; rfl
  | cons f rest ih =>
    intro i s
    simp only [documentPromises]
    rw [ih]
    cases hc : Document.create s (env.uuidv4 i) f taskId uploadedBy with
    | none => rfl
    | some p =>
      unfold Document.create at hc
      dsimp only at hc
      split_ifs at hc
      rw [← Option.some.inj hc]
      rfl

theorem unlinkFiles_nil (s : Store) : unlinkFiles s [] = s := by
  cases s
  simp [unlinkFiles]

theorem unlinkFiles_removes (s : Store) (fs : List UploadedFile) (f : UploadedFile)
    (hf : f ∈ fs) : f.path ∉ (unlinkFiles s fs).files := by
  unfold unlinkFiles
  simp only [List.mem_filter, Bool.not_eq_true', List.any_eq_false, decide_eq_true_eq, not_and,
    not_forall, Classical.not_imp, not_not]
  intro _
  exact ⟨f, hf, rfl⟩

/-- C16: on every exit of the upload handler that is not the 201 success (task
not found, access denied, no files, quota exceeded, a failed
`Document.create` caught by the catch block) an unlink is issued for each
entry of `req.files` and none of the staged paths is on disk when the
response is returned; on the 201 success nothing is unlinked and the disk is
as before. -/
theorem C16_upload_cleanup_on_every_failure (env : Env) (s : Store) (actor : Actor)
    (taskId : String) (files : Option (List UploadedFile)) :
    ((documentsUpload env s actor taskId files).response.status ≠ 201 →
      (documentsUpload env s actor taskId files).unlinked =
        (files.getD []).map (fun f => f.path) ∧
      (documentsUpload env s actor taskId files).store.files =
        (unlinkFiles s (files.getD [])).files ∧
      ∀ f ∈ files.getD [], f.path ∉ (documentsUpload env s actor taskId files).store.files) ∧
    ((documentsUpload env s actor taskId files).response.status = 201 →
      (documentsUpload env s actor taskId files).unlinked = [] ∧
      (documentsUpload env s actor taskId files).store.files = s.files) := by
  have hmain : ((documentsUpload env s actor taskId files).response.status ≠ 201 →
      (documentsUpload env s actor taskId files).unlinked =
        (files.getD []).map (fun f => f.path) ∧
      (documentsUpload env s actor taskId files).store.files =
        (unlinkFiles s (files.getD [])).files) ∧
    ((documentsUpload env s actor taskId files).response.status = 201 →
      (documentsUpload env s actor taskId files).unlinked = [] ∧
      (documentsUpload env s actor taskId files).store.files = s.files) := by
    unfold documentsUpload
    split
    · split <;> simp
    · split
      · simp
      · split
        · simp [reply, unlinkFiles_nil]
        · rename_i fs
          split
          · rename_i hlen
            have hnil : fs = [] := List.length_eq_zero.mp hlen
            subst hnil
            simp [reply, unlinkFiles_nil]
          · dsimp only
            split
            · simp
            · split
              · simp [documentPromises_files]
              · simp [unlinkFiles, documentPromises_files]
  refine ⟨fun hne => ⟨(hmain.1 hne).1, (hmain.1 hne).2, ?_⟩, hmain.2⟩
  intro f hf
  rw [(hmain.1 hne).2]
  exact unlinkFiles_removes s _ f hf

/-- C16, instantiated: the stranger `u3` uploads two files to `t1` and is
refused; both staged paths are unlinked and gone from the disk. -/
theorem C16_upload_cleanup_on_every_failure_witness :
    (documentsUpload exEnv (stageFiles exStore (some [exFile "a", exFile "b"])) exU3 "t1"
      (some [exFile "a", exFile "b"])).unlinked =
      ["uploads/a-staged.pdf", "uploads/b-staged.pdf"] ∧
    (documentsUpload exEnv (stageFiles exStore (some [exFile "a", exFile "b"])) exU3 "t1"
      (some [exFile "a", exFile "b"])).store.files = exStore.files := by
  have h := (C16_upload_cleanup_on_every_failure exEnv
    (stageFiles exStore (some [exFile "a", exFile "b"])) exU3 "t1"
    (some [exFile "a", exFile "b"])).1 (by decide)
  exact ⟨h.1.trans (by decide), h.2.1.trans (by decide)⟩

/-! ## Order of the checks -/

/-- C17, the claim evaluated on the code: the task id `t9` and the document id
`d9` name no row.  No handler validates the id of the route: the text
reaches a `uuid` column, the lookup throws and the `catch` block answers 500,
not 404. -/
theorem C17_malformed_id_is_server_error :
    Task.findByPk exStore "t9" = none ∧
    Document.findByPk exStore "d9" = none ∧
    tasksGetById exStore exU3 "t9" = reply exStore 500 false (some "Failed to retrieve task") ∧
    tasksDelete exStore exU3 "t9" = reply exStore 500 false (some "Failed to delete task") ∧
    (documentsUpload exEnv exStore exU3 "t9" none).response.status = 500 ∧
    documentsDownload exStore exU3 "d9" =
      reply exStore 500 false (some "Failed to download document") ∧
    (tasksGetById exStore exU3 "t9").response.status ≠ 404 := by
  decide

/-- C17, amended: for every actor, on a task id that is a uuid in the form the
API prints and is not in the table, a task read, update (with a body that
passes validation), delete, upload or document listing is answered 404, and
so is a document download, view or delete on such a document id; the update
is never answered 403 whatever the body.  On an id that is not a uuid and
names no row none of these requests is answered 403 either.  No store change
results, apart from the cleanup of the staged files of the upload. -/
theorem C17_not_found_before_forbidden (env : Env) (s : Store) (actor : Actor)
    (taskId documentId : String) (body : TaskBody) (files : Option (List UploadedFile))
    (htask : Task.findByPk s taskId = none)
    (hdoc : Document.findByPk s documentId = none) :
    (isCanonicalUuid taskId = true →
      tasksGetById s actor taskId = reply s 404 false (some "Task not found") ∧
      (taskValidation env body = true →
        tasksPut env s actor taskId body = reply s 404 false (some "Task not found")) ∧
      (tasksPut env s actor taskId body).response.status ≠ 403 ∧
      tasksDelete s actor taskId = reply s 404 false (some "Task not found") ∧
      (documentsUpload env s actor taskId files).response =
        { status := 404, success := false, message := some "Task not found" } ∧
      documentsByTask s actor taskId = reply s 404 false (some "Task not found")) ∧
    (isCanonicalUuid documentId = true →
      documentsDownload s actor documentId = reply s 404 false (some "Document not found") ∧
      documentsView s actor documentId = reply s 404 false (some "Document not found") ∧
      documentsDelete s actor documentId = reply s 404 false (some "Document not found")) ∧
    (isUuid taskId = false →
      (tasksGetById s actor taskId).response.status ≠ 403 ∧
      (tasksPut env s actor taskId body).response.status ≠ 403 ∧
      (tasksDelete s actor taskId).response.status ≠ 403 ∧
      (documentsUpload env s actor taskId files).response.status ≠ 403 ∧
      (documentsByTask s actor taskId).response.status ≠ 403) ∧
    (isUuid documentId = false →
      (documentsDownload s actor documentId).response.status ≠ 403 ∧
      (documentsView s actor documentId).response.status ≠ 403 ∧
      (documentsDelete s actor documentId).response.status ≠ 403) := by
  unfold tasksGetById tasksPut tasksDelete documentsUpload documentsByTask documentsDownload
    documentsView documentsDelete
  simp only [htask, hdoc]
  refine ⟨?_, ?_, ?_, ?_⟩
  · intro hform
    have huuid := isUuid_of_canonical taskId hform
    simp only [huuid, if_true]
    refine ⟨trivial, ?_, ?_, trivial, trivial, trivial⟩
    · intro hvalid
      simp [hvalid]
    · split_ifs <;> simp [reply]
  · intro hform
    have huuid := isUuid_of_canonical documentId hform
    simp only [huuid, if_true, and_self]
  · intro hbad
    simp only [hbad, Bool.false_eq_true, if_false]
    refine ⟨?_, ?_, ?_, ?_, ?_⟩
    · simp [reply]
    · split_ifs <;> simp [reply]
    · simp [reply]
    · simp
    · simp [reply]
  · intro hbad
    simp only [hbad, Bool.false_eq_true, if_false]
    simp [reply]

/-- C17, amended, instantiated: the stranger `u3` asks for a task and a
document under a uuid that names no row and gets 404; under `t9` the answer
is not 403 either. -/
theorem C17_not_found_before_forbidden_witness :
    tasksGetById exStore exU3 "00000000-0000-4000-8000-000000000009" =
      reply exStore 404 false (some "Task not found") ∧
    tasksPut exEnv exStore exU3 "00000000-0000-4000-8000-000000000009" exTaskBody =
      reply exStore 404 false (some "Task not found") ∧
    tasksDelete exStore exU3 "00000000-0000-4000-8000-000000000009" =
      reply exStore 404 false (some "Task not found") ∧
    documentsDelete exStore exU3 "00000000-0000-4000-8000-000000000009" =
      reply exStore 404 false (some "Document not found") ∧
    (tasksDelete exStore exU3 "t9").response.status ≠ 403 := by
  have h := C17_not_found_before_forbidden exEnv exStore exU3
    "00000000-0000-4000-8000-000000000009" "00000000-0000-4000-8000-000000000009" exTaskBody none (by decide) (by decide)
  have g := C17_not_found_before_forbidden exEnv exStore exU3 "t9" "d9" exTaskBody none
    (by decide) (by decide)
  have ht := h.1 (by decide)
  have hd := h.2.1 (by decide)
  exact ⟨ht.1, ht.2.1 (by decide), ht.2.2.2.1, hd.2.2, (g.2.2.1 (by decide)).2.2.1⟩

/-- C19: for an existing task and an actor who is not an admin and neither its
creator nor its assignee, the upload handler answers 403 "Access denied"
whatever `req.files` is (absent, empty, any batch) and whatever the number of
active documents of the task; no document row is created and the staged
files are unlinked. -/
theorem C19_upload_permission_before_quota (env : Env) (s : Store) (actor : Actor)
    (taskId : String) (task : Task) (files : Option (List UploadedFile))
    (hfind : Task.findByPk s taskId = some task) (hrole : actor.role ≠ "admin")
    (hcreator : actor.id ≠ task.createdBy) (hassignee : task.assignedTo ≠ some actor.id) :
    documentsUpload env s actor taskId files =
      { store := unlinkFiles s (files.getD [])
        response := { status := 403, success := false, message := some "Access denied" }
        unlinked := (files.getD []).map (fun f => f.path) } ∧
    (documentsUpload env s actor taskId files).response.status = 403 ∧
    (documentsUpload env s actor taskId files).response.message ≠ some "No files uploaded" ∧
    (documentsUpload env s actor taskId files).store.documents = s.documents := by
  have hdeny : actor.role ≠ "admin" ∧ task.createdBy ≠ actor.id ∧
      task.assignedTo ≠ some actor.id := ⟨hrole, fun h => hcreator h.symm, hassignee⟩
  unfold documentsUpload
  rw [hfind]
  simp only [if_pos hdeny, unlinkFiles]
  refine ⟨by trivial, by trivial, ?_, by trivial⟩
  decide

/-- C19, instantiated: `u3` is refused on `t1` with no file, with one file, and
with one file when `t1` is already at the cap. -/
theorem C19_upload_permission_before_quota_witness :
    (documentsUpload exEnv exStore exU3 "t1" none).response.status = 403 ∧
    (documentsUpload exEnv exStore exU3 "t1" (some [exFile "a"])).response.status = 403 ∧
    (documentsUpload exEnv exStoreFull exU3 "t1" (some [exFile "a"])).response.status = 403 :=
  ⟨(C19_upload_permission_before_quota exEnv exStore exU3 "t1" exTask1 none
      (by decide) (by decide) (by decide) (by decide)).2.1,
   (C19_upload_permission_before_quota exEnv exStore exU3 "t1" exTask1 (some [exFile "a"])
      (by decide) (by decide) (by decide) (by decide)).2.1,
   (C19_upload_permission_before_quota exEnv exStoreFull exU3 "t1" exTask1 (some [exFile "a"])
      (by decide) (by decide) (by decide) (by decide)).2.1⟩

/-- C18, the claim evaluated on the code: the id
`00000000-0000-4000-8000-000000000009` is a uuid that names no user; the user
`u1` (not an admin) asks to delete, deactivate, activate and read it and to
change its password.  The gates `requireAdmin` and `requireOwnershipOrAdmin`
precede the handlers, so each answer is 403, not 404.  And on `u9`, which is
not a uuid, the lookup of the admin throws: the answer is 500, not 404. -/
theorem C18_missing_user_forbidden_first :
    User.findByPk exStore "00000000-0000-4000-8000-000000000009" = none ∧
    (usersDelete exStore exU1 "00000000-0000-4000-8000-000000000009").response.status = 403 ∧
    (usersDeactivate exEnv exStore exU1 "00000000-0000-4000-8000-000000000009").response.status = 403 ∧
    (usersActivate exEnv exStore exU1 "00000000-0000-4000-8000-000000000009").response.status = 403 ∧
    (usersGetById exStore exU1 "00000000-0000-4000-8000-000000000009").response.status = 403 ∧
    (usersChangePassword exEnv exStore exU1 "00000000-0000-4000-8000-000000000009"
      { currentPassword := some "Secret1", newPassword := some "Secret2" }).response.status
      = 403 ∧
    User.findByPk exStore "u9" = none ∧
    (usersDelete exStore exAdmin "u9").response.status = 500 := by
  decide

/-- C18, amended: on a user id that is a uuid in the form the API prints and
does not exist, the generic update `PUT /api/users/:id` answers 404 for every
actor when the body passes validation and never answers 403 (nor does it on
an id that is not a uuid); delete, deactivate and activate answer 404 to an
admin; get-one and change-password (with a valid body) answer 404 to an admin
and to an actor whose own id is the target.  Whatever the form of the
missing id, delete, deactivate and activate answer 403 to an actor who is not
an admin, and get-one and change-password answer 403 to an actor who is
neither an admin nor the target. -/
theorem C18_missing_user_gate_then_lookup (env : Env) (s : Store) (actor : Actor) (id : String)
    (ubody : UserBody) (pbody : PasswordBody) (hmissing : User.findByPk s id = none) :
    (isCanonicalUuid id = true → userValidation env ubody = true →
      usersPut env s actor id ubody = reply s 404 false (some "User not found")) ∧
    ((isCanonicalUuid id = true ∨ isUuid id = false) →
      (usersPut env s actor id ubody).response.status ≠ 403) ∧
    (isCanonicalUuid id = true → actor.role = "admin" →
      usersDelete s actor id = reply s 404 false (some "User not found") ∧
      usersDeactivate env s actor id = reply s 404 false (some "User not found") ∧
      usersActivate env s actor id = reply s 404 false (some "User not found")) ∧
    (actor.role ≠ "admin" →
      (usersDelete s actor id).response.status = 403 ∧
      (usersDeactivate env s actor id).response.status = 403 ∧
      (usersActivate env s actor id).response.status = 403) ∧
    (isCanonicalUuid id = true → (actor.role = "admin" ∨ actor.id = id) →
      usersGetById s actor id = reply s 404 false (some "User not found") ∧
      (passwordValidation pbody = true →
        usersChangePassword env s actor id pbody =
          reply s 404 false (some "User not found"))) ∧
    (actor.role ≠ "admin" → actor.id ≠ id →
      (usersGetById s actor id).response.status = 403 ∧
      (usersChangePassword env s actor id pbody).response.status = 403) := by
  unfold usersPut usersDelete usersDeactivate usersActivate usersGetById usersChangePassword
    requireAdmin requireOwnershipOrAdmin
  simp only [hmissing]
  refine ⟨?_, ?_, ?_, ?_, ?_, ?_⟩
  · intro hform hvalid
    simp [hvalid, isUuid_of_canonical id hform]
  · intro _
    split_ifs <;> simp [reply]
  · intro hform hadmin
    simp [hadmin, isUuid_of_canonical id hform]
  · intro hrole
    simp [hrole, reply]
  · intro hform hgate
    have hpass : ¬ (actor.role ≠ "admin" ∧ actor.id ≠ id) := by
      rintro ⟨h1, h2⟩
      rcases hgate with h | h
      · exact h1 h
      · exact h2 h
    simp only [if_neg hpass, isUuid_of_canonical id hform, if_true, true_and]
    intro hvalid
    simp [hvalid]
  · intro hrole hother
    simp [hrole, hother, reply]

/-- C18, amended, instantiated: on the missing id
`00000000-0000-4000-8000-000000000009` the admin gets 404 from delete and
`u1` gets 404 from the generic update. -/
theorem C18_missing_user_gate_then_lookup_witness :
    usersDelete exStore exAdmin "00000000-0000-4000-8000-000000000009" =
      reply exStore 404 false (some "User not found") ∧
    usersPut exEnv exStore exU1 "00000000-0000-4000-8000-000000000009" { firstName := some "X" } =
      reply exStore 404 false (some "User not found") := by
  have h := C18_missing_user_gate_then_lookup exEnv exStore exAdmin "00000000-0000-4000-8000-000000000009"
    { firstName := some "X" } {} (by decide)
  have g := C18_missing_user_gate_then_lookup exEnv exStore exU1 "00000000-0000-4000-8000-000000000009"
    { firstName := some "X" } {} (by decide)
  exact ⟨(h.2.2.1 (by decide) (by decide)).1, g.1 (by decide) (by decide)⟩

/-! ## Task updates -/

theorem taskFindByPk_id (s : Store) (id : String) (task : Task)
    (hfind : Task.findByPk s id = some task) : task.id = id := by
  unfold Task.findByPk at hfind
  have hp := List.find?_some hfind
  simpa using hp

theorem find_map_replace_task (tasks : List Task) (u : Task) (j : String) :
    (tasks.map (fun x => if x.id = u.id then u else x)).find? (fun x => decide (x.id = j)) =
      (tasks.find? (fun x => decide (x.id = j))).map (fun x => if x.id = u.id then u else x) := by
  induction tasks with
  | nil => rfl
  | cons x rest ih =>
    simp only [List.map_cons, List.find?_cons]
    by_cases hx : x.id = u.id
    · simp only [hx, if_true]
      by_cases hj : u.id = j
      · subst hj
        simp [hx]
      · simp only [hj, decide_False]
        exact ih
    · simp only [hx, if_false]
      by_cases hj : x.id = j
      · subst hj
        simp [hx]
      · simp only [hj, decide_False]
        exact ih

theorem taskFindByPk_save (s : Store) (u : Task) (j : String) :
    Task.findByPk (Task.save s u) j =
      (Task.findByPk s j).map (fun x => if x.id = u.id then u else x) := by
  unfold Task.findByPk Task.save
  exact find_map_replace_task s.tasks u j

theorem taskBeforeUpdate_keeps (env : Env) (prev task : Task) :
    (Task.beforeUpdate env prev task).id = task.id ∧
    (Task.beforeUpdate env prev task).assignedTo = task.assignedTo ∧
    (Task.beforeUpdate env prev task).createdBy = task.createdBy := by
  unfold Task.beforeUpdate
  split_ifs <;> exact ⟨rfl, rfl, rfl⟩

theorem tasksPut_success (env : Env) (s : Store) (actor : Actor) (id : String)
    (body : TaskBody) (task : Task)
    (hfind : Task.findByPk s id = some task)
    (hauth : actor.role = "admin" ∨ actor.id = task.createdBy ∨
      task.assignedTo = some actor.id)
    (hvalid : taskValidation env body = true)
    (hexists : ¬ (truthy body.assignedTo = true ∧ body.assignedTo ≠ task.assignedTo ∧
      (User.findByPk s (body.assignedTo.getD "")).isNone = true))
    (hmodel : Task.validate env s body = true) :
    (tasksPut env s actor id body).response.status = 200 ∧
    (tasksPut env s actor id body).store =
      Task.save s (Task.beforeUpdate env task (Task.set task body)) := by
  have hallow : ¬ (actor.role ≠ "admin" ∧ task.createdBy ≠ actor.id ∧
      task.assignedTo ≠ some actor.id) := by
    rintro ⟨h1, h2, h3⟩
    rcases hauth with h | h | h
    · exact h1 h
    · exact h2 h.symm
    · exact h3 h
  unfold tasksPut
  rw [hfind]
  simp only [hvalid, Bool.not_true, Bool.false_eq_true, if_false, if_neg hallow,
    if_neg hexists, Task.update, hmodel, if_true]
  exact ⟨by trivial, by trivial⟩

/-- C20, the claim evaluated on the code: `u2` is the assignee of `t1`, not its
creator and not an admin; `u2` sends `PUT /api/tasks/t1` with
`assignedTo = u3`.  The answer is 200 and the stored `assignedTo` is `u3`. -/
theorem C20_assignee_reassigns_task :
    exU2.role ≠ "admin" ∧ exU2.id ≠ exTask1.createdBy ∧
    (Task.findByPk exStore "t1").map (fun t => t.assignedTo) = some (some "u2") ∧
    (tasksPut exEnv exStore exU2 "t1"
      { title := some "Write report", assignedTo := some "u3" }).response.status = 200 ∧
    (Task.findByPk (tasksPut exEnv exStore exU2 "t1"
      { title := some "Write report", assignedTo := some "u3" }).store "t1").map
      (fun t => t.assignedTo) = some (some "u3") := by
  decide

/-- C20, amended: `assignedTo` is mutable by every actor who passes the access
check of the update, that is the creator, the current assignee or an admin.
When such an update goes through (valid body, the named assignee exists, the
model validators pass) the answer is 200 and the stored `assignedTo` is the
one of the body if the body carries one and the previous value otherwise; an
update by any other actor is answered 403 and leaves the store unchanged. -/
theorem C20_assignedTo_mutable_by_updaters (env : Env) (s : Store) (actor : Actor)
    (id : String) (body : TaskBody) (task : Task)
    (hfind : Task.findByPk s id = some task)
    (hvalid : taskValidation env body = true) :
    ((actor.role = "admin" ∨ actor.id = task.createdBy ∨ task.assignedTo = some actor.id) →
      ¬ (truthy body.assignedTo = true ∧ body.assignedTo ≠ task.assignedTo ∧
        (User.findByPk s (body.assignedTo.getD "")).isNone = true) →
      Task.validate env s body = true →
      (tasksPut env s actor id body).response.status = 200 ∧
      ∃ t, Task.findByPk (tasksPut env s actor id body).store id = some t ∧
        t.assignedTo = (match body.assignedTo with
          | some a => some a
          | none => task.assignedTo)) ∧
    (¬ (actor.role = "admin" ∨ actor.id = task.createdBy ∨ task.assignedTo = some actor.id) →
      (tasksPut env s actor id body).response.status = 403 ∧
      (tasksPut env s actor id body).store = s) := by
  constructor
  · intro hauth hexists hmodel
    have hok := tasksPut_success env s actor id body task hfind hauth hvalid hexists hmodel
    have hkeep := taskBeforeUpdate_keeps env task (Task.set task body)
    refine ⟨hok.1, Task.beforeUpdate env task (Task.set task body), ?_, ?_⟩
    · rw [hok.2, taskFindByPk_save, hfind]
      simp only [Option.map_some', Option.some.injEq]
      rw [if_pos]
      rw [hkeep.1]
      rfl
    · rw [hkeep.2.1]
      rfl
  · intro hno
    have hdeny : actor.role ≠ "admin" ∧ task.createdBy ≠ actor.id ∧
        task.assignedTo ≠ some actor.id := by
      refine ⟨fun h => hno (Or.inl h), fun h => hno (Or.inr (Or.inl h.symm)),
        fun h => hno (Or.inr (Or.inr h))⟩
    unfold tasksPut
    rw [hfind]
    simp only [hvalid, Bool.not_true, Bool.false_eq_true, if_false, if_pos hdeny, reply]
    exact ⟨by trivial, by trivial⟩

/-- C20, amended, instantiated: the assignee `u2` reassigns `t1` to `u3`; `u3`,
who may not update `t1`, changes nothing. -/
theorem C20_assignedTo_mutable_by_updaters_witness :
    (∃ t, Task.findByPk (tasksPut exEnv exStore exU2 "t1"
        { title := some "Write report v3", assignedTo := some "u3" }).store "t1" = some t ∧
      t.assignedTo = some "u3") ∧
    (tasksPut exEnv exStore exU3 "t1"
      { title := some "Write report v3", assignedTo := some "u3" }).store = exStore :=
  ⟨((C20_assignedTo_mutable_by_updaters exEnv exStore exU2 "t1"
      { title := some "Write report v3", assignedTo := some "u3" } exTask1
      (by decide) (by decide)).1 (by decide) (by decide) (by decide)).2,
   ((C20_assignedTo_mutable_by_updaters exEnv exStore exU3 "t1"
      { title := some "Write report v3", assignedTo := some "u3" } exTask1
      (by decide) (by decide)).2 (by decide)).2⟩

/-! ## Soft delete and the quota -/

theorem filter_map_length_lt (p : Document → Bool) (f : Document → Document)
    (hf : ∀ x, p (f x) = true → p x = true) :
    ∀ l : List Document, (∃ x ∈ l, p x = true ∧ p (f x) = false) →
      ((l.map f).filter p).length < (l.filter p).length := by
  intro l
  induction l with
  | nil =>
    rintro ⟨x, hx, _⟩
    exact absurd hx (List.not_mem_nil x)
  | cons y rest ih =>
    rintro ⟨x, hx, hpx, hpfx⟩
    simp only [List.map_cons, List.filter_cons]
    rcases List.mem_cons.mp hx with hxy | hxr
    · subst hxy
      have hle := filter_map_length_le p f hf rest
      simp only [hpx, hpfx, if_true, Bool.false_eq_true, if_false, List.length_cons]
      omega
    · have hlt := ih ⟨x, hxr, hpx, hpfx⟩
      cases h1 : p (f y) with
      | true =>
        simp only [hf y h1, if_true, List.length_cons]
        omega
      | false =>
        cases h2 : p y with
        | true =>
          simp only [Bool.false_eq_true, if_false, if_true, List.length_cons]
          omega
        | false =>
          simp only [Bool.false_eq_true, if_false]
          exact hlt

theorem updateIsActive_false_count_lt (s : Store) (document : Document) (taskId : String)
    (hmem : document ∈ s.documents) (hactive : document.isActive = true)
    (htask : document.taskId = taskId) :
    Document.getDocumentCount (Document.updateIsActive s document false) taskId <
      Document.getDocumentCount s taskId := by
  unfold Document.getDocumentCount Document.updateIsActive
  apply filter_map_length_lt
  · intro x hx
    split_ifs at hx with hid
    · simp at hx
    · exact hx
  · refine ⟨document, hmem, ?_, ?_⟩
    · simp [hactive, htask]
    · simp

theorem documentsDelete_success_store (s : Store) (actor : Actor) (documentId : String)
    (document : Document) (hdoc : Document.findByPk s documentId = some document)
    (hdel : (documentsDelete s actor documentId).response.status = 200) :
    (documentsDelete s actor documentId).store = Document.updateIsActive s document false := by
  unfold documentsDelete at hdel ⊢
  rw [hdoc] at hdel ⊢
  dsimp only at hdel ⊢
  split at hdel
  · simp [reply] at hdel
  · rename_i hact
    rw [if_neg hact]
    split at hdel
    · rename_i hrole
      rw [if_pos hrole]
      split at hdel
      · simp [reply] at hdel
      · rename_i task htask
        split at hdel
        · simp [reply] at hdel
        · rename_i hallow
          rw [if_neg hallow]
          rfl
    · rename_i hrole
      rw [if_neg hrole]
      unfold softDelete
      cases Task.findByPk s document.taskId <;> rfl

theorem documentsUpload_admitted (env : Env) (s : Store) (actor : Actor) (taskId : String)
    (task : Task) (fs : List UploadedFile)
    (hfind : Task.findByPk s taskId = some task)
    (hauth : actor.role = "admin" ∨ actor.id = task.createdBy ∨
      task.assignedTo = some actor.id)
    (hne : fs ≠ [])
    (hquota : Document.getDocumentCount s taskId + fs.length ≤ 3)
    (huser : userExists s actor.id = true)
    (hvalid : ∀ f ∈ fs, fileValid f = true)
    (hnames : (fs.map (fun f => f.filename)).Nodup)
    (hfresh : ∀ f ∈ fs, ∀ d ∈ s.documents, d.fileName ≠ f.filename)
    (hids : ((List.range fs.length).map env.uuidv4).Nodup)
    (hidfresh : ∀ k, k < fs.length → ∀ d ∈ s.documents, d.id ≠ env.uuidv4 k) :
    (documentsUpload env s actor taskId (some fs)).response.status = 201 ∧
    (documentsUpload env s actor taskId (some fs)).store.documents =
      s.documents ++ batchRows env taskId actor.id 0 fs ∧
    Document.getDocumentCount (documentsUpload env s actor taskId (some fs)).store taskId =
      Document.getDocumentCount s taskId + fs.length := by
  have hlen : ¬ fs.length = 0 := fun h => hne (List.length_eq_zero.mp h)
  have hq : ¬ Document.getDocumentCount s taskId + fs.length > 3 := by omega
  have hrun := documentPromises_all_ok env taskId actor.id fs 0 s
    (taskFindByPk_exists s taskId task hfind) huser hvalid hnames hfresh
    (by rw [← List.range_eq_range']; exact hids)
    (fun k _ hk => hidfresh k (by omega))
  have hall : (List.map some (batchRows env taskId actor.id 0 fs)).all Option.isSome
      = true := by
    simp [List.all_eq_true]
  rw [documentsUpload_authorized env s actor taskId task (some fs) hfind hauth]
  simp only [if_neg hlen, if_neg hq, hrun, hall, if_true]
  refine ⟨by trivial, by trivial, ?_⟩
  rw [getDocumentCount_append, batchRows_filter, batchRows_length]

/-- C13: the count used by the upload guard is `Document.getDocumentCount`,
which counts the rows of the task with `isActive` true only.  For a task with
exactly 3 active documents, after a successful delete (answer 200) of one of
its active documents the task has at most 2 active documents, and an
authorized upload of 1 file that follows is not rejected by the quota; if the
file passes the validators of the model, its name and the generated id are
fresh and the uploader exists, the upload is answered 201 and the task has
one active document more. -/
theorem C13_soft_delete_frees_quota (env : Env) (s : Store) (deleter uploader : Actor)
    (documentId taskId : String) (document : Document) (task : Task) (f : UploadedFile)
    (hcount : Document.getDocumentCount s taskId = 3)
    (hdoc : Document.findByPk s documentId = some document)
    (hactive : document.isActive = true) (hdt : document.taskId = taskId)
    (hdel : (documentsDelete s deleter documentId).response.status = 200)
    (htask : Task.findByPk s taskId = some task)
    (hauth : uploader.role = "admin" ∨ uploader.id = task.createdBy ∨
      task.assignedTo = some uploader.id) :
    Document.getDocumentCount (documentsDelete s deleter documentId).store taskId ≤ 2 ∧
    (documentsUpload env (documentsDelete s deleter documentId).store uploader taskId
      (some [f])).response.status ≠ 400 ∧
    (userExists s uploader.id = true → fileValid f = true →
      (∀ d ∈ s.documents, d.fileName ≠ f.filename) →
      (∀ d ∈ s.documents, d.id ≠ env.uuidv4 0) →
      (documentsUpload env (documentsDelete s deleter documentId).store uploader taskId
        (some [f])).response.status = 201 ∧
      Document.getDocumentCount
        (documentsUpload env (documentsDelete s deleter documentId).store uploader taskId
          (some [f])).store taskId =
        Document.getDocumentCount (documentsDelete s deleter documentId).store taskId + 1) := by
  have hstore := documentsDelete_success_store s deleter documentId document hdoc hdel
  have hmem : document ∈ s.documents := List.mem_of_find?_eq_some hdoc
  have hlt := updateIsActive_false_count_lt s document taskId hmem hactive hdt
  have hpost : Document.getDocumentCount (Document.updateIsActive s document false) taskId
      ≤ 2 := by omega
  have htask2 : Task.findByPk (Document.updateIsActive s document false) taskId = some task :=
    htask
  rw [hstore]
  refine ⟨hpost, ?_, ?_⟩
  · rw [documentsUpload_authorized env _ uploader taskId task (some [f]) htask2 hauth]
    have hq : ¬ Document.getDocumentCount (Document.updateIsActive s document false) taskId
        + [f].length > 3 := by
      simp only [List.length_singleton]
      omega
    simp only [List.length_singleton, Nat.one_ne_zero, if_false]
    simp only [List.length_singleton] at hq
    rw [if_neg hq]
    split_ifs <;> simp
  · intro huser hvalid hfresh hidfresh
    have hdocs : ∀ d ∈ (Document.updateIsActive s document false).documents,
        ∃ d0 ∈ s.documents, d.fileName = d0.fileName ∧ d.id = d0.id := by
      intro d hd
      simp only [Document.updateIsActive, List.mem_map] at hd
      obtain ⟨d0, hd0, hdeq⟩ := hd
      refine ⟨d0, hd0, ?_⟩
      rw [← hdeq]
      split_ifs <;> exact ⟨rfl, rfl⟩
    have hadm := documentsUpload_admitted env (Document.updateIsActive s document false)
      uploader taskId task [f] htask2 hauth (by simp)
      (by simp only [List.length_singleton]; omega) huser
      (by intro g hg; rw [List.mem_singleton.mp hg]; exact hvalid)
      (by simp)
      (by
        intro g hg d hd
        rw [List.mem_singleton.mp hg]
        obtain ⟨d0, hd0, h1, _⟩ := hdocs d hd
        rw [h1]
        exact hfresh d0 hd0)
      (by simp [List.range_succ])
      (by
        intro k hk d hd
        have hk0 : k = 0 := by simpa using hk
        subst hk0
        obtain ⟨d0, hd0, _, h2⟩ := hdocs d hd
        rw [h2]
        exact hidfresh d0 hd0)
    exact ⟨hadm.1, by simpa using hadm.2.2⟩

/-- C13, instantiated with the case of the specification: `t1` has the 3
active documents `d1`, `d2`, `d4`; the assignee `u2` deletes `d1`, then the
creator `u1` uploads one file, which is answered 201; `t1` is back at 3. -/
theorem C13_soft_delete_frees_quota_witness :
    Document.getDocumentCount exStoreFull "t1" = 3 ∧
    (documentsUpload exEnv exStoreFull exU1 "t1" (some [exFile "a"])).response.status = 400 ∧
    (documentsUpload exEnv (documentsDelete exStoreFull exU2 "d1").store exU1 "t1"
      (some [exFile "a"])).response.status = 201 ∧
    Document.getDocumentCount
      (documentsUpload exEnv (documentsDelete exStoreFull exU2 "d1").store exU1 "t1"
        (some [exFile "a"])).store "t1" =
      Document.getDocumentCount (documentsDelete exStoreFull exU2 "d1").store "t1" + 1 :=
  ⟨by decide, by decide,
   ((C13_soft_delete_frees_quota exEnv exStoreFull exU2 exU1 "d1" "t1" (exDoc "d1" "u2" true)
      exTask1 (exFile "a") (by decide) (by decide) (by decide) (by decide) (by decide)
      (by decide) (by decide)).2.2 (by decide) (by decide) (by decide) (by decide)).1,
   ((C13_soft_delete_frees_quota exEnv exStoreFull exU2 exU1 "d1" "t1" (exDoc "d1" "u2" true)
      exTask1 (exFile "a") (by decide) (by decide) (by decide) (by decide) (by decide)
      (by decide) (by decide)).2.2 (by decide) (by decide) (by decide) (by decide)).2⟩

/-! ## Immutable document fields -/

theorem sendDownload_store_cases (s : Store) (document : Document) :
    (sendDownload s document).store = s ∨
    (sendDownload s document).store = Document.incrementDownloadCount s document := by
  unfold sendDownload
  split
  · exact Or.inl rfl
  · exact Or.inr rfl

theorem documentsDownload_store_cases (s : Store) (actor : Actor) (documentId : String) :
    (documentsDownload s actor documentId).store = s ∨
    ∃ d, (documentsDownload s actor documentId).store = Document.incrementDownloadCount s d := by
  have hsend : ∀ d, (sendDownload s d).store = s ∨
      ∃ e, (sendDownload s d).store = Document.incrementDownloadCount s e := by
    intro d
    rcases sendDownload_store_cases s d with h | h
    · exact Or.inl h
    · exact Or.inr ⟨d, h⟩
  unfold documentsDownload
  split
  · split <;> exact Or.inl rfl
  · split
    · exact Or.inl rfl
    · split
      · split
        · exact Or.inl rfl
        · split
          · exact Or.inl rfl
          · exact hsend _
      · exact hsend _

theorem documentsDelete_store_cases (s : Store) (actor : Actor) (documentId : String) :
    (documentsDelete s actor documentId).store = s ∨
    ∃ d, (documentsDelete s actor documentId).store = Document.updateIsActive s d false := by
  have hsoft : ∀ d t, (softDelete s d t).store = s ∨
      ∃ e, (softDelete s d t).store = Document.updateIsActive s e false := by
    intro d t
    unfold softDelete
    cases t <;> exact Or.inr ⟨d, rfl⟩
  unfold documentsDelete
  split
  · split <;> exact Or.inl rfl
  · split
    · exact Or.inl rfl
    · split
      · split
        · exact Or.inl rfl
        · split
          · exact Or.inl rfl
          · exact hsoft _ _
      · exact hsoft _ _

theorem incrementDownloadCount_frame (s : Store) (d : Document) :
    (Document.incrementDownloadCount s d).documents.map (fun x => { x with downloadCount := 0 }) =
      s.documents.map (fun x => { x with downloadCount := 0 }) ∧
    (Document.incrementDownloadCount s d).users = s.users ∧
    (Document.incrementDownloadCount s d).tasks = s.tasks := by
  refine ⟨?_, rfl, rfl⟩
  simp only [Document.incrementDownloadCount, List.map_map]
  apply List.map_congr_left
  intro x _
  simp only [Function.comp_apply]
  split_ifs <;> rfl

theorem updateIsActive_frame (s : Store) (d : Document) (value : Bool) :
    (Document.updateIsActive s d value).documents.map (fun x => { x with isActive := false }) =
      s.documents.map (fun x => { x with isActive := false }) ∧
    (Document.updateIsActive s d value).users = s.users ∧
    (Document.updateIsActive s d value).tasks = s.tasks := by
  refine ⟨?_, rfl, rfl⟩
  simp only [Document.updateIsActive, List.map_map]
  apply List.map_congr_left
  intro x _
  simp only [Function.comp_apply]
  split_ifs <;> rfl

theorem map_keys_of_downloadCount (l1 l2 : List Document)
    (h : l1.map (fun x => { x with downloadCount := 0 }) =
      l2.map (fun x => { x with downloadCount := 0 })) :
    l1.map (fun x => (x.id, x.taskId, x.uploadedBy)) =
      l2.map (fun x => (x.id, x.taskId, x.uploadedBy)) := by
  have h2 := congrArg (List.map (fun x : Document => (x.id, x.taskId, x.uploadedBy))) h
  simpa [List.map_map, Function.comp_def] using h2

theorem map_keys_of_isActive (l1 l2 : List Document)
    (h : l1.map (fun x => { x with isActive := false }) =
      l2.map (fun x => { x with isActive := false })) :
    l1.map (fun x => (x.id, x.taskId, x.uploadedBy)) =
      l2.map (fun x => (x.id, x.taskId, x.uploadedBy)) := by
  have h2 := congrArg (List.map (fun x : Document => (x.id, x.taskId, x.uploadedBy))) h
  simpa [List.map_map, Function.comp_def] using h2

/-- C21: invariant I2.  For every store, actor and document id, the three
operations the API offers on an existing document keep, row by row, the `id`,
`taskId` and `uploadedBy` of every document: download changes no column of
any row other than `downloadCount`, the inline view changes nothing at all,
and the soft delete changes no column of any row other than `isActive`. -/
theorem C21_document_task_and_uploader_immutable (s : Store) (actor : Actor)
    (documentId : String) :
    ((documentsDownload s actor documentId).store.documents.map
        (fun x => { x with downloadCount := 0 }) =
      s.documents.map (fun x => { x with downloadCount := 0 })) ∧
    (documentsView s actor documentId).store = s ∧
    ((documentsDelete s actor documentId).store.documents.map
        (fun x => { x with isActive := false }) =
      s.documents.map (fun x => { x with isActive := false })) ∧
    ((documentsDownload s actor documentId).store.documents.map
        (fun x => (x.id, x.taskId, x.uploadedBy)) =
      s.documents.map (fun x => (x.id, x.taskId, x.uploadedBy))) ∧
    ((documentsDelete s actor documentId).store.documents.map
        (fun x => (x.id, x.taskId, x.uploadedBy)) =
      s.documents.map (fun x => (x.id, x.taskId, x.uploadedBy))) := by
  have hdown : (documentsDownload s actor documentId).store.documents.map
        (fun x => { x with downloadCount := 0 }) =
      s.documents.map (fun x => { x with downloadCount := 0 }) := by
    rcases documentsDownload_store_cases s actor documentId with h | ⟨d, h⟩
    · rw [h]
    · rw [h]
      exact (incrementDownloadCount_frame s d).1
  have hdel : (documentsDelete s actor documentId).store.documents.map
        (fun x => { x with isActive := false }) =
      s.documents.map (fun x => { x with isActive := false }) := by
    rcases documentsDelete_store_cases s actor documentId with h | ⟨d, h⟩
    · rw [h]
    · rw [h]
      exact (updateIsActive_frame s d false).1
  exact ⟨hdown, documentsView_store s actor documentId, hdel,
    map_keys_of_downloadCount _ _ hdown, map_keys_of_isActive _ _ hdel⟩

/-! ## Permission of the generic user update -/

/-- C22: for every actor and every existing target user, the generic update
`PUT /api/users/:id` (on a body that passes validation) passes the permission
check, that is does not answer 403, exactly when the actor is an admin or the
target is the actor's own id; when it is denied the answer is 403
"Access denied" and the store is unchanged. -/
theorem C22_user_update_owner_or_admin (env : Env) (s : Store) (actor : Actor) (id : String)
    (body : UserBody) (user : User) (hvalid : userValidation env body = true)
    (hfind : User.findByPk s id = some user) :
    ((usersPut env s actor id body).response.status ≠ 403 ↔
      (actor.role = "admin" ∨ actor.id = id)) ∧
    (¬ (actor.role = "admin" ∨ actor.id = id) →
      usersPut env s actor id body = reply s 403 false (some "Access denied")) ∧
    ((usersPut env s actor id body).response.status = 403 →
      (usersPut env s actor id body).store = s) := by
  have hdenied : ¬ (actor.role = "admin" ∨ actor.id = id) →
      usersPut env s actor id body = reply s 403 false (some "Access denied") := by
    intro hno
    push_neg at hno
    unfold usersPut
    rw [hfind]
    simp [hvalid, hno.1, hno.2]
  have hallowed : (actor.role = "admin" ∨ actor.id = id) →
      (usersPut env s actor id body).response.status ≠ 403 := by
    intro hyes
    have hcond : (!decide (actor.id = id) && !decide (actor.role = "admin")) = false := by
      rcases hyes with h | h
      · simp [h]
      · simp [h]
    unfold usersPut
    rw [hfind]
    simp only [hvalid, Bool.not_true, Bool.false_eq_true, if_false, hcond]
    split_ifs
    · simp [reply]
    · cases User.update env s none user (stripRoleAndActive body) <;> simp [reply]
    · simp [reply]
    · cases User.update env s none user body <;> simp [reply]
  refine ⟨⟨fun hne => ?_, hallowed⟩, hdenied, fun h403 => ?_⟩
  · by_contra hno
    rw [hdenied hno] at hne
    exact hne rfl
  · by_cases hyes : actor.role = "admin" ∨ actor.id = id
    · exact absurd h403 (hallowed hyes)
    · rw [hdenied hyes]
      rfl

/-- C22, instantiated: `u2` may not update `u1`; `u1` and the admin may. -/
theorem C22_user_update_owner_or_admin_witness :
    usersPut exEnv exStore exU2 "u1" { firstName := some "X" } =
      reply exStore 403 false (some "Access denied") ∧
    (usersPut exEnv exStore exU1 "u1" { firstName := some "X" }).response.status ≠ 403 ∧
    (usersPut exEnv exStore exAdmin "u1" { firstName := some "X" }).response.status ≠ 403 :=
  ⟨(C22_user_update_owner_or_admin exEnv exStore exU2 "u1" { firstName := some "X" }
      (exUser "u1" "user") (by decide) (by decide)).2.1 (by decide),
   (C22_user_update_owner_or_admin exEnv exStore exU1 "u1" { firstName := some "X" }
      (exUser "u1" "user") (by decide) (by decide)).1.mpr (by decide),
   (C22_user_update_owner_or_admin exEnv exStore exAdmin "u1" { firstName := some "X" }
      (exUser "u1" "user") (by decide) (by decide)).1.mpr (by decide)⟩

/-! ## The `completedAt` hook -/

/-- C25: the hook `beforeUpdate` of model `Task`.  If the status changed and the
new status is `completed`, `completedAt` becomes the current time, a non-null
timestamp; if the status changed and the new status is not `completed`,
`completedAt` becomes null; if the status did not change the hook returns the
instance as it received it.  No other attribute is touched. -/
theorem C25_completedAt_follows_status (env : Env) (prev task : Task) :
    (task.status ≠ prev.status → task.status = "completed" →
      (Task.beforeUpdate env prev task).completedAt = some env.now) ∧
    (task.status ≠ prev.status → task.status ≠ "completed" →
      (Task.beforeUpdate env prev task).completedAt = none) ∧
    (task.status = prev.status → Task.beforeUpdate env prev task = task) ∧
    { Task.beforeUpdate env prev task with completedAt := none } =
      { task with completedAt := none } := by
  unfold Task.beforeUpdate
  refine ⟨?_, ?_, ?_, ?_⟩
  · intro h1 h2
    rw [if_pos ⟨h1, h2⟩]
  · intro h1 h2
    rw [if_neg (fun h => h2 h.2), if_pos ⟨h1, h2⟩]
  · intro h1
    rw [if_neg (fun h => h.1 h1), if_neg (fun h => h.1 h1)]
  · split_ifs <;> rfl

/-- C25, instantiated through the update route: the assignee `u2` sets the
status of `t1` from `todo` to `completed`; the stored `completedAt` is the
clock 1000 of the request. -/
theorem C25_completedAt_follows_status_witness :
    (Task.beforeUpdate exEnv exTask1 { exTask1 with status := "completed" }).completedAt =
      some 1000 ∧
    (Task.findByPk (tasksPut exEnv exStore exU2 "t1"
      { title := some "Write report", status := some "completed" }).store "t1").map
      (fun t => t.completedAt) = some (some 1000) :=
  ⟨(C25_completedAt_follows_status exEnv exTask1 { exTask1 with status := "completed" }).1
      (by decide) (by decide),
   by decide⟩

/-! ## Pagination -/

theorem roundToDouble_exact (n : Nat) (h : n ≤ 2 ^ 53) : roundToDouble n = JsNumber.int n := by
  unfold roundToDouble
  rw [if_pos h]

theorem scaleUp_spec (a b : Nat) (ha : 1 ≤ a) :
    ∀ (fuel k : Nat), 52 + b ≤ k + fuel → 2 ^ 52 * b ≤ a * 2 ^ (scaleUp fuel a b k) := by
  intro fuel
  induction fuel with
  | zero =>
    intro k hk
    simp only [scaleUp]
    have h1 : 2 ^ (52 + b) ≤ 2 ^ k := Nat.pow_le_pow_right (by norm_num) (by omega)
    have h2 : b ≤ 2 ^ b := Nat.le_of_lt (Nat.lt_two_pow b)
    calc 2 ^ 52 * b ≤ 2 ^ 52 * 2 ^ b := Nat.mul_le_mul_left _ h2
      _ = 2 ^ (52 + b) := (Nat.pow_add 2 52 b).symm
      _ ≤ 2 ^ k := h1
      _ = 1 * 2 ^ k := (Nat.one_mul _).symm
      _ ≤ a * 2 ^ k := Nat.mul_le_mul_right _ ha
  | succ fuel ih =>
    intro k hk
    simp only [scaleUp]
    split_ifs with h
    · exact h
    · exact ih (k + 1) (by omega)

theorem roundHalfEven_bounds (A l lo hi : Nat) (hl : 0 < l)
    (hlo : 2 * (l * lo) + l < 2 * A) (hhi : 2 * A + l < 2 * (l * hi)) :
    lo + 1 ≤ roundHalfEven A l ∧ roundHalfEven A l + 1 ≤ hi := by
  have hdm := Nat.div_add_mod A l
  have hmod := Nat.mod_lt A hl
  unfold roundHalfEven
  generalize A / l = t at hdm ⊢
  generalize A % l = r at hdm hmod ⊢
  have hlo2 : lo ≤ t := by
    by_contra hcon
    have h1 : t + 1 ≤ lo := by omega
    have h2 : l * (t + 1) ≤ l * lo := Nat.mul_le_mul_left l h1
    rw [Nat.mul_add, Nat.mul_one] at h2
    omega
  have hhi2 : t + 1 ≤ hi := by
    by_contra hcon
    have h1 : hi ≤ t := by omega
    have h2 : l * hi ≤ l * t := Nat.mul_le_mul_left l h1
    omega
  have hup : lo = t → l < 2 * r := by
    intro h
    subst h
    omega
  have hdown : t + 1 = hi → 2 * r < l := by
    intro h
    subst h
    rw [Nat.mul_add, Nat.mul_one] at hhi
    omega
  split_ifs with hc
  · constructor
    · omega
    · rcases hc with hc | hc
      · by_contra hcon
        have := hdown (by omega)
        omega
      · by_contra hcon
        have := hdown (by omega)
        omega
  · constructor
    · by_contra hcon
      have := hup (by omega)
      exact hc (Or.inl this)
    · omega

theorem ceilDiv_exact (c l : Nat) (hc : c < 2 ^ 53) (hl : 1 ≤ l) :
    ceilDiv c l = (c + l - 1) / l := by
  unfold ceilDiv
  by_cases h0 : c = 0
  · subst h0
    simp only [if_true]
    symm
    apply Nat.div_eq_of_lt
    omega
  · rw [if_neg h0]
    have hbranch : c < 2 ^ 53 * l := by
      calc c < 2 ^ 53 := hc
        _ = 2 ^ 53 * 1 := (Nat.mul_one _).symm
        _ ≤ 2 ^ 53 * l := Nat.mul_le_mul_left _ hl
    rw [if_pos hbranch]
    dsimp only
    have hk := scaleUp_spec c l (by omega) (53 + l) 0 (by omega)
    generalize scaleUp (53 + l) c l 0 = k at hk ⊢
    have hP : 0 < 2 ^ k := Nat.pow_pos (by norm_num)
    generalize 2 ^ k = P at hk hP ⊢
    -- l < 2 * P
    have hlP : l < 2 * P := by
      have h1 : 2 ^ 52 * l < 2 ^ 52 * (2 * P) := by
        calc 2 ^ 52 * l ≤ c * P := hk
          _ < 2 ^ 53 * P := Nat.mul_lt_mul_of_pos_right hc hP
          _ = 2 ^ 52 * (2 * P) := by ring
      exact Nat.lt_of_mul_lt_mul_left h1
    have hdm := Nat.div_add_mod c l
    have hmod := Nat.mod_lt c (show 0 < l by omega)
    by_cases hr : c % l = 0
    · -- exact quotient
      have hcq : c = l * (c / l) := by omega
      have hceil : (c + l - 1) / l = c / l := by
        have : c + l - 1 = (l - 1) + l * (c / l) := by omega
        rw [this, Nat.add_mul_div_left _ _ (by omega), Nat.div_eq_of_lt (by omega), Nat.zero_add]
      rw [hceil]
      generalize c / l = q at hcq ⊢
      have hA : c * P = l * (q * P) := by rw [hcq]; ring
      have hm : roundHalfEven (c * P) l = q * P := by
        unfold roundHalfEven
        rw [hA, Nat.mul_mod_right, Nat.mul_div_cancel_left _ (by omega : 0 < l)]
        simp
        omega
      rw [hm]
      have : q * P + P - 1 = (P - 1) + P * q := by
        have := Nat.mul_comm q P
        omega
      rw [this, Nat.add_mul_div_left _ _ hP, Nat.div_eq_of_lt (by omega), Nat.zero_add]
    · have hceil : (c + l - 1) / l = c / l + 1 := by
        have : c + l - 1 = (c % l - 1) + l * (c / l + 1) := by
          rw [Nat.mul_add, Nat.mul_one]; omega
        rw [this, Nat.add_mul_div_left _ _ (by omega), Nat.div_eq_of_lt (by omega), Nat.zero_add]
      rw [hceil]
      generalize c / l = q at hdm ⊢
      generalize c % l = r at hdm hmod hr ⊢
      have hr1 : 1 ≤ r := Nat.pos_of_ne_zero hr
      have hA : c * P = l * (q * P) + r * P := by rw [← hdm]; ring
      have hrP : P ≤ r * P := Nat.le_mul_of_pos_left P hr1
      have hlrP : P ≤ (l - r) * P := Nat.le_mul_of_pos_left P (by omega)
      have hsplit : l * P = r * P + (l - r) * P := by
        rw [← Nat.add_mul]; congr 1; omega
      have hb := roundHalfEven_bounds (c * P) l (q * P) ((q + 1) * P) (by omega)
        (by rw [hA]; omega)
        (by
          have : l * ((q + 1) * P) = l * (q * P) + l * P := by ring
          rw [hA, this]; omega)
      generalize roundHalfEven (c * P) l = m at hb
      have hq1 : (q + 1) * P = q * P + P := by ring
      rw [hq1] at hb
      have : m + P - 1 = (m - q * P - 1) + P * (q + 1) := by
        have := Nat.mul_comm P (q + 1)
        omega
      rw [this, Nat.add_mul_div_left _ _ hP, Nat.div_eq_of_lt (by omega), Nat.zero_add]

theorem ceilDiv_le_iff (count limit n : Nat) (hcount : count < 2 ^ 53) (hl : 1 ≤ limit) :
    ceilDiv count limit ≤ n ↔ count ≤ n * limit := by
  rw [ceilDiv_exact count limit hcount hl, ← Nat.lt_succ_iff,
    Nat.div_lt_iff_lt_mul (by omega), Nat.succ_mul]
  omega

theorem ceilDiv_eq_ceil (count limit : Nat) (hcount : count < 2 ^ 53) (hl : 1 ≤ limit) :
    ceilDiv count limit = ⌈(count : ℚ) / (limit : ℚ)⌉₊ := by
  have hpos : (0 : ℚ) < (limit : ℚ) := by exact_mod_cast hl
  apply eq_of_forall_ge_iff
  intro n
  rw [ceilDiv_le_iff count limit n hcount hl, Nat.ceil_le, div_le_iff₀ hpos]
  exact_mod_cast Iff.rfl

/-- C24, the claim evaluated on the code.  The page parameter
`9007199254740993` (2^53 + 1) passes the validator, and `parseInt` returns
the double 9007199254740992: the response reports that page, and the offset
is 90071992547409904, not (page - 1) * limit = 90071992547409920.  And for
13510798882111492 items with limit 3 the quotient is a double without
fraction digits, 4503599627370497, where the ceiling of count / limit is
4503599627370498. -/
theorem C24_pagination_beyond_double_precision :
    decimalValue (some "9007199254740993") = some 9007199254740993 ∧
    pageOf (some "9007199254740993") = JsNumber.int 9007199254740992 ∧
    (pagination (pageOf (some "9007199254740993")) (limitOf (some "10")) 25).currentPage ≠
      JsNumber.int 9007199254740993 ∧
    offsetOf (pageOf (some "9007199254740993")) (limitOf (some "10")) =
      JsNumber.int 90071992547409904 ∧
    offsetOf (pageOf (some "9007199254740993")) (limitOf (some "10")) ≠
      JsNumber.int ((9007199254740993 - 1) * 10) ∧
    (pagination (pageOf none) (limitOf (some "3")) 13510798882111492).totalPages =
      JsNumber.int 4503599627370497 ∧
    (13510798882111492 + 3 - 1) / 3 = 4503599627370498 := by
  decide

/-- C24, amended: pagination of the task and user lists within the range
where the numbers of JavaScript are exact.  For a page parameter that denotes
an integer page with 1 ≤ page ≤ 2^53, a limit parameter that denotes a limit
with 1 ≤ limit ≤ 100, with (page - 1) * limit ≤ 2^53 and a count of items
below 2^53: the handler works with that page and limit,
`offset = (page - 1) * limit`, `totalPages` is the ceiling of count / limit,
`hasPrevPage` holds iff page > 1, and `hasNextPage` holds iff
page * limit < count; with both parameters absent the page is 1 and the limit
is 10. -/
theorem C24_pagination_arithmetic (pageParam limitParam : Option String)
    (page limit count : Nat)
    (hpage : decimalValue pageParam = some page) (hlimit : decimalValue limitParam = some limit)
    (hp : 1 ≤ page) (hl : 1 ≤ limit) (hmax : limit ≤ 100)
    (hpmax : page ≤ 2 ^ 53) (hoffset : (page - 1) * limit ≤ 2 ^ 53) (hcount : count < 2 ^ 53) :
    pageOf pageParam = JsNumber.int page ∧ limitOf limitParam = JsNumber.int limit ∧
    offsetOf (pageOf pageParam) (limitOf limitParam) = JsNumber.int ((page - 1) * limit) ∧
    (pagination (pageOf pageParam) (limitOf limitParam) count).totalPages =
      JsNumber.int ⌈(count : ℚ) / (limit : ℚ)⌉₊ ∧
    (∃ n, (pagination (pageOf pageParam) (limitOf limitParam) count).totalPages =
        JsNumber.int n ∧ count ≤ n * limit ∧ ∀ k, count ≤ k * limit → n ≤ k) ∧
    ((pagination (pageOf pageParam) (limitOf limitParam) count).hasPrevPage = true ↔
      page > 1) ∧
    ((pagination (pageOf pageParam) (limitOf limitParam) count).hasNextPage = true ↔
      page * limit < count) ∧
    (pagination (pageOf pageParam) (limitOf limitParam) count).currentPage =
      JsNumber.int page ∧
    (pagination (pageOf pageParam) (limitOf limitParam) count).totalItems = count ∧
    (pagination (pageOf pageParam) (limitOf limitParam) count).itemsPerPage =
      JsNumber.int limit ∧
    pageOf none = JsNumber.int 1 ∧ limitOf none = JsNumber.int 10 := by
  have hP : pageOf pageParam = JsNumber.int page := by
    unfold pageOf parseInt orDefault
    rw [hpage]
    simp only [roundToDouble_exact page hpmax]
    rw [if_neg (by omega)]
  have hL : limitOf limitParam = JsNumber.int limit := by
    unfold limitOf parseInt orDefault
    rw [hlimit]
    simp only [roundToDouble_exact limit (le_trans hmax (by norm_num))]
    rw [if_neg (by omega)]
  have hl0 : limit ≠ 0 := by omega
  have hT : totalPagesOf count (JsNumber.int limit) = JsNumber.int (ceilDiv count limit) := by
    simp only [totalPagesOf, if_neg hl0]
  rw [hP, hL]
  refine ⟨rfl, rfl, ?_, ?_, ⟨ceilDiv count limit, ?_, ?_, ?_⟩, ?_, ?_, rfl, rfl, rfl, rfl, rfl⟩
  · have hpred : page - 1 ≤ 2 ^ 53 := le_trans (Nat.sub_le _ _) hpmax
    simp only [offsetOf, JsNumber.pred, JsNumber.mul, roundToDouble_exact _ hpred,
      roundToDouble_exact _ hoffset]
  · simp only [pagination, hT, ceilDiv_eq_ceil count limit hcount hl]
  · simp only [pagination, hT]
  · exact (ceilDiv_le_iff count limit _ hcount hl).mp (Nat.le_refl _)
  · intro k hk
    exact (ceilDiv_le_iff count limit k hcount hl).mpr hk
  · simp [pagination, JsNumber.lt]
  · simp only [pagination, hT, JsNumber.lt, decide_eq_true_eq]
    rw [← not_le, ceilDiv_le_iff count limit page hcount hl, not_le]

/-- C24, amended, instantiated: page 2 of 25 items, 10 per page, is the page at
offset 10 of 3 pages, with a previous and a next page; page 3 has no next
page. -/
theorem C24_pagination_arithmetic_witness :
    pageOf (some "2") = JsNumber.int 2 ∧ limitOf (some "10") = JsNumber.int 10 ∧
    offsetOf (pageOf (some "2")) (limitOf (some "10")) = JsNumber.int 10 ∧
    (pagination (pageOf (some "2")) (limitOf (some "10")) 25).totalPages = JsNumber.int 3 ∧
    (pagination (pageOf (some "2")) (limitOf (some "10")) 25).hasPrevPage = true ∧
    (pagination (pageOf (some "2")) (limitOf (some "10")) 25).hasNextPage = true ∧
    (pagination (pageOf (some "3")) (limitOf (some "10")) 25).hasNextPage = false := by
  have h := C24_pagination_arithmetic (some "2") (some "10") 2 10 25 (by decide) (by decide)
    (by decide) (by decide) (by decide) (by decide) (by decide) (by decide)
  exact ⟨h.1, h.2.1, h.2.2.1, by decide, h.2.2.2.2.2.1.mpr (by decide),
    h.2.2.2.2.2.2.1.mpr (by decide), by decide⟩

/-! ## Change of password -/

theorem userValidate_password (env : Env) (s : Store) (user : User) (body : PasswordBody)
    (p : String) (hvalid : passwordValidation body = true) (hnew : body.newPassword = some p)
    (hlen : p.length ≤ 255) :
    User.validate env s user { password := body.newPassword } = true := by
  unfold passwordValidation at hvalid
  rw [hnew] at hvalid
  simp only [Bool.and_eq_true, decide_eq_true_eq] at hvalid
  have h6 : 6 ≤ validatorLength p := hvalid.2.1.1.1
  have h255 : validatorLength p ≤ 255 := le_trans (Nat.sub_le _ _) hlen
  simp [User.validate, hnew, lenBetween, h6, h255]

theorem usersChangePassword_proceeds (env : Env) (s : Store) (actor : Actor) (id : String)
    (body : PasswordBody) (user : User) (p : String)
    (hfind : User.findByPk s id = some user)
    (hvalid : passwordValidation body = true)
    (hnew : body.newPassword = some p) (hlen : p.length ≤ 255)
    (hgate : actor.role = "admin" ∨ actor.id = id)
    (hcheck : ¬ (actor.id = id ∧
      (!env.bcryptCompare (body.currentPassword.getD "") user.password) = true)) :
    usersChangePassword env s actor id body =
      { store := User.save s (User.beforeUpdate env (some user.password)
          { password := body.newPassword } (User.set user { password := body.newPassword }))
        response := { status := 200, success := true,
                      message := some "Password changed successfully" } } := by
  have hpass : ¬ (actor.role ≠ "admin" ∧ actor.id ≠ id) := by
    rintro ⟨h1, h2⟩
    rcases hgate with h | h
    · exact h1 h
    · exact h2 h
  have hmodel := userValidate_password env s user body p hvalid hnew hlen
  unfold usersChangePassword requireOwnershipOrAdmin
  rw [hfind]
  simp only [if_neg hpass, hvalid, Bool.not_true, Bool.false_eq_true, if_false, if_neg hcheck,
    User.update, hmodel, if_true]

/-- C26: in `PUT /api/users/:id/change-password`, for an existing target and a
body that passes validation: when the actor targets the own id (admin or
not) the current password is compared, a failed comparison answers 400
"Current password is incorrect" and leaves the store unchanged, a successful
one lets the change through; when an admin targets another user the outcome
does not depend on the comparison at all, the answer is 200 and the stored
password is the one `user.update` writes for `newPassword`, its bcrypt
hash. -/
theorem C26_current_password_checked_for_self_only (env : Env) (s : Store) (actor : Actor)
    (id : String) (body : PasswordBody) (user : User) (p : String)
    (hfind : User.findByPk s id = some user)
    (hvalid : passwordValidation body = true)
    (hnew : body.newPassword = some p) (hlen : p.length ≤ 255) :
    (actor.id = id →
      env.bcryptCompare (body.currentPassword.getD "") user.password = false →
      usersChangePassword env s actor id body =
        reply s 400 false (some "Current password is incorrect")) ∧
    (actor.id = id →
      env.bcryptCompare (body.currentPassword.getD "") user.password = true →
      (usersChangePassword env s actor id body).response.status = 200) ∧
    (actor.role = "admin" → actor.id ≠ id →
      (∀ compare : String → String → Bool,
        usersChangePassword { env with bcryptCompare := compare } s actor id body =
          usersChangePassword env s actor id body) ∧
      (usersChangePassword env s actor id body).response.status = 200 ∧
      ∃ r, User.findByPk (usersChangePassword env s actor id body).store id = some r ∧
        r.password = (if user.password = p then p else env.bcryptHash p) ∧
        { r with password := "" } = { user with password := "" }) := by
  refine ⟨?_, ?_, ?_⟩
  · intro hself hwrong
    have hpass : ¬ (actor.role ≠ "admin" ∧ actor.id ≠ id) := fun h => h.2 hself
    unfold usersChangePassword requireOwnershipOrAdmin
    rw [hfind]
    simp [hpass, hvalid, hself, hwrong]
  · intro hself hright
    rw [usersChangePassword_proceeds env s actor id body user p hfind hvalid hnew hlen
      (Or.inr hself) (by simp [hright])]
  · intro hadmin hother
    have hrun : ∀ e : Env, usersChangePassword e s actor id body =
        { store := User.save s (User.beforeUpdate e (some user.password)
            { password := body.newPassword } (User.set user { password := body.newPassword }))
          response := { status := 200, success := true,
                        message := some "Password changed successfully" } } :=
      fun e => usersChangePassword_proceeds e s actor id body user p hfind hvalid hnew hlen
        (Or.inl hadmin) (fun h => hother h.1)
    refine ⟨?_, ?_, ?_⟩
    · intro compare
      rw [hrun, hrun]
      rfl
    · rw [hrun]
    · rw [hrun]
      have hid : (User.beforeUpdate env (some user.password) { password := body.newPassword }
          (User.set user { password := body.newPassword })).id = user.id := by
        unfold User.beforeUpdate User.set
        rw [hnew]
        dsimp only
        split_ifs <;> rfl
      refine ⟨User.beforeUpdate env (some user.password) { password := body.newPassword }
          (User.set user { password := body.newPassword }), ?_, ?_, ?_⟩
      · rw [userFindByPk_save, hfind]
        simp only [Option.map_some', Option.some.injEq]
        rw [if_pos hid.symm]
      · unfold User.beforeUpdate User.set
        rw [hnew]
        dsimp only
        by_cases hsame : user.password = p
        · simp [hsame]
        · have hne : ¬ some user.password = some p := fun h => hsame (Option.some.inj h)
          simp [hsame, hne]
      · unfold User.beforeUpdate User.set
        rw [hnew]
        dsimp only
        split_ifs <;> rfl

/-- C26, instantiated: `u1` with a wrong current password is answered 400; the
admin `a1` changes the password of `u1` with a wrong current password and the
stored password becomes the hash of the new one. -/
theorem C26_current_password_checked_for_self_only_witness :
    usersChangePassword exEnv exStore exU1 "u1"
        { currentPassword := some "Wrong1", newPassword := some "Newpass1" } =
      reply exStore 400 false (some "Current password is incorrect") ∧
    (usersChangePassword exEnv exStore exAdmin "u1"
        { currentPassword := some "Wrong1", newPassword := some "Newpass1" }).response.status
      = 200 ∧
    (User.findByPk (usersChangePassword exEnv exStore exAdmin "u1"
        { currentPassword := some "Wrong1", newPassword := some "Newpass1" }).store "u1").map
      (fun u => u.password) = some "hash:Newpass1" :=
  ⟨(C26_current_password_checked_for_self_only exEnv exStore exU1 "u1"
      { currentPassword := some "Wrong1", newPassword := some "Newpass1" } (exUser "u1" "user")
      "Newpass1" (by decide) (by decide) (by decide) (by decide)).1 (by decide) (by decide),
   ((C26_current_password_checked_for_self_only exEnv exStore exAdmin "u1"
      { currentPassword := some "Wrong1", newPassword := some "Newpass1" } (exUser "u1" "user")
      "Newpass1" (by decide) (by decide) (by decide) (by decide)).2.2
      (by decide) (by decide)).2.1,
   by decide⟩

/-! ## Serialisation of users -/

theorem mem_deleteKey (values : List (String × JsonValue)) (key : String)
    (kv : String × JsonValue) :
    kv ∈ deleteKey values key ↔ kv ∈ values ∧ kv.1 ≠ key := by
  simp [deleteKey, List.mem_filter]

theorem lookup_deleteKey_ne (key k : String) (hne : k ≠ key) :
    ∀ values : List (String × JsonValue),
      (deleteKey values key).lookup k = values.lookup k := by
  intro values
  induction values with
  | nil => rfl
  | cons kv rest ih =>
    obtain ⟨a, b⟩ := kv
    unfold deleteKey at ih ⊢
    by_cases ha : a = key
    · have hka : (k == a) = false := by
        rw [ha]
        simpa using hne
      simp only [List.filter_cons, ha, ne_eq, not_true_eq_false, decide_False,
        Bool.false_eq_true, if_false, List.lookup_cons]
      rw [← ha, hka]
      rw [← ha] at ih
      exact ih
    · simp only [List.filter_cons, ha, ne_eq, not_false_eq_true, decide_True, if_true,
        List.lookup_cons]
      rw [ih]

theorem lookup_none_of_no_key (k : String) :
    ∀ values : List (String × JsonValue), (∀ kv ∈ values, kv.1 ≠ k) →
      values.lookup k = none := by
  intro values
  induction values with
  | nil => intro _; rfl
  | cons kv rest ih =>
    intro h
    obtain ⟨a, b⟩ := kv
    have ha : a ≠ k := h (a, b) (List.mem_cons_self _ _)
    have hka : (k == a) = false := by simpa using fun h2 : k = a => ha h2.symm
    rw [List.lookup_cons, hka]
    exact ih (fun kv hkv => h kv (List.mem_cons_of_mem _ hkv))

theorem toJSON_keys (u : User) :
    ∀ kv ∈ User.toJSON u, kv.1 ≠ "password" ∧ kv.1 ≠ "refreshToken" := by
  intro kv hkv
  unfold User.toJSON at hkv
  rw [mem_deleteKey, mem_deleteKey] at hkv
  exact ⟨hkv.1.2, hkv.2⟩

/-- C27: for every user record, `User.toJSON` returns an object with no key
`password` and no key `refreshToken` that has, under every other key, the
value of the record (`this.get()`); hence the `data.user` of a successful
`PUT /api/users/:id`, which is `user.toJSON()`, has neither key. -/
theorem C27_toJSON_hides_credentials (u : User) (env : Env) (s : Store) (actor : Actor)
    (id : String) (body : UserBody) :
    (∀ kv ∈ User.toJSON u, kv.1 ≠ "password" ∧ kv.1 ≠ "refreshToken") ∧
    (User.toJSON u).lookup "password" = none ∧
    (User.toJSON u).lookup "refreshToken" = none ∧
    (∀ key, key ≠ "password" → key ≠ "refreshToken" →
      (User.toJSON u).lookup key = (User.get u).lookup key) ∧
    (∀ data, usersPutData env s actor id body = some data →
      (∀ kv ∈ data, kv.1 ≠ "password" ∧ kv.1 ≠ "refreshToken") ∧
      data.lookup "password" = none ∧ data.lookup "refreshToken" = none) := by
  have hnone : ∀ v : User, (User.toJSON v).lookup "password" = none ∧
      (User.toJSON v).lookup "refreshToken" = none := fun v =>
    ⟨lookup_none_of_no_key "password" _ (fun kv hkv => (toJSON_keys v kv hkv).1),
     lookup_none_of_no_key "refreshToken" _ (fun kv hkv => (toJSON_keys v kv hkv).2)⟩
  refine ⟨toJSON_keys u, (hnone u).1, (hnone u).2, ?_, ?_⟩
  · intro key h1 h2
    unfold User.toJSON
    rw [lookup_deleteKey_ne "refreshToken" key h2, lookup_deleteKey_ne "password" key h1]
  · intro data hdata
    unfold usersPutData at hdata
    split_ifs at hdata
    cases hfound : User.findByPk (usersPut env s actor id body).store id with
    | none =>
      rw [hfound] at hdata
      exact absurd hdata (by simp)
    | some v =>
      rw [hfound] at hdata
      have hv : User.toJSON v = data := by simpa using hdata
      rw [← hv]
      exact ⟨toJSON_keys v, (hnone v).1, (hnone v).2⟩

/-- C27, instantiated: `u1` updates the own record, password included; the
`data.user` returned has the new first name and neither credential. -/
theorem C27_toJSON_hides_credentials_witness :
    usersPutData exEnv exStore exU1 "u1" { firstName := some "X", password := some "Newpass1" } =
      some [("id", JsonValue.str "u1"), ("email", JsonValue.str "u1@example.org"),
        ("firstName", JsonValue.str "X"), ("lastName", JsonValue.str "Last"),
        ("role", JsonValue.str "user"), ("isActive", JsonValue.bool true),
        ("lastLogin", JsonValue.null)] ∧
    (User.toJSON (exUser "u1" "user")).lookup "password" = none ∧
    (User.toJSON (exUser "u1" "user")).lookup "email" =
      (User.get (exUser "u1" "user")).lookup "email" :=
  ⟨by decide,
   (C27_toJSON_hides_credentials (exUser "u1" "user") exEnv exStore exU1 "u1" {}).2.1,
   (C27_toJSON_hides_credentials (exUser "u1" "user") exEnv exStore exU1 "u1" {}).2.2.2.1
     "email" (by decide) (by decide)⟩

/-! ## The status filter of the task list -/

theorem buildWhereClause_status_without_overdue (now : Nat) (query : TaskQuery)
    (userId userRole x : String) (hstatus : query.status = some x) (hx : x ≠ "")
    (hover : query.overdue ≠ some "true") :
    (buildWhereClause now query userId userRole).status = some (StatusFilter.eq x) := by
  unfold buildWhereClause
  simp only [hstatus, truthy, hx, ne_eq, not_false_eq_true, decide_True, if_true, hover,
    if_false, Option.getD_some]
  split_ifs <;> rfl

theorem buildWhereClause_filters_status_without_overdue (iLike : String → String → Bool)
    (now : Nat) (query : TaskQuery) (userId userRole x : String) (t : Task)
    (hstatus : query.status = some x) (hx : x ≠ "")
    (hover : query.overdue ≠ some "true")
    (h : (buildWhereClause now query userId userRole).holds iLike t = true) :
    t.status = x := by
  unfold WhereClause.holds at h
  rw [buildWhereClause_status_without_overdue now query userId userRole x hstatus hx hover] at h
  simp only [Bool.and_eq_true, decide_eq_true_eq] at h
  exact h.1.1.1.1.2

/-- C28, the failing case: the list is asked with `status=todo` and
`overdue=true`.  The overdue branch replaces `where.status` by
`Op.ne 'completed'`, so the task `t3`, whose status is `in_progress` and whose
due date is past, satisfies the where-clause although its status is not
`todo`. -/
theorem C28_overdue_overwrites_status_filter :
    (buildWhereClause exEnv.now { status := some "todo", overdue := some "true" }
      exU1.id exU1.role).status = some (StatusFilter.ne "completed") ∧
    (buildWhereClause exEnv.now { status := some "todo", overdue := some "true" }
      exU1.id exU1.role).holds exILike exTaskOverdue = true ∧
    (buildWhereClause exEnv.now { status := some "todo", overdue := some "true" }
      exAdmin.id exAdmin.role).holds exILike exTaskOverdue = true ∧
    exTaskOverdue.status ≠ "todo" ∧
    exTaskOverdue ∈ tasksListRows exEnv exILike
      { exStore with tasks := exStore.tasks ++ [exTaskOverdue] } exU1
      { status := some "todo", overdue := some "true" } := by
  decide

/-! ## Partial failure of an upload -/

/-- C29, the failing case: the creator `u1` uploads two PDFs to task `t2`, the
second one empty (size 0).  Multer accepts both and the quota check passes;
`Document.create` succeeds for the first file and fails the validator
`fileSize min 1` for the second.  The answer is 500 and the catch block
unlinks both files, but the row of the first file stays in the table: it
points at a path that is no longer on disk, and downloading it answers 404
"File not found on server". -/
theorem C29_failed_upload_leaves_row :
    upload exEnv (some [exFile "a", exEmptyFile "b"]) = true ∧
    (documentsUpload exEnv (stageFiles exStore (some [exFile "a", exEmptyFile "b"])) exU1 "t2"
      (some [exFile "a", exEmptyFile "b"])).response.status = 500 ∧
    (documentsUpload exEnv (stageFiles exStore (some [exFile "a", exEmptyFile "b"])) exU1 "t2"
      (some [exFile "a", exEmptyFile "b"])).store.documents =
      exStore.documents ++ [Document.build "uuid-0" (exFile "a") "t2" "u1"] ∧
    (Document.build "uuid-0" (exFile "a") "t2" "u1").filePath ∉
      (documentsUpload exEnv (stageFiles exStore (some [exFile "a", exEmptyFile "b"])) exU1 "t2"
        (some [exFile "a", exEmptyFile "b"])).store.files ∧
    (documentsDownload
      (documentsUpload exEnv (stageFiles exStore (some [exFile "a", exEmptyFile "b"])) exU1 "t2"
        (some [exFile "a", exEmptyFile "b"])).store exU1 "uuid-0").response =
      { status := 404, success := false, message := some "File not found on server" } := by
  decide

/-! ## The creator of a task under updates -/

/-- C30, the failing case: `u2`, assignee of `t1` and refused its deletion,
sends `PUT /api/tasks/t1` with `createdBy = u2`.  The body goes whole to
`task.update`, the answer is 200 and the stored creator is `u2`, who then
deletes the task.  The create route, by contrast, overrides a `createdBy` of
the body with the id of the actor. -/
theorem C30_assignee_takes_over_task :
    (tasksDelete exStore exU2 "t1").response.status = 403 ∧
    (tasksPut exEnv exStore exU2 "t1"
      { title := some "Write report", createdBy := some "u2" }).response.status = 200 ∧
    (Task.findByPk (tasksPut exEnv exStore exU2 "t1"
      { title := some "Write report", createdBy := some "u2" }).store "t1").map
      (fun t => t.createdBy) = some "u2" ∧
    (tasksDelete (tasksPut exEnv exStore exU2 "t1"
      { title := some "Write report", createdBy := some "u2" }).store exU2 "t1").response.status
      = 200 ∧
    (Task.findByPk (tasksPost exEnv exStore exU1
      { title := some "New task", createdBy := some "u3" }).store "uuid-0").map
      (fun t => t.createdBy) = some "u1" := by
  decide

/-! ## Two uploads interleaved -/

theorem documentsUpload_eq_phases (env : Env) (s : Store) (actor : Actor) (taskId : String)
    (files : Option (List UploadedFile)) :
    documentsUpload env s actor taskId files =
      (match uploadCheck s actor taskId files with
      | UploadCheck.done out => out
      | UploadCheck.admitted fs => uploadInsert env s actor taskId fs) := by
  unfold documentsUpload uploadCheck uploadInsert
  split
  · split <;> rfl
  · split
    · rfl
    · split
      · rfl
      · split
        · rfl
        · dsimp only
          split
          · rfl
          · rfl

/-- C23, the failing schedule: task `t1` has 2 active documents; `u1` and `u2`
each upload 1 file.  Both requests run up to their quota check on the same
store and both read the count 2, so both are admitted; then each inserts its
row.  Both are answered 201 and `t1` ends with 4 active documents, above the
cap.  Run one after the other, the same two requests give 201 and then the
quota rejection 400. -/
theorem C23_interleaved_uploads_both_admitted :
    Document.getDocumentCount exStore "t1" = 2 ∧
    uploadCheck exStore exU1 "t1" (some [exFile "a"]) = UploadCheck.admitted [exFile "a"] ∧
    uploadCheck exStore exU2 "t1" (some [exFile "b"]) = UploadCheck.admitted [exFile "b"] ∧
    (uploadInsert exEnv exStore exU1 "t1" [exFile "a"]).response.status = 201 ∧
    (uploadInsert exEnvB (uploadInsert exEnv exStore exU1 "t1" [exFile "a"]).store exU2 "t1"
      [exFile "b"]).response.status = 201 ∧
    Document.getDocumentCount
      (uploadInsert exEnvB (uploadInsert exEnv exStore exU1 "t1" [exFile "a"]).store exU2 "t1"
        [exFile "b"]).store "t1" = 4 ∧
    (documentsUpload exEnv exStore exU1 "t1" (some [exFile "a"])).response.status = 201 ∧
    (documentsUpload exEnvB (documentsUpload exEnv exStore exU1 "t1" (some [exFile "a"])).store
      exU2 "t1" (some [exFile "b"])).response.status = 400 := by
  decide

end TaskManagement
